import Mathlib

/-!
# Website risk assessment: scoring engine and sequential orchestrator

A shallow embedding of `go_backend/internal/scrapers` (types.go,
risk_assessment.go, orchestrator.go, additional_scrapers.go, privacy_terms.go)
and of `go_backend/internal/website_risk` (the mock collectors and the domain
cleaning of its scrapers package, the concurrent orchestrator, and the record
handling of handlers.go), together with the properties proved about them.

Conventions of the embedding.

* Go `string` values are Lean `String`s (sequences of Unicode code points),
  that is, the Go strings that are valid UTF-8. A Go string with other bytes
  is outside the data model; it appears only at the string encoder of the JSON
  model, as a list of byte values.
* Go `int` is `Int`; every sum computed by the scoring code is bounded by 99,
  so no machine overflow can occur.
* A Go `map[string]V` is the list of its entries with pairwise distinct keys;
  a nil map or nil slice is `none`.
* The order in which `for ... range` walks a map is not fixed by the language.
  It is an explicit argument (`RangeOrder`) of every function that ranges over
  a map.
* Collectors that perform network I/O are fields of `World`; the pure
  functions of the package are translated line by line.
* JSON text is kept as the document it denotes; member names and `omitempty`
  come from the struct tags.
* A Go `interface{}` is a value of the sum type `Any`; a type assertion with
  an `ok` flag returns an `Option`.
* The order in which concurrently sent values arrive on a channel is an
  explicit argument (`Arrival`), like the iteration order of a map.
-/

namespace Scrapers

/-! ## Go runtime and standard library -/

/-- Entries of a Go `map[string]V`, with pairwise distinct keys. -/
abbrev GoMap (V : Type) := List (String × V)

/-- Map assignment `m[k] = v`: overwrite the entry of `k` or add a new one. -/
def GoMap.set {V : Type} (m : GoMap V) (k : String) (v : V) : GoMap V :=
  if m.any (fun e => e.1 == k) then
    m.map (fun e => if e.1 == k then (k, v) else e)
  else
    m ++ [(k, v)]

/-- Map lookup `m[k]` together with its presence flag. -/
def GoMap.get? {V : Type} (m : GoMap V) (k : String) : Option V :=
  (m.find? (fun e => e.1 == k)).map Prod.snd

/-- Keys of a map. -/
def GoMap.keys {V : Type} (m : GoMap V) : List String :=
  m.map Prod.fst

/-- Values of a map. -/
def GoMap.values {V : Type} (m : GoMap V) : List V :=
  m.map Prod.snd

/-- One admissible iteration order of `for ... range` over maps: any
rearrangement of the entries. -/
structure RangeOrder where
  enum : {V : Type} → GoMap V → GoMap V
  perm : ∀ {V : Type} (m : GoMap V), List.Perm (enum m) m

/-- Iteration in insertion order. -/
def RangeOrder.insertion : RangeOrder :=
  ⟨fun m => m, fun m => List.Perm.refl m⟩

/-- Iteration in reverse insertion order. -/
def RangeOrder.reversed : RangeOrder :=
  ⟨fun m => m.reverse, fun m => List.reverse_perm m⟩

/-- Go `time.Time`: seconds and nanoseconds elapsed since January 1, year 1,
00:00:00 UTC, and the optional monotonic clock reading. -/
structure Time where
  sec : Int := 0
  nsec : Nat := 0
  mono : Option Int := none
deriving DecidableEq

/-- Go `Time.IsZero`. -/
def Time.IsZero (t : Time) : Bool :=
  t.sec == 0 && t.nsec == 0

/-- Go `unicode.IsSpace`. -/
def isSpace (c : Char) : Bool :=
  let n := c.toNat
  n == 0x09 || n == 0x0A || n == 0x0B || n == 0x0C || n == 0x0D || n == 0x20 ||
  n == 0x85 || n == 0xA0 || n == 0x1680 || (0x2000 ≤ n && n ≤ 0x200A) ||
  n == 0x2028 || n == 0x2029 || n == 0x202F || n == 0x205F || n == 0x3000

/-- Scanner of `strings.Fields`: `cur` is the field being read, reversed. -/
def fieldsAux : List Char → List Char → List (List Char)
  | [], cur => if cur.isEmpty then [] else [cur.reverse]
  | c :: cs, cur =>
    if isSpace c then
      if cur.isEmpty then fieldsAux cs [] else cur.reverse :: fieldsAux cs []
    else
      fieldsAux cs (c :: cur)

/-- Go `strings.Fields`: the maximal runs of non-space characters. -/
def Fields (s : String) : List String :=
  (fieldsAux s.data []).map String.mk

/-- Go `unicode.ToLower`: ASCII letters are folded directly, any other code
point goes through the case table `tbl` of the Go runtime. -/
def toLowerRune (tbl : Char → Char) (c : Char) : Char :=
  if c.toNat < 128 then
    if 65 ≤ c.toNat ∧ c.toNat ≤ 90 then Char.ofNat (c.toNat + 32) else c
  else
    tbl c

/-- Go `strings.ToLower`. -/
def ToLower (tbl : Char → Char) (s : String) : String :=
  String.mk (s.data.map (toLowerRune tbl))

/-- Whether `sub` occurs in `l` as a contiguous block. -/
def containsAux (sub : List Char) : List Char → Bool
  | [] => sub.isEmpty
  | c :: cs => sub.isPrefixOf (c :: cs) || containsAux sub cs

/-- Go `strings.Contains`. -/
def Contains (s substr : String) : Bool :=
  containsAux substr.data s.data

/-- Splitting a character list at every occurrence of `sep`. -/
def splitAux (sep : Char) : List Char → List Char → List (List Char)
  | [], cur => [cur.reverse]
  | c :: cs, cur =>
    if c == sep then cur.reverse :: splitAux sep cs [] else splitAux sep cs (c :: cur)

/-- Go `strings.Split` for a separator of one character, the only kind the
package passes. -/
def Split (s : String) (sep : Char) : List String :=
  (splitAux sep s.data []).map String.mk

/-- Go `strings.Trim`: drop leading and trailing characters of `cutset`. -/
def Trim (s cutset : String) : String :=
  let inCut := fun c => cutset.data.contains c
  String.mk ((((s.data.dropWhile inCut).reverse).dropWhile inCut).reverse)

/-! ## Data model (types.go, godaddy_whois_scraper.go, ...) -/

structure HTTPSResult where
  HasHTTPS : Bool := false
  Protocol : String := ""
  Status : String := ""
  PageTitle : String := ""
  Error : String := ""
deriving DecidableEq

structure SSLFingerprintResult where
  Domain : String := ""
  SHA256Fingerprint : String := ""
  HasSHA256 : Bool := false
  Error : String := ""
deriving DecidableEq

structure WhoisResult where
  DomainName : String := ""
  Registrar : String := ""
  CreationDate : Time := {}
  ExpirationDate : Time := {}
  UpdatedDate : Time := {}
  NameServers : Option (List String) := none
  Error : String := ""
deriving DecidableEq

structure PrivacyTermsResult where
  IsAccessible : Bool := false
  SSLValid : Bool := false
  TermsOfServicePresent : Bool := false
  PrivacyPolicyPresent : Bool := false
  LegalName : String := ""
deriving DecidableEq

structure DetectionsCounts where
  Detected : Int := 0
  Checks : Int := 0
deriving DecidableEq

structure URLVoidResult where
  WebsiteAddress : String := ""
  LastAnalysis : String := ""
  DetectionsCounts : DetectionsCounts := {}
  RegisteredOn : String := ""
  RegisteredSince : String := ""
  IPAddress : String := ""
  ReverseDNS : String := ""
  ASN : String := ""
  ServerLocation : String := ""
  LatitudeLongitude : String := ""
  City : String := ""
  Region : String := ""
  Error : String := ""
deriving DecidableEq

structure IPVoidResult where
  IPAddress : String := ""
  CountryCode : String := ""
  CountryName : String := ""
  ISP : String := ""
  ASN : String := ""
  DetectionsCount : DetectionsCounts := {}
  ReverseHostname : String := ""
  BlacklistStatus : Option (GoMap String) := none
  Error : String := ""
deriving DecidableEq

structure PageSizeResult where
  PageSizeKB : Int := 0
  PageSizeBytes : Int := 0
  LoadTime : String := ""
  Error : String := ""
deriving DecidableEq

structure TrafficVolumeResult where
  GlobalRank : String := ""
  CountryRank : String := ""
  MonthlyVisits : String := ""
  BounceRate : String := ""
  PagesPerVisit : String := ""
  AvgVisitDuration : String := ""
  Error : String := ""
deriving DecidableEq

structure PopupAdsResult where
  HasPopups : Bool := false
  HasAds : Bool := false
  Error : String := ""
deriving DecidableEq

structure LinkedInPresence where
  Presence : Bool := false
  URL : String := ""
deriving DecidableEq

structure SocialPresence where
  LinkedIn : LinkedInPresence := {}
deriving DecidableEq

structure SocialPresenceResult where
  SocialPresence : SocialPresence := {}
deriving DecidableEq

structure GoDaddyWhoisResult where
  Name : String := ""
  RegistryDomainID : String := ""
  RegisteredOn : String := ""
  ExpiresOn : String := ""
  UpdatedOn : String := ""
  DomainStatus : String := ""
  NameServers : Option (List String) := none
  Error : String := ""
deriving DecidableEq

structure GoogleSafeBrowsingResult where
  Domain : String := ""
  CurrentStatus : String := ""
  SiteInfo : String := ""
  Error : String := ""
deriving DecidableEq

structure TrancoListResult where
  Domain : String := ""
  TrancoRank : String := ""
  Error : String := ""
deriving DecidableEq

structure MerchantBusiness where
  CountryCode : String := ""
  CountrySupported : Bool := false
deriving DecidableEq

structure MCCDetails where
  MCCCode : String := ""
  MCCCategory : String := ""
  MCCRestricted : Bool := false
deriving DecidableEq

structure GeopoliticalRisk where
  IsRisky : Bool := false
deriving DecidableEq

/-- The aggregate record of one assessment (types.go, `RiskAssessment`). -/
structure RiskAssessment where
  DomainName : String := ""
  MerchantBusiness : MerchantBusiness := {}
  MCCDetails : MCCDetails := {}
  PrivacyAndTerms : PrivacyTermsResult := {}
  HTTPSCheck : HTTPSResult := {}
  SSLSha256Fingerprint : SSLFingerprintResult := {}
  SocialPresence : SocialPresenceResult := {}
  Whois : WhoisResult := {}
  GoDaddyWhois : GoDaddyWhoisResult := {}
  URLVoid : URLVoidResult := {}
  IPVoid : IPVoidResult := {}
  GoogleSafeBrowsing : GoogleSafeBrowsingResult := {}
  TrancoList : TrancoListResult := {}
  PageSize : PageSizeResult := {}
  TrafficVolume : TrafficVolumeResult := {}
  PopupAndAds : PopupAdsResult := {}
  IsRiskyGeopolitical : GeopoliticalRisk := {}
  RiskScore : Int := 0
  RiskCategory : String := ""
  RiskBreakdown : Option (GoMap Int) := none
  CreatedAt : Time := {}
deriving DecidableEq

/-- Result of the external classifier (`mcc.MCCResult`); the floating-point
confidence, which no caller in the package reads, is left out. -/
structure MCCResult where
  MCCCode : String := ""
  Description : String := ""
  ReasonForScore : String := ""
  MCCRestricted : Bool := false
  Error : String := ""
deriving DecidableEq

/-! ## Static tables and helpers (types.go) -/

def RiskyCountries : List String :=
  ["CU", "IR", "KP", "SY", "RU", "BY", "MM", "VE", "YE", "ZW",
   "SD", "SS", "LY", "SO", "CF", "CD", "UA"]

def OnboardingSupportedCountries : List String :=
  ["BE", "DE", "ES", "FR", "GB", "NL", "IT", "US"]

def RestrictedMCCCodes : List String :=
  ["0742", "4411", "4511", "4722", "4812", "4814", "4816", "4829", "5047", "5094", "5099", "5499", "5699",
   "5734", "5912", "5921", "5933", "5966", "5968", "5969", "5971", "5993", "5995", "5999", "6012", "6051",
   "6211", "6282", "6300", "6531", "7011", "7273", "7276", "7297", "7299", "7322", "7372", "7375", "7389",
   "7393", "7399", "7512", "7841", "7994", "7995", "7996", "7999", "8011", "8099", "8299", "8398", "8399",
   "8651", "8999", "9223", "9399"]

def RiskCategories : GoMap (Int × Int) :=
  [("low_risk", (0, 45)), ("med_risk", (45, 81)), ("high_risk", (81, 100))]

def IsRiskyCountry (countryCode : String) : Bool :=
  RiskyCountries.any (fun country => country == countryCode)

def IsCountrySupported (countryCode : String) : Bool :=
  OnboardingSupportedCountries.any (fun country => country == countryCode)

def IsRestrictedMCC (mccCode : String) : Bool :=
  RestrictedMCCCodes.any (fun mcc => mcc == mccCode)

/-! ## Scoring and classification (risk_assessment.go) -/

/-- Translation of `CalculateRiskScore`: fourteen guarded map assignments, then
the sum of the map values in the iteration order `ord`. -/
def CalculateRiskScore (ord : RangeOrder) (assessment : RiskAssessment) : Int × GoMap Int :=
  let scores : GoMap Int := []
  let scores := if !assessment.PrivacyAndTerms.PrivacyPolicyPresent then
    scores.set "privacy_policy" 5 else scores
  let scores := if !assessment.PrivacyAndTerms.TermsOfServicePresent then
    scores.set "terms_of_service" 5 else scores
  let scores := if !assessment.PrivacyAndTerms.IsAccessible then
    scores.set "privacy_accessible" 5 else scores
  let scores := if !assessment.HTTPSCheck.HasHTTPS then
    scores.set "https" 12 else scores
  let scores := if !assessment.SSLSha256Fingerprint.HasSHA256 then
    scores.set "ssl_fingerprint" 12 else scores
  let scores := if !assessment.SocialPresence.SocialPresence.LinkedIn.Presence then
    scores.set "linkedin_presence" 6 else scores
  let scores := if assessment.Whois.CreationDate.IsZero && assessment.URLVoid.RegisteredOn == "" then
    scores.set "domain_age" 8 else scores
  let scores := if assessment.URLVoid.DetectionsCounts.Detected > 0 then
    scores.set "urlvoid_detections" 6 else scores
  let scores := if assessment.IPVoid.DetectionsCount.Detected > 0 then
    scores.set "ipvoid_detections" 6 else scores
  let scores := if assessment.PageSize.PageSizeKB > 0 && assessment.PageSize.PageSizeKB < 100 then
    scores.set "page_size" 9 else scores
  let scores := if assessment.TrafficVolume.GlobalRank == "N/A" &&
      assessment.TrafficVolume.MonthlyVisits == "N/A" then
    scores.set "traffic_vol_missing" 4 else scores
  let scores := if assessment.PopupAndAds.HasPopups then
    scores.set "popups" 7 else scores
  let scores := if assessment.PopupAndAds.HasAds then
    scores.set "ads" 4 else scores
  let scores := if assessment.IsRiskyGeopolitical.IsRisky then
    scores.set "risky_geography" 10 else scores
  let totalScore := (ord.enum scores).foldl (fun totalScore e => totalScore + e.2) 0
  (totalScore, scores)

/-- Translation of `CategorizeRisk`: the first band met in iteration order that
contains the score, and "high_risk" when the loop ends without a match. -/
def CategorizeRisk (ord : RangeOrder) (score : Int) : String :=
  match (ord.enum RiskCategories).find? (fun e => score ≥ e.2.1 && score < e.2.2) with
  | some e => e.1
  | none => "high_risk"

/-- Translation of `AssessRisk`; `now` is the value of `time.Now()`. -/
def AssessRisk (ord : RangeOrder) (now : Time) (assessment : RiskAssessment) : RiskAssessment :=
  let result := CalculateRiskScore ord assessment
  let riskScore := result.1
  let scores := result.2
  let riskCategory := CategorizeRisk ord riskScore
  { assessment with
    RiskScore := riskScore
    RiskCategory := riskCategory
    RiskBreakdown := some scores
    CreatedAt := now }

def GetMerchantBusinessDetails (countryCode : String) : MerchantBusiness :=
  { CountryCode := countryCode, CountrySupported := IsCountrySupported countryCode }

/-- Translation of `fallbackMCCClassification`; `tbl` is the case table used
by `strings.ToLower`. -/
def fallbackMCCClassification (tbl : Char → Char) (domain : String) : MCCDetails :=
  let domainLower := ToLower tbl domain
  if Contains domainLower "bank" || Contains domainLower "financial" then
    { MCCCode := "6012", MCCCategory := "Financial Services", MCCRestricted := true }
  else if Contains domainLower "casino" || Contains domainLower "gambling" ||
      Contains domainLower "bet" then
    { MCCCode := "7995", MCCCategory := "Gambling", MCCRestricted := true }
  else if Contains domainLower "crypto" || Contains domainLower "bitcoin" ||
      Contains domainLower "blockchain" then
    { MCCCode := "6051", MCCCategory := "Cryptocurrency", MCCRestricted := true }
  else if Contains domainLower "shop" || Contains domainLower "store" ||
      Contains domainLower "ecommerce" then
    { MCCCode := "5999", MCCCategory := "E-commerce", MCCRestricted := false }
  else if Contains domainLower "restaurant" || Contains domainLower "food" ||
      Contains domainLower "cafe" then
    { MCCCode := "5812", MCCCategory := "Food & Beverage", MCCRestricted := false }
  else if Contains domainLower "hotel" || Contains domainLower "travel" ||
      Contains domainLower "booking" then
    { MCCCode := "7011", MCCCategory := "Travel & Hospitality", MCCRestricted := true }
  else if Contains domainLower "health" || Contains domainLower "medical" ||
      Contains domainLower "pharmacy" then
    { MCCCode := "8011", MCCCategory := "Healthcare", MCCRestricted := true }
  else
    { MCCCode := "7399", MCCCategory := "Business Services", MCCRestricted := true }

/-- Translation of `ExtractIPFromURLVoid`. -/
def ExtractIPFromURLVoid (urlvoidResult : URLVoidResult) : String :=
  if urlvoidResult.IPAddress != "" then
    match Fields urlvoidResult.IPAddress with
    | part :: _ => part
    | [] => ""
  else
    ""

/-- Translation of `CheckGeopoliticalRisk`. -/
def CheckGeopoliticalRisk (countryCode : String) : GeopoliticalRisk :=
  let countryCode :=
    if Contains countryCode "(" then
      match Split countryCode ' ' with
      | part :: _ => Trim part "()"
      | [] => countryCode
    else
      countryCode
  { IsRisky := IsRiskyCountry countryCode }

/-! ## Collectors without network access (additional_scrapers.go) -/

/-- Translation of `CheckTrafficVolume`, a placeholder that ignores its input. -/
def CheckTrafficVolume (_domain : String) : TrafficVolumeResult :=
  { GlobalRank := "N/A"
    CountryRank := "N/A"
    MonthlyVisits := "N/A"
    BounceRate := "N/A"
    PagesPerVisit := "N/A"
    AvgVisitDuration := "N/A" }

/-! ## Sequential orchestrator (orchestrator.go) -/

/-- The name-to-code table local to `extractCountryCodeFromName`. -/
def countryMapping : GoMap String :=
  [("united states", "US"), ("united kingdom", "GB"), ("germany", "DE"), ("france", "FR"),
   ("canada", "CA"), ("australia", "AU"), ("japan", "JP"), ("china", "CN"), ("india", "IN"),
   ("brazil", "BR"), ("russia", "RU"), ("south korea", "KR"), ("netherlands", "NL"),
   ("sweden", "SE"), ("switzerland", "CH"), ("singapore", "SG"), ("hong kong", "HK"),
   ("ireland", "IE"), ("belgium", "BE"), ("denmark", "DK"), ("finland", "FI"),
   ("norway", "NO"), ("austria", "AT"), ("italy", "IT"), ("spain", "ES"), ("portugal", "PT"),
   ("poland", "PL"), ("czech republic", "CZ"), ("hungary", "HU"), ("romania", "RO"),
   ("bulgaria", "BG"), ("greece", "GR"), ("turkey", "TR"), ("israel", "IL"),
   ("saudi arabia", "SA"), ("united arab emirates", "AE"), ("egypt", "EG"),
   ("south africa", "ZA"), ("mexico", "MX"), ("argentina", "AR"), ("chile", "CL"),
   ("colombia", "CO"), ("peru", "PE"), ("venezuela", "VE"), ("thailand", "TH"),
   ("vietnam", "VN"), ("philippines", "PH"), ("indonesia", "ID"), ("malaysia", "MY"),
   ("taiwan", "TW"), ("new zealand", "NZ")]

/-- Translation of `extractCountryCodeFromName`. -/
def extractCountryCodeFromName (tbl : Char → Char) (countryName : String) : String :=
  if countryName != "" then
    let lowerName := ToLower tbl countryName
    match countryMapping.get? lowerName with
    | some code => code
    | none => ""
  else
    ""

/-- Everything outside the package that one run depends on: the map iteration
order, the Unicode case table, the two clock readings stored in the aggregate,
and the answer of every collector that goes to the network. -/
structure World where
  ord : RangeOrder
  lowerTable : Char → Char
  startTime : Time
  scoreTime : Time
  ClassifyMCC : String → MCCResult
  CheckHTTPS : String → HTTPSResult
  GetSSLFingerprint : String → SSLFingerprintResult
  CheckPrivacyTerms : String → PrivacyTermsResult
  CheckSocialPresence : String → SocialPresenceResult
  GetWhoisData : String → WhoisResult
  GetURLVoidData : String → URLVoidResult
  GetGoDaddyWhoisData : String → GoDaddyWhoisResult
  GetGoogleSafeBrowsingData : String → GoogleSafeBrowsingResult
  GetTrancoListData : String → TrancoListResult
  CheckPageSize : String → PageSizeResult
  CheckPopupAds : String → PopupAdsResult
  GetIPVoidData : String → IPVoidResult

/-- Translation of `CheckMCC`: the external classifier, and the keyword
fallback when the classifier reports an error. -/
def CheckMCC (w : World) (domain : String) : MCCDetails :=
  let result := w.ClassifyMCC domain
  if result.Error != "" then
    fallbackMCCClassification w.lowerTable domain
  else
    { MCCCode := result.MCCCode
      MCCCategory := result.Description
      MCCRestricted := result.MCCRestricted }

/-- One collector invocation made by `RunAssessment`, with its argument. -/
inductive Call where
  | CheckMCC (domain : String)
  | CheckHTTPS (domain : String)
  | GetSSLFingerprint (domain : String)
  | CheckPrivacyTerms (domain : String)
  | CheckSocialPresence (domain : String)
  | GetWhoisData (domain : String)
  | GetURLVoidData (domain : String)
  | GetGoDaddyWhoisData (domain : String)
  | GetGoogleSafeBrowsingData (domain : String)
  | GetTrancoListData (domain : String)
  | CheckPageSize (domain : String)
  | CheckTrafficVolume (domain : String)
  | CheckPopupAds (domain : String)
  | GetIPVoidData (ipAddress : String)
  | CheckGeopoliticalRisk (countryCode : String)
deriving DecidableEq

/-- What `RunAssessment` returns (the aggregate and the Go `error`, `none`
standing for nil), together with the collector invocations it made, in order. -/
structure RunResult where
  assessment : RiskAssessment
  err : Option String
  calls : List Call

/-- Translation of `WebsiteRiskAssessmentOrchestrator.RunAssessment`. The
thirteen collectors of steps 2 and 3 take only the domain and each assigns its
own field, so their assignments are written as one record update and their
invocations are listed in source order. -/
def RunAssessment (w : World) (domainName countryCode : String) : RunResult :=
  let assessment : RiskAssessment := { DomainName := domainName, CreatedAt := w.startTime }
  let assessment := { assessment with MerchantBusiness := GetMerchantBusinessDetails countryCode }
  if !assessment.MerchantBusiness.CountrySupported then
    { assessment := assessment, err := none, calls := [] }
  else
    let assessment :=
      { assessment with
        MCCDetails := CheckMCC w domainName
        HTTPSCheck := w.CheckHTTPS domainName
        SSLSha256Fingerprint := w.GetSSLFingerprint domainName
        PrivacyAndTerms := w.CheckPrivacyTerms domainName
        SocialPresence := w.CheckSocialPresence domainName
        Whois := w.GetWhoisData domainName
        URLVoid := w.GetURLVoidData domainName
        GoDaddyWhois := w.GetGoDaddyWhoisData domainName
        GoogleSafeBrowsing := w.GetGoogleSafeBrowsingData domainName
        TrancoList := w.GetTrancoListData domainName
        PageSize := w.CheckPageSize domainName
        TrafficVolume := CheckTrafficVolume domainName
        PopupAndAds := w.CheckPopupAds domainName }
    let calls : List Call :=
      [Call.CheckMCC domainName, Call.CheckHTTPS domainName, Call.GetSSLFingerprint domainName,
       Call.CheckPrivacyTerms domainName, Call.CheckSocialPresence domainName,
       Call.GetWhoisData domainName, Call.GetURLVoidData domainName,
       Call.GetGoDaddyWhoisData domainName, Call.GetGoogleSafeBrowsingData domainName,
       Call.GetTrancoListData domainName, Call.CheckPageSize domainName,
       Call.CheckTrafficVolume domainName, Call.CheckPopupAds domainName]
    let ipAddress := ExtractIPFromURLVoid assessment.URLVoid
    let step :=
      if ipAddress != "" then
        ({ assessment with IPVoid := w.GetIPVoidData ipAddress },
          calls ++ [Call.GetIPVoidData ipAddress])
      else
        ({ assessment with
            IPVoid := { Error := "No IP Address found in URLVoid response" } }, calls)
    let assessment := step.1
    let calls := step.2
    let countryCodeFromIP := assessment.IPVoid.CountryCode
    let countryCodeFromIP :=
      if countryCodeFromIP == "" then
        extractCountryCodeFromName w.lowerTable assessment.IPVoid.CountryName
      else
        countryCodeFromIP
    let assessment :=
      { assessment with IsRiskyGeopolitical := CheckGeopoliticalRisk countryCodeFromIP }
    let calls := calls ++ [Call.CheckGeopoliticalRisk countryCodeFromIP]
    let assessment := AssessRisk w.ord w.scoreTime assessment
    { assessment := assessment, err := none, calls := calls }

/-- Translation of `ValidateAssessmentResult`. -/
def ValidateAssessmentResult (assessment : RiskAssessment) : List String :=
  let issues : List String := []
  let issues := if assessment.DomainName == "" then
    issues ++ ["Domain name is required"] else issues
  let issues := if assessment.RiskScore < 0 || assessment.RiskScore > 100 then
    issues ++ ["Risk score " ++ toString assessment.RiskScore ++ " is out of valid range (0-100)"]
    else issues
  let issues := if assessment.RiskCategory == "" then
    issues ++ ["Risk category is required"] else issues
  let issues := if assessment.CreatedAt.IsZero then
    issues ++ ["Creation timestamp is required"] else issues
  issues

/-! ## The rule table of the scoring engine, as the design document gives it -/

/-- One row of the rule table: the label under which the points are recorded,
the points, and the condition on the aggregate. -/
structure ScoreRule where
  label : String
  points : Int
  fires : RiskAssessment → Bool

/-- The fourteen rows of the rule table, in the order of the document. -/
def ruleTable : List ScoreRule :=
  [⟨"privacy_policy", 5, fun a => !a.PrivacyAndTerms.PrivacyPolicyPresent⟩,
   ⟨"terms_of_service", 5, fun a => !a.PrivacyAndTerms.TermsOfServicePresent⟩,
   ⟨"privacy_accessible", 5, fun a => !a.PrivacyAndTerms.IsAccessible⟩,
   ⟨"https", 12, fun a => !a.HTTPSCheck.HasHTTPS⟩,
   ⟨"ssl_fingerprint", 12, fun a => !a.SSLSha256Fingerprint.HasSHA256⟩,
   ⟨"linkedin_presence", 6, fun a => !a.SocialPresence.SocialPresence.LinkedIn.Presence⟩,
   ⟨"domain_age", 8, fun a => a.Whois.CreationDate.IsZero && a.URLVoid.RegisteredOn == ""⟩,
   ⟨"urlvoid_detections", 6, fun a => a.URLVoid.DetectionsCounts.Detected > 0⟩,
   ⟨"ipvoid_detections", 6, fun a => a.IPVoid.DetectionsCount.Detected > 0⟩,
   ⟨"page_size", 9, fun a => a.PageSize.PageSizeKB > 0 && a.PageSize.PageSizeKB < 100⟩,
   ⟨"traffic_vol_missing", 4,
     fun a => a.TrafficVolume.GlobalRank == "N/A" && a.TrafficVolume.MonthlyVisits == "N/A"⟩,
   ⟨"popups", 7, fun a => a.PopupAndAds.HasPopups⟩,
   ⟨"ads", 4, fun a => a.PopupAndAds.HasAds⟩,
   ⟨"risky_geography", 10, fun a => a.IsRiskyGeopolitical.IsRisky⟩]

/-- Running a list of rules against an aggregate, one guarded assignment each. -/
def applyRules (a : RiskAssessment) (rules : List ScoreRule) (m : GoMap Int) : GoMap Int :=
  rules.foldl (fun m r => if r.fires a then m.set r.label r.points else m) m

/-- The rows that fire on an aggregate, as label and points. -/
def firing (a : RiskAssessment) (rules : List ScoreRule) : GoMap Int :=
  rules.filterMap (fun r => if r.fires a then some (r.label, r.points) else none)

/-- The arguments of the IP-reputation invocations recorded in a call log. -/
def ipVoidArgs (calls : List Call) : List String :=
  calls.filterMap (fun c =>
    match c with
    | Call.GetIPVoidData ipAddress => some ipAddress
    | _ => none)

/-! ## Sample inputs used to exercise the definitions -/

/-- A world in which every collector answers with a compliant result and the
domain-reputation scan resolves the address 9.9.9.9. -/
def World.compliant : World where
  ord := RangeOrder.insertion
  lowerTable := fun c => c
  startTime := { sec := 63900000000, nsec := 0, mono := some 1 }
  scoreTime := { sec := 63900000040, nsec := 0, mono := some 2 }
  ClassifyMCC := fun _ => { MCCCode := "5812", Description := "Restaurants" }
  CheckHTTPS := fun _ => { HasHTTPS := true, Protocol := "https", Status := "200 OK" }
  GetSSLFingerprint := fun d => { Domain := d, SHA256Fingerprint := "ab12", HasSHA256 := true }
  CheckPrivacyTerms := fun _ =>
    { IsAccessible := true, SSLValid := true, TermsOfServicePresent := true,
      PrivacyPolicyPresent := true }
  CheckSocialPresence := fun _ => { SocialPresence := { LinkedIn := { Presence := true } } }
  GetWhoisData := fun d => { DomainName := d, CreationDate := { sec := 63000000000 } }
  GetURLVoidData := fun d =>
    { WebsiteAddress := d, RegisteredOn := "1995-08-14", IPAddress := "9.9.9.9" }
  GetGoDaddyWhoisData := fun d => { Name := d, RegisteredOn := "1995-08-14" }
  GetGoogleSafeBrowsingData := fun d => { Domain := d, CurrentStatus := "No unsafe content found" }
  GetTrancoListData := fun d => { Domain := d, TrancoRank := "1200" }
  CheckPageSize := fun _ => { PageSizeKB := 250, PageSizeBytes := 256000 }
  CheckPopupAds := fun _ => {}
  GetIPVoidData := fun ip => { IPAddress := ip, CountryCode := "US", CountryName := "United States" }

/-- A world in which every collector fails: each result is a zero payload, and
the domain-reputation scan resolves no address. -/
def World.failing : World where
  ord := RangeOrder.reversed
  lowerTable := fun c => c
  startTime := { sec := 63900000000, nsec := 0, mono := some 1 }
  scoreTime := { sec := 63900000040, nsec := 0, mono := some 2 }
  ClassifyMCC := fun _ => { MCCCode := "0000", Description := "Unknown", Error := "timeout" }
  CheckHTTPS := fun _ => { Error := "timeout" }
  GetSSLFingerprint := fun d => { Domain := d, Error := "timeout" }
  CheckPrivacyTerms := fun _ => {}
  CheckSocialPresence := fun _ => {}
  GetWhoisData := fun _ => { Error := "timeout" }
  GetURLVoidData := fun _ => { IPAddress := "  ", Error := "timeout" }
  GetGoDaddyWhoisData := fun _ => { RegisteredOn := "unknown", Error := "timeout" }
  GetGoogleSafeBrowsingData := fun d => { Domain := d, Error := "timeout" }
  GetTrancoListData := fun d => { Domain := d, Error := "timeout" }
  CheckPageSize := fun _ => { Error := "timeout" }
  CheckPopupAds := fun _ => { Error := "timeout" }
  GetIPVoidData := fun ip => { IPAddress := ip, Error := "timeout" }

/-- An aggregate on which all fourteen rules fire. -/
def worstCase : RiskAssessment :=
  { URLVoid := { DetectionsCounts := { Detected := 1, Checks := 40 } }
    IPVoid := { DetectionsCount := { Detected := 1, Checks := 90 } }
    PageSize := { PageSizeKB := 12, PageSizeBytes := 12345 }
    TrafficVolume := { GlobalRank := "N/A", MonthlyVisits := "N/A" }
    PopupAndAds := { HasPopups := true, HasAds := true }
    IsRiskyGeopolitical := { IsRisky := true } }

/-- An aggregate whose only registration date comes from the GoDaddy lookup. -/
def goDaddyDateOnly : RiskAssessment :=
  { GoDaddyWhois := { Name := "example.com", RegisteredOn := "1995-08-14" } }


/-! ## Recommendation and compliance reporter (orchestrator.go, risk_assessment.go) -/

/-- Translation of `GetRecommendations`; `%d` prints the decimal form of the
detection count. -/
def GetRecommendations (assessment : RiskAssessment) : List String :=
  let recommendations : List String := []
  let recommendations := if !assessment.HTTPSCheck.HasHTTPS then
    recommendations ++ ["Implement HTTPS encryption for security"] else recommendations
  let recommendations := if !assessment.SSLSha256Fingerprint.HasSHA256 then
    recommendations ++ ["Obtain a valid SSL certificate"] else recommendations
  let recommendations := if !assessment.PrivacyAndTerms.PrivacyPolicyPresent then
    recommendations ++ ["Add a privacy policy to your website"] else recommendations
  let recommendations := if !assessment.PrivacyAndTerms.TermsOfServicePresent then
    recommendations ++ ["Add terms of service to your website"] else recommendations
  let recommendations := if !assessment.SocialPresence.SocialPresence.LinkedIn.Presence then
    recommendations ++ ["Establish a LinkedIn company presence"] else recommendations
  let recommendations := if assessment.IsRiskyGeopolitical.IsRisky then
    recommendations ++ ["Address geopolitical risk factors"] else recommendations
  let recommendations := if assessment.URLVoid.DetectionsCounts.Detected > 0 then
    recommendations ++ ["Address " ++ toString assessment.URLVoid.DetectionsCounts.Detected
      ++ " security detections found by URLVoid"] else recommendations
  let recommendations := if assessment.IPVoid.DetectionsCount.Detected > 0 then
    recommendations ++ ["Address " ++ toString assessment.IPVoid.DetectionsCount.Detected
      ++ " IP reputation issues found by IPVoid"] else recommendations
  let recommendations :=
    if assessment.PageSize.PageSizeKB > 0 && assessment.PageSize.PageSizeKB < 100 then
      recommendations ++
        ["Consider adding more content to your website - current page size is very small"]
    else recommendations
  let recommendations := if assessment.PopupAndAds.HasPopups then
    recommendations ++ ["Consider reducing popup usage for better user experience"]
    else recommendations
  let recommendations := if assessment.PopupAndAds.HasAds then
    recommendations ++ ["Ensure advertising compliance with relevant regulations"]
    else recommendations
  let recommendations := if assessment.Whois.CreationDate.IsZero then
    recommendations ++ ["Verify domain registration information is publicly available"]
    else recommendations
  let recommendations := if assessment.RiskScore > 45 then
    recommendations ++ ["Consider improving overall website security and compliance"]
    else recommendations
  let recommendations := if recommendations.length == 0 then
    recommendations ++ ["Website appears to meet basic security and compliance requirements"]
    else recommendations
  recommendations

/-- Translation of `GetComplianceStatus`. -/
def GetComplianceStatus (assessment : RiskAssessment) : GoMap Bool :=
  [("https_compliant", assessment.HTTPSCheck.HasHTTPS),
   ("ssl_compliant", assessment.SSLSha256Fingerprint.HasSHA256),
   ("privacy_compliant", assessment.PrivacyAndTerms.PrivacyPolicyPresent),
   ("terms_compliant", assessment.PrivacyAndTerms.TermsOfServicePresent),
   ("accessibility_compliant", assessment.PrivacyAndTerms.IsAccessible),
   ("security_compliant", assessment.URLVoid.DetectionsCounts.Detected == 0 &&
      assessment.IPVoid.DetectionsCount.Detected == 0),
   ("geopolitical_compliant", !assessment.IsRiskyGeopolitical.IsRisky),
   ("mcc_compliant", !assessment.MCCDetails.MCCRestricted),
   ("overall_compliant", assessment.RiskScore < 45)]

/-- Translation of `GetFailedComplianceItems`; the nil slice is the empty list. -/
def GetFailedComplianceItems (assessment : RiskAssessment) : List String :=
  let failed : List String := []
  let failed := if !assessment.HTTPSCheck.HasHTTPS then
    failed ++ ["HTTPS not enabled"] else failed
  let failed := if !assessment.SSLSha256Fingerprint.HasSHA256 then
    failed ++ ["Invalid SSL certificate"] else failed
  let failed := if !assessment.PrivacyAndTerms.PrivacyPolicyPresent then
    failed ++ ["Privacy policy missing"] else failed
  let failed := if !assessment.PrivacyAndTerms.TermsOfServicePresent then
    failed ++ ["Terms of service missing"] else failed
  let failed := if !assessment.PrivacyAndTerms.IsAccessible then
    failed ++ ["Website not accessible"] else failed
  let failed := if assessment.URLVoid.DetectionsCounts.Detected > 0 then
    failed ++ ["Security threats detected"] else failed
  let failed := if assessment.IPVoid.DetectionsCount.Detected > 0 then
    failed ++ ["IP reputation issues"] else failed
  let failed := if assessment.IsRiskyGeopolitical.IsRisky then
    failed ++ ["Geopolitical risk"] else failed
  let failed := if assessment.MCCDetails.MCCRestricted then
    failed ++ ["Restricted MCC category"] else failed
  failed

/-! ## Legal-content collector (privacy_terms.go) -/

/-- What `CheckPrivacyTerms` obtains from outside the package: the TLS dial of
`checkSSLValidity`, the page fetch of `fetchPageContent` (the HTML or an
error), the text that goquery extracts from an HTML document (or its parse
error), and the regular-expression search of `extractLegalName`. -/
structure PageNet where
  checkSSLValidity : String → Bool
  fetchPageContent : String → Except String String
  documentText : String → Except String String
  extractLegalName : String → String

/-- Translation of `checkTermsPresence`. -/
def checkTermsPresence (pageText : String) : Bool :=
  let termsVariants :=
    ["terms of service", "terms of use", "terms & conditions", "terms and conditions", "terms",
     "user agreement", "website terms", "site terms", "conditions of use", "user terms",
     "service terms"]
  termsVariants.any (fun variant => Contains pageText variant)

/-- Translation of `checkPrivacyPolicyPresence`. -/
def checkPrivacyPolicyPresence (pageText : String) : Bool :=
  let privacyVariants :=
    ["privacy policy", "data protection", "gdpr", "privacy statement", "privacy notice",
     "data privacy", "confidentiality", "privacy", "data collection", "information collection",
     "cookie policy", "data processing"]
  privacyVariants.any (fun variant => Contains pageText variant)

/-- Translation of `CheckPrivacyTerms`. -/
def CheckPrivacyTerms (net : PageNet) (tbl : Char → Char) (domain : String) :
    PrivacyTermsResult :=
  let result : PrivacyTermsResult := {}
  let result := { result with SSLValid := net.checkSSLValidity domain }
  match net.fetchPageContent domain with
  | .error _ => { result with IsAccessible := false }
  | .ok pageContent =>
    let result := { result with IsAccessible := true }
    match net.documentText pageContent with
    | .error _ => result
    | .ok text =>
      let pageText := ToLower tbl text
      { result with
        TermsOfServicePresent := checkTermsPresence pageText
        PrivacyPolicyPresent := checkPrivacyPolicyPresence pageText
        LegalName := net.extractLegalName pageText }

/-! ## Traffic collector of the website_risk package (website_risk/scrapers) -/

/-- Go `strings.TrimPrefix`. -/
def TrimPrefix (s pre : String) : String :=
  if pre.data.isPrefixOf s.data then String.mk (s.data.drop pre.data.length) else s

/-- Go `strings.TrimSuffix`. -/
def TrimSuffix (s suffix : String) : String :=
  if suffix.data.isSuffixOf s.data then
    String.mk (s.data.take (s.data.length - suffix.data.length))
  else s

/-- Translation of `cleanDomain` (website_risk/scrapers/https_checker.go); the
slice up to the first "/" is the run of characters before it. -/
def cleanDomain (domain : String) : String :=
  let domain := TrimPrefix domain "http://"
  let domain := TrimPrefix domain "https://"
  let domain := TrimSuffix domain "/"
  if Contains domain "/" then
    String.mk (domain.data.takeWhile (fun c => c != '/'))
  else
    domain

/-- Translation of `TrafficVolumeChecker.Check` of the website_risk package;
the cleaned domain is computed and not used. -/
def WebsiteRisk.TrafficVolumeChecker.Check (domain : String) : TrafficVolumeResult :=
  let _domain := cleanDomain domain
  { GlobalRank := "NA"
    CountryRank := "NA"
    MonthlyVisits := "NA"
    BounceRate := "NA"
    PagesPerVisit := "NA"
    AvgVisitDuration := "NA" }

/-! ## More sample inputs -/

/-- The aggregate of `TestMetrics`. -/
def testMetricsAssessment : RiskAssessment :=
  { DomainName := "test.com"
    RiskScore := 25
    RiskCategory := "low_risk"
    HTTPSCheck := { HasHTTPS := true }
    SSLSha256Fingerprint := { HasSHA256 := true }
    PrivacyAndTerms :=
      { IsAccessible := true, PrivacyPolicyPresent := true, TermsOfServicePresent := true }
    SocialPresence := { SocialPresence := { LinkedIn := { Presence := true } } }
    IsRiskyGeopolitical := { IsRisky := false }
    MCCDetails := { MCCRestricted := false }
    URLVoid := { DetectionsCounts := { Detected := 0 } }
    IPVoid := { DetectionsCount := { Detected := 0 } } }

/-- An aggregate before scoring on which exactly the rules https (12),
ssl_fingerprint (12), linkedin_presence (6), domain_age (8) and popups (7)
fire, 45 points in all. -/
def borderlineCollected : RiskAssessment :=
  { DomainName := "example.com"
    MerchantBusiness := { CountryCode := "US", CountrySupported := true }
    PrivacyAndTerms :=
      { IsAccessible := true, PrivacyPolicyPresent := true, TermsOfServicePresent := true }
    PageSize := { PageSizeKB := 250, PageSizeBytes := 256000 }
    TrafficVolume := { GlobalRank := "1200", MonthlyVisits := "90000" }
    PopupAndAds := { HasPopups := true }
    CreatedAt := { sec := 63900000000, nsec := 0, mono := some 1 } }

/-- An aggregate whose WHOIS lookup gave no creation date while the
domain-reputation scan reports a registration date. -/
def urlVoidDateOnly : RiskAssessment :=
  { URLVoid := { RegisteredOn := "1995-08-14" } }

/-- A network on which every page fetch fails. -/
def PageNet.unreachable : PageNet where
  checkSSLValidity := fun _ => false
  fetchPageContent := fun _ => .error "context deadline exceeded"
  documentText := fun html => .ok html
  extractLegalName := fun _ => ""

/-- A network that serves one page mentioning both legal documents. -/
def PageNet.serving : PageNet where
  checkSSLValidity := fun _ => true
  fetchPageContent := fun _ => .ok "<html><body>Privacy Policy Terms of Service</body></html>"
  documentText := fun _ => .ok "Privacy Policy Terms of Service"
  extractLegalName := fun _ => ""

/-! ## Guarded appends, the shape shared by the reporter functions -/

/-- A run of statements `if c then list = append(list, m)`, one per entry of
`table`, started from `init`. -/
def appendWhere (table : List (Bool × String)) (init : List String) : List String :=
  table.foldl (fun acc e => if e.1 then acc ++ [e.2] else acc) init

/-- The messages of the entries whose condition holds, in table order. -/
def guarded (table : List (Bool × String)) : List String :=
  (table.filter (fun e => e.1)).map (fun e => e.2)

/-- The thirteen guarded appends of `GetRecommendations`, in source order. -/
def recommendationTable (a : RiskAssessment) : List (Bool × String) :=
  [(!a.HTTPSCheck.HasHTTPS, "Implement HTTPS encryption for security"),
   (!a.SSLSha256Fingerprint.HasSHA256, "Obtain a valid SSL certificate"),
   (!a.PrivacyAndTerms.PrivacyPolicyPresent, "Add a privacy policy to your website"),
   (!a.PrivacyAndTerms.TermsOfServicePresent, "Add terms of service to your website"),
   (!a.SocialPresence.SocialPresence.LinkedIn.Presence, "Establish a LinkedIn company presence"),
   (a.IsRiskyGeopolitical.IsRisky, "Address geopolitical risk factors"),
   (a.URLVoid.DetectionsCounts.Detected > 0,
     "Address " ++ toString a.URLVoid.DetectionsCounts.Detected
       ++ " security detections found by URLVoid"),
   (a.IPVoid.DetectionsCount.Detected > 0,
     "Address " ++ toString a.IPVoid.DetectionsCount.Detected
       ++ " IP reputation issues found by IPVoid"),
   (a.PageSize.PageSizeKB > 0 && a.PageSize.PageSizeKB < 100,
     "Consider adding more content to your website - current page size is very small"),
   (a.PopupAndAds.HasPopups, "Consider reducing popup usage for better user experience"),
   (a.PopupAndAds.HasAds, "Ensure advertising compliance with relevant regulations"),
   (a.Whois.CreationDate.IsZero,
     "Verify domain registration information is publicly available"),
   (a.RiskScore > 45, "Consider improving overall website security and compliance")]

/-- The catch-all message of `GetRecommendations`. -/
def catchAllRecommendation : String :=
  "Website appears to meet basic security and compliance requirements"

/-- The nine guarded appends of `GetFailedComplianceItems`, in source order. -/
def failedTable (a : RiskAssessment) : List (Bool × String) :=
  [(!a.HTTPSCheck.HasHTTPS, "HTTPS not enabled"),
   (!a.SSLSha256Fingerprint.HasSHA256, "Invalid SSL certificate"),
   (!a.PrivacyAndTerms.PrivacyPolicyPresent, "Privacy policy missing"),
   (!a.PrivacyAndTerms.TermsOfServicePresent, "Terms of service missing"),
   (!a.PrivacyAndTerms.IsAccessible, "Website not accessible"),
   (a.URLVoid.DetectionsCounts.Detected > 0, "Security threats detected"),
   (a.IPVoid.DetectionsCount.Detected > 0, "IP reputation issues"),
   (a.IsRiskyGeopolitical.IsRisky, "Geopolitical risk"),
   (a.MCCDetails.MCCRestricted, "Restricted MCC category")]

/-- The last seven characters of a string, last one first. -/
def tail7 (s : String) : List Char :=
  s.data.reverse.take 7

/-- The compliant world, except that the legal-content collector is the
translated `CheckPrivacyTerms` on a network where every page fetch fails. -/
def World.legalContentDown : World :=
  { World.compliant with
    CheckPrivacyTerms :=
      Scrapers.CheckPrivacyTerms PageNet.unreachable World.compliant.lowerTable }

/-! ## UTF-8, as `encoding/json` reads Go strings

A Go string is a sequence of bytes. `json.Marshal` reads it as UTF-8 and
writes U+FFFD for every byte that does not belong to a well-formed sequence;
`json.Unmarshal` always stores well-formed UTF-8. -/

/-- UTF-8 encoding of one code point, as byte values. -/
def utf8EncodeRune (c : Char) : List Nat :=
  let n := c.toNat
  if n < 0x80 then [n]
  else if n < 0x800 then [0xC0 + n / 64, 0x80 + n % 64]
  else if n < 0x10000 then [0xE0 + n / 4096, 0x80 + n / 64 % 64, 0x80 + n % 64]
  else [0xF0 + n / 262144, 0x80 + n / 4096 % 64, 0x80 + n / 64 % 64, 0x80 + n % 64]

/-- The bytes of a Go string whose code points are those of `s`. -/
def utf8Bytes (s : String) : List Nat :=
  s.data.flatMap utf8EncodeRune

/-- Whether `b` is a UTF-8 continuation byte. -/
def isContinuation (b : Nat) : Bool :=
  0x80 ≤ b && b < 0xC0

/-- Go `utf8.DecodeRune` for a first byte `b0` of 0x80 or more followed by
`rest`: the code point and the number of continuation bytes it takes, or
`none` when the sequence is cut short, overlong, a surrogate, above U+10FFFF
or otherwise not UTF-8. -/
def decodeMultiByte (b0 : Nat) (rest : List Nat) : Option (Nat × Nat) :=
  match rest with
  | [] => none
  | b1 :: rest1 =>
    if 0xC2 ≤ b0 ∧ b0 < 0xE0 then
      if isContinuation b1 then some ((b0 - 0xC0) * 64 + (b1 - 0x80), 1) else none
    else
      match rest1 with
      | [] => none
      | b2 :: rest2 =>
        if 0xE0 ≤ b0 ∧ b0 < 0xF0 then
          let n := (b0 - 0xE0) * 4096 + (b1 - 0x80) * 64 + (b2 - 0x80)
          if isContinuation b1 ∧ isContinuation b2 ∧ 0x800 ≤ n ∧ ¬ (0xD800 ≤ n ∧ n < 0xE000)
          then some (n, 2) else none
        else
          match rest2 with
          | [] => none
          | b3 :: _ =>
            if 0xF0 ≤ b0 ∧ b0 < 0xF5 then
              let n := (b0 - 0xF0) * 262144 + (b1 - 0x80) * 4096 + (b2 - 0x80) * 64 + (b3 - 0x80)
              if isContinuation b1 ∧ isContinuation b2 ∧ isContinuation b3 ∧
                  0x10000 ≤ n ∧ n < 0x110000
              then some (n, 3) else none
            else none

/-- The code points that `json.Marshal` writes for a Go string with the given
bytes: every byte that does not start a well-formed UTF-8 sequence becomes
U+FFFD. `skip` counts continuation bytes of the sequence just decoded. -/
def coerceUTF8 : Nat → List Nat → List Char
  | _, [] => []
  | skip + 1, _ :: rest => coerceUTF8 skip rest
  | 0, b0 :: rest =>
    if b0 < 0x80 then Char.ofNat b0 :: coerceUTF8 0 rest
    else
      match decodeMultiByte b0 rest with
      | some (n, k) => Char.ofNat n :: coerceUTF8 k rest
      | none => Char.ofNat 0xFFFD :: coerceUTF8 0 rest

/-- The string value `json.Marshal` writes for a Go string given by its
bytes. -/
def marshalBytes (b : List Nat) : String :=
  String.mk (coerceUTF8 0 b)

/-- The string value `json.Marshal` writes for a Go string that is valid UTF-8,
computed from its bytes like that of any other Go string. -/
def marshalString (s : String) : String :=
  marshalBytes (utf8Bytes s)

/-! ## JSON serialization (risk_assessment.go `ToJSON` / `FromJSON`, struct tags of types.go)

`encoding/json` is modelled at the level of documents: the text that
`MarshalIndent` prints is kept as the document it denotes, printing and parsing
being inverse to each other. A string value is the sequence of code points
that `Marshal` writes for the bytes of the Go string (`marshalString`), and
`Unmarshal` stores the UTF-8 encoding of the value it reads. Numbers are
integer literals, the only kind the aggregate has. The members of an object are looked up by their exact name; the
documents written by `ToJSON` have distinct, exactly spelled names, for which
this is what `Unmarshal` does. -/

/-- A JSON document. -/
inductive Json where
  | null
  | bool (b : Bool)
  | num (n : Int)
  | str (s : String)
  | arr (elems : List Json)
  | obj (members : List (String × Json))

/-- The members written for a struct: a field whose value is `none` is left
out (`omitempty` on an empty value). -/
def emit (fields : List (String × Option Json)) : List (String × Json) :=
  fields.filterMap (fun f => f.2.map (fun v => (f.1, v)))

/-- The value of the member called `name`, if the object has one. -/
def member (name : String) (members : List (String × Json)) : Option Json :=
  (members.find? (fun m => m.1 == name)).map Prod.snd

/-- Whether `Time.MarshalJSON` accepts the instant: its year, read in UTC (the
zone is not modelled), lies in [0, 9999]. Year 0 starts 366 days before the
zero instant and year 10000 starts 3652059 days after it. -/
def yearInRange (t : Time) : Bool :=
  -31622400 ≤ t.sec && t.sec < 315537897600

/-- RFC 3339 formatting and parsing of the `time` package, with the one
property used here: a formatted instant of a year in [0, 9999] with fewer than
10^9 nanoseconds parses back to itself. -/
structure TimeLayout where
  format : Int → Nat → String
  parse : String → Option (Int × Nat)
  parse_format : ∀ (sec : Int) (nsec : Nat), -31622400 ≤ sec → sec < 315537897600 →
    nsec < 1000000000 → parse (format sec nsec) = some (sec, nsec)

/-! ### Encoding of field values -/

/-- The JSON string written for a Go string. -/
def jsonString (s : String) : Json := Json.str (marshalString s)

def encString (s : String) : Option Json := some (jsonString s)

def encStringOmit (s : String) : Option Json :=
  if s = "" then none else some (jsonString s)

def encBool (b : Bool) : Option Json := some (Json.bool b)

def encInt (n : Int) : Option Json := some (Json.num n)

/-- A `[]string` without `omitempty`: a nil slice is written as null. -/
def encStrings (l : Option (List String)) : Option Json :=
  match l with
  | none => some Json.null
  | some xs => some (Json.arr (xs.map jsonString))

/-- A `[]string` with `omitempty`: a slice of length 0, nil or not, is left out. -/
def encStringsOmit (l : Option (List String)) : Option Json :=
  match l with
  | none => none
  | some [] => none
  | some (x :: xs) => some (Json.arr ((x :: xs).map jsonString))

/-- A `map[string]string` with `omitempty`: a map of length 0 is left out. -/
def encStringMapOmit (m : Option (GoMap String)) : Option Json :=
  match m with
  | none => none
  | some [] => none
  | some (e :: es) =>
    some (Json.obj ((e :: es).map (fun p => (marshalString p.1, jsonString p.2))))

/-- A `map[string]int` without `omitempty`: a nil map is written as null. -/
def encIntMap (m : Option (GoMap Int)) : Option Json :=
  match m with
  | none => some Json.null
  | some es => some (Json.obj (es.map (fun p => (marshalString p.1, Json.num p.2))))

/-- A `time.Time`: the RFC 3339 string of the instant; the monotonic clock
reading is not written. `omitempty` has no effect on a struct. -/
def encTime (layout : TimeLayout) (t : Time) : Option Json :=
  some (Json.str (layout.format t.sec t.nsec))

/-! ### Decoding of field values

The argument is the member found for the field, `none` when the document has
no such member; the result is `none` when `Unmarshal` reports an error. A
missing member and a null leave the zero value. -/

def decString : Option Json → Option String
  | none => some ""
  | some Json.null => some ""
  | some (Json.str s) => some s
  | _ => none

def decBool : Option Json → Option Bool
  | none => some false
  | some Json.null => some false
  | some (Json.bool b) => some b
  | _ => none

def decInt : Option Json → Option Int
  | none => some 0
  | some Json.null => some 0
  | some (Json.num n) => some n
  | _ => none

/-- Decoding every element of an array or every member of an object; one error
is an error of the whole. -/
def decodeAll {α β : Type} (f : α → Option β) : List α → Option (List β)
  | [] => some []
  | x :: xs =>
    match f x, decodeAll f xs with
    | some y, some ys => some (y :: ys)
    | _, _ => none

def decStrings : Option Json → Option (Option (List String))
  | none => some none
  | some Json.null => some none
  | some (Json.arr elems) => (decodeAll (fun e => decString (some e)) elems).map some
  | _ => none

def decStringMap : Option Json → Option (Option (GoMap String))
  | none => some none
  | some Json.null => some none
  | some (Json.obj members) =>
    (decodeAll (fun m => (decString (some m.2)).map (fun v => (m.1, v))) members).map some
  | _ => none

def decIntMap : Option Json → Option (Option (GoMap Int))
  | none => some none
  | some Json.null => some none
  | some (Json.obj members) =>
    (decodeAll (fun m => (decInt (some m.2)).map (fun v => (m.1, v))) members).map some
  | _ => none

def decTime (layout : TimeLayout) : Option Json → Option Time
  | none => some {}
  | some Json.null => some {}
  | some (Json.str s) =>
    (layout.parse s).map (fun p => { sec := p.1, nsec := p.2, mono := none })
  | _ => none

/-- The members of the object given for a struct field: none at all when the
member is missing or null, an error when it is not an object. -/
def decObject : Option Json → Option (List (String × Json))
  | none => some []
  | some Json.null => some []
  | some (Json.obj members) => some members
  | _ => none

/-- A struct field: the struct decoder `dec` run on the members of its object. -/
def decStruct {α : Type} (dec : List (String × Json) → Option α) (j : Option Json) :
    Option α :=
  (decObject j).bind dec

/-! ### The structs of types.go -/

/-- The object `Marshal` writes for a `DetectionsCounts`, member names and `omitempty` as in
its struct tags. -/
def encodeDetectionsCounts (r : DetectionsCounts) : Json :=
  Json.obj (emit
    [("detected", encInt r.Detected), ("checks", encInt r.Checks)])

/-- What `Unmarshal` stores in a `DetectionsCounts` from the members of an object; an
error on any member is an error of the whole. -/
def decodeDetectionsCounts (members : List (String × Json)) :
    Option DetectionsCounts :=
  let v0 := decInt (member "detected" members)
  let v1 := decInt (member "checks" members)
  if v0.isSome && v1.isSome then
    some { Detected := v0.getD 0, Checks := v1.getD 0 }
  else none

/-- The object `Marshal` writes for a `HTTPSResult`, member names and `omitempty` as in
its struct tags. -/
def encodeHTTPSResult (r : HTTPSResult) : Json :=
  Json.obj (emit
    [("has_https", encBool r.HasHTTPS), ("protocol", encString r.Protocol),
     ("status", encString r.Status), ("page_title", encStringOmit r.PageTitle),
     ("error", encStringOmit r.Error)])

/-- What `Unmarshal` stores in a `HTTPSResult` from the members of an object; an
error on any member is an error of the whole. -/
def decodeHTTPSResult (members : List (String × Json)) :
    Option HTTPSResult :=
  let v0 := decBool (member "has_https" members)
  let v1 := decString (member "protocol" members)
  let v2 := decString (member "status" members)
  let v3 := decString (member "page_title" members)
  let v4 := decString (member "error" members)
  if v0.isSome && v1.isSome && v2.isSome && v3.isSome && v4.isSome then
    some { HasHTTPS := v0.getD false, Protocol := v1.getD "", Status := v2.getD "",
           PageTitle := v3.getD "", Error := v4.getD "" }
  else none

/-- The object `Marshal` writes for a `SSLFingerprintResult`, member names and `omitempty` as in
its struct tags. -/
def encodeSSLFingerprintResult (r : SSLFingerprintResult) : Json :=
  Json.obj (emit
    [("domain", encString r.Domain), ("sha256_fingerprint", encStringOmit r.SHA256Fingerprint),
     ("has_sha256", encBool r.HasSHA256), ("error", encStringOmit r.Error)])

/-- What `Unmarshal` stores in a `SSLFingerprintResult` from the members of an object; an
error on any member is an error of the whole. -/
def decodeSSLFingerprintResult (members : List (String × Json)) :
    Option SSLFingerprintResult :=
  let v0 := decString (member "domain" members)
  let v1 := decString (member "sha256_fingerprint" members)
  let v2 := decBool (member "has_sha256" members)
  let v3 := decString (member "error" members)
  if v0.isSome && v1.isSome && v2.isSome && v3.isSome then
    some { Domain := v0.getD "", SHA256Fingerprint := v1.getD "", HasSHA256 := v2.getD false,
           Error := v3.getD "" }
  else none

/-- The object `Marshal` writes for a `WhoisResult`, member names and `omitempty` as in
its struct tags. -/
def encodeWhoisResult (layout : TimeLayout) (r : WhoisResult) : Json :=
  Json.obj (emit
    [("domain_name", encStringOmit r.DomainName), ("registrar", encStringOmit r.Registrar),
     ("creation_date", encTime layout r.CreationDate),
     ("expiration_date", encTime layout r.ExpirationDate),
     ("updated_date", encTime layout r.UpdatedDate),
     ("name_servers", encStringsOmit r.NameServers), ("error", encStringOmit r.Error)])

/-- What `Unmarshal` stores in a `WhoisResult` from the members of an object; an
error on any member is an error of the whole. -/
def decodeWhoisResult (layout : TimeLayout) (members : List (String × Json)) :
    Option WhoisResult :=
  let v0 := decString (member "domain_name" members)
  let v1 := decString (member "registrar" members)
  let v2 := decTime layout (member "creation_date" members)
  let v3 := decTime layout (member "expiration_date" members)
  let v4 := decTime layout (member "updated_date" members)
  let v5 := decStrings (member "name_servers" members)
  let v6 := decString (member "error" members)
  if v0.isSome && v1.isSome && v2.isSome && v3.isSome && v4.isSome && v5.isSome && v6.isSome then
    some { DomainName := v0.getD "", Registrar := v1.getD "", CreationDate := v2.getD {},
           ExpirationDate := v3.getD {}, UpdatedDate := v4.getD {}, NameServers := v5.getD none,
           Error := v6.getD "" }
  else none

/-- The object `Marshal` writes for a `PrivacyTermsResult`, member names and `omitempty` as in
its struct tags. -/
def encodePrivacyTermsResult (r : PrivacyTermsResult) : Json :=
  Json.obj (emit
    [("is_accessible", encBool r.IsAccessible), ("ssl_valid", encBool r.SSLValid),
     ("terms_of_service_present", encBool r.TermsOfServicePresent),
     ("privacy_policy_present", encBool r.PrivacyPolicyPresent),
     ("legal_name", encStringOmit r.LegalName)])

/-- What `Unmarshal` stores in a `PrivacyTermsResult` from the members of an object; an
error on any member is an error of the whole. -/
def decodePrivacyTermsResult (members : List (String × Json)) :
    Option PrivacyTermsResult :=
  let v0 := decBool (member "is_accessible" members)
  let v1 := decBool (member "ssl_valid" members)
  let v2 := decBool (member "terms_of_service_present" members)
  let v3 := decBool (member "privacy_policy_present" members)
  let v4 := decString (member "legal_name" members)
  if v0.isSome && v1.isSome && v2.isSome && v3.isSome && v4.isSome then
    some { IsAccessible := v0.getD false, SSLValid := v1.getD false,
           TermsOfServicePresent := v2.getD false, PrivacyPolicyPresent := v3.getD false,
           LegalName := v4.getD "" }
  else none

/-- The object `Marshal` writes for a `URLVoidResult`, member names and `omitempty` as in
its struct tags. -/
def encodeURLVoidResult (r : URLVoidResult) : Json :=
  Json.obj (emit
    [("website_address", encStringOmit r.WebsiteAddress),
     ("last_analysis", encStringOmit r.LastAnalysis),
     ("detections_counts", some (encodeDetectionsCounts r.DetectionsCounts)),
     ("registered_on", encStringOmit r.RegisteredOn),
     ("registered_since", encStringOmit r.RegisteredSince),
     ("ip_address", encStringOmit r.IPAddress), ("reverse_dns", encStringOmit r.ReverseDNS),
     ("asn", encStringOmit r.ASN), ("server_location", encStringOmit r.ServerLocation),
     ("latitude_longitude", encStringOmit r.LatitudeLongitude), ("city", encStringOmit r.City),
     ("region", encStringOmit r.Region), ("error", encStringOmit r.Error)])

/-- What `Unmarshal` stores in a `URLVoidResult` from the members of an object; an
error on any member is an error of the whole. -/
def decodeURLVoidResult (members : List (String × Json)) :
    Option URLVoidResult :=
  let v0 := decString (member "website_address" members)
  let v1 := decString (member "last_analysis" members)
  let v2 := decStruct decodeDetectionsCounts (member "detections_counts" members)
  let v3 := decString (member "registered_on" members)
  let v4 := decString (member "registered_since" members)
  let v5 := decString (member "ip_address" members)
  let v6 := decString (member "reverse_dns" members)
  let v7 := decString (member "asn" members)
  let v8 := decString (member "server_location" members)
  let v9 := decString (member "latitude_longitude" members)
  let v10 := decString (member "city" members)
  let v11 := decString (member "region" members)
  let v12 := decString (member "error" members)
  if v0.isSome && v1.isSome && v2.isSome && v3.isSome && v4.isSome && v5.isSome && v6.isSome &&
      v7.isSome && v8.isSome && v9.isSome && v10.isSome && v11.isSome && v12.isSome then
    some { WebsiteAddress := v0.getD "", LastAnalysis := v1.getD "",
           DetectionsCounts := v2.getD {}, RegisteredOn := v3.getD "",
           RegisteredSince := v4.getD "", IPAddress := v5.getD "", ReverseDNS := v6.getD "",
           ASN := v7.getD "", ServerLocation := v8.getD "", LatitudeLongitude := v9.getD "",
           City := v10.getD "", Region := v11.getD "", Error := v12.getD "" }
  else none

/-- The object `Marshal` writes for a `IPVoidResult`, member names and `omitempty` as in
its struct tags. -/
def encodeIPVoidResult (r : IPVoidResult) : Json :=
  Json.obj (emit
    [("ip_address", encString r.IPAddress), ("country_code", encString r.CountryCode),
     ("country_name", encString r.CountryName), ("isp", encString r.ISP),
     ("asn", encString r.ASN),
     ("detections_count", some (encodeDetectionsCounts r.DetectionsCount)),
     ("reverse_hostname", encString r.ReverseHostname),
     ("blacklist_status", encStringMapOmit r.BlacklistStatus), ("error", encStringOmit r.Error)])

/-- What `Unmarshal` stores in a `IPVoidResult` from the members of an object; an
error on any member is an error of the whole. -/
def decodeIPVoidResult (members : List (String × Json)) :
    Option IPVoidResult :=
  let v0 := decString (member "ip_address" members)
  let v1 := decString (member "country_code" members)
  let v2 := decString (member "country_name" members)
  let v3 := decString (member "isp" members)
  let v4 := decString (member "asn" members)
  let v5 := decStruct decodeDetectionsCounts (member "detections_count" members)
  let v6 := decString (member "reverse_hostname" members)
  let v7 := decStringMap (member "blacklist_status" members)
  let v8 := decString (member "error" members)
  if v0.isSome && v1.isSome && v2.isSome && v3.isSome && v4.isSome && v5.isSome && v6.isSome &&
      v7.isSome && v8.isSome then
    some { IPAddress := v0.getD "", CountryCode := v1.getD "", CountryName := v2.getD "",
           ISP := v3.getD "", ASN := v4.getD "", DetectionsCount := v5.getD {},
           ReverseHostname := v6.getD "", BlacklistStatus := v7.getD none, Error := v8.getD "" }
  else none

/-- The object `Marshal` writes for a `PageSizeResult`, member names and `omitempty` as in
its struct tags. -/
def encodePageSizeResult (r : PageSizeResult) : Json :=
  Json.obj (emit
    [("page_size_kb", encInt r.PageSizeKB), ("page_size_bytes", encInt r.PageSizeBytes),
     ("load_time", encStringOmit r.LoadTime), ("error", encStringOmit r.Error)])

/-- What `Unmarshal` stores in a `PageSizeResult` from the members of an object; an
error on any member is an error of the whole. -/
def decodePageSizeResult (members : List (String × Json)) :
    Option PageSizeResult :=
  let v0 := decInt (member "page_size_kb" members)
  let v1 := decInt (member "page_size_bytes" members)
  let v2 := decString (member "load_time" members)
  let v3 := decString (member "error" members)
  if v0.isSome && v1.isSome && v2.isSome && v3.isSome then
    some { PageSizeKB := v0.getD 0, PageSizeBytes := v1.getD 0, LoadTime := v2.getD "",
           Error := v3.getD "" }
  else none

/-- The object `Marshal` writes for a `TrafficVolumeResult`, member names and `omitempty` as in
its struct tags. -/
def encodeTrafficVolumeResult (r : TrafficVolumeResult) : Json :=
  Json.obj (emit
    [("global_rank", encString r.GlobalRank), ("country_rank", encString r.CountryRank),
     ("monthly_visits", encString r.MonthlyVisits), ("bounce_rate", encString r.BounceRate),
     ("pages_per_visit", encString r.PagesPerVisit),
     ("avg_visit_duration", encString r.AvgVisitDuration), ("error", encStringOmit r.Error)])

/-- What `Unmarshal` stores in a `TrafficVolumeResult` from the members of an object; an
error on any member is an error of the whole. -/
def decodeTrafficVolumeResult (members : List (String × Json)) :
    Option TrafficVolumeResult :=
  let v0 := decString (member "global_rank" members)
  let v1 := decString (member "country_rank" members)
  let v2 := decString (member "monthly_visits" members)
  let v3 := decString (member "bounce_rate" members)
  let v4 := decString (member "pages_per_visit" members)
  let v5 := decString (member "avg_visit_duration" members)
  let v6 := decString (member "error" members)
  if v0.isSome && v1.isSome && v2.isSome && v3.isSome && v4.isSome && v5.isSome && v6.isSome then
    some { GlobalRank := v0.getD "", CountryRank := v1.getD "", MonthlyVisits := v2.getD "",
           BounceRate := v3.getD "", PagesPerVisit := v4.getD "", AvgVisitDuration := v5.getD "",
           Error := v6.getD "" }
  else none

/-- The object `Marshal` writes for a `PopupAdsResult`, member names and `omitempty` as in
its struct tags. -/
def encodePopupAdsResult (r : PopupAdsResult) : Json :=
  Json.obj (emit
    [("has_popups", encBool r.HasPopups), ("has_ads", encBool r.HasAds),
     ("error", encStringOmit r.Error)])

/-- What `Unmarshal` stores in a `PopupAdsResult` from the members of an object; an
error on any member is an error of the whole. -/
def decodePopupAdsResult (members : List (String × Json)) :
    Option PopupAdsResult :=
  let v0 := decBool (member "has_popups" members)
  let v1 := decBool (member "has_ads" members)
  let v2 := decString (member "error" members)
  if v0.isSome && v1.isSome && v2.isSome then
    some { HasPopups := v0.getD false, HasAds := v1.getD false, Error := v2.getD "" }
  else none

/-- The object `Marshal` writes for a `LinkedInPresence`, member names and `omitempty` as in
its struct tags. -/
def encodeLinkedInPresence (r : LinkedInPresence) : Json :=
  Json.obj (emit
    [("presence", encBool r.Presence), ("url", encStringOmit r.URL)])

/-- What `Unmarshal` stores in a `LinkedInPresence` from the members of an object; an
error on any member is an error of the whole. -/
def decodeLinkedInPresence (members : List (String × Json)) :
    Option LinkedInPresence :=
  let v0 := decBool (member "presence" members)
  let v1 := decString (member "url" members)
  if v0.isSome && v1.isSome then
    some { Presence := v0.getD false, URL := v1.getD "" }
  else none

/-- The object `Marshal` writes for a `SocialPresence`, member names and `omitempty` as in
its struct tags. -/
def encodeSocialPresence (r : SocialPresence) : Json :=
  Json.obj (emit
    [("linkedin", some (encodeLinkedInPresence r.LinkedIn))])

/-- What `Unmarshal` stores in a `SocialPresence` from the members of an object; an
error on any member is an error of the whole. -/
def decodeSocialPresence (members : List (String × Json)) :
    Option SocialPresence :=
  let v0 := decStruct decodeLinkedInPresence (member "linkedin" members)
  if v0.isSome then
    some { LinkedIn := v0.getD {} }
  else none

/-- The object `Marshal` writes for a `SocialPresenceResult`, member names and `omitempty` as in
its struct tags. -/
def encodeSocialPresenceResult (r : SocialPresenceResult) : Json :=
  Json.obj (emit
    [("social_presence", some (encodeSocialPresence r.SocialPresence))])

/-- What `Unmarshal` stores in a `SocialPresenceResult` from the members of an object; an
error on any member is an error of the whole. -/
def decodeSocialPresenceResult (members : List (String × Json)) :
    Option SocialPresenceResult :=
  let v0 := decStruct decodeSocialPresence (member "social_presence" members)
  if v0.isSome then
    some { SocialPresence := v0.getD {} }
  else none

/-- The object `Marshal` writes for a `GoDaddyWhoisResult`, member names and `omitempty` as in
its struct tags. -/
def encodeGoDaddyWhoisResult (r : GoDaddyWhoisResult) : Json :=
  Json.obj (emit
    [("name", encString r.Name), ("registry_domain_id", encString r.RegistryDomainID),
     ("registered_on", encString r.RegisteredOn), ("expires_on", encString r.ExpiresOn),
     ("updated_on", encString r.UpdatedOn), ("domain_status", encString r.DomainStatus),
     ("name_servers", encStrings r.NameServers), ("error", encStringOmit r.Error)])

/-- What `Unmarshal` stores in a `GoDaddyWhoisResult` from the members of an object; an
error on any member is an error of the whole. -/
def decodeGoDaddyWhoisResult (members : List (String × Json)) :
    Option GoDaddyWhoisResult :=
  let v0 := decString (member "name" members)
  let v1 := decString (member "registry_domain_id" members)
  let v2 := decString (member "registered_on" members)
  let v3 := decString (member "expires_on" members)
  let v4 := decString (member "updated_on" members)
  let v5 := decString (member "domain_status" members)
  let v6 := decStrings (member "name_servers" members)
  let v7 := decString (member "error" members)
  if v0.isSome && v1.isSome && v2.isSome && v3.isSome && v4.isSome && v5.isSome && v6.isSome &&
      v7.isSome then
    some { Name := v0.getD "", RegistryDomainID := v1.getD "", RegisteredOn := v2.getD "",
           ExpiresOn := v3.getD "", UpdatedOn := v4.getD "", DomainStatus := v5.getD "",
           NameServers := v6.getD none, Error := v7.getD "" }
  else none

/-- The object `Marshal` writes for a `GoogleSafeBrowsingResult`, member names and `omitempty` as in
its struct tags. -/
def encodeGoogleSafeBrowsingResult (r : GoogleSafeBrowsingResult) : Json :=
  Json.obj (emit
    [("domain", encString r.Domain), ("current_status", encString r.CurrentStatus),
     ("site_info", encString r.SiteInfo), ("error", encStringOmit r.Error)])

/-- What `Unmarshal` stores in a `GoogleSafeBrowsingResult` from the members of an object; an
error on any member is an error of the whole. -/
def decodeGoogleSafeBrowsingResult (members : List (String × Json)) :
    Option GoogleSafeBrowsingResult :=
  let v0 := decString (member "domain" members)
  let v1 := decString (member "current_status" members)
  let v2 := decString (member "site_info" members)
  let v3 := decString (member "error" members)
  if v0.isSome && v1.isSome && v2.isSome && v3.isSome then
    some { Domain := v0.getD "", CurrentStatus := v1.getD "", SiteInfo := v2.getD "",
           Error := v3.getD "" }
  else none

/-- The object `Marshal` writes for a `TrancoListResult`, member names and `omitempty` as in
its struct tags. -/
def encodeTrancoListResult (r : TrancoListResult) : Json :=
  Json.obj (emit
    [("domain", encString r.Domain), ("tranco_rank", encString r.TrancoRank),
     ("error", encStringOmit r.Error)])

/-- What `Unmarshal` stores in a `TrancoListResult` from the members of an object; an
error on any member is an error of the whole. -/
def decodeTrancoListResult (members : List (String × Json)) :
    Option TrancoListResult :=
  let v0 := decString (member "domain" members)
  let v1 := decString (member "tranco_rank" members)
  let v2 := decString (member "error" members)
  if v0.isSome && v1.isSome && v2.isSome then
    some { Domain := v0.getD "", TrancoRank := v1.getD "", Error := v2.getD "" }
  else none

/-- The object `Marshal` writes for a `MerchantBusiness`, member names and `omitempty` as in
its struct tags. -/
def encodeMerchantBusiness (r : MerchantBusiness) : Json :=
  Json.obj (emit
    [("country_code", encString r.CountryCode), ("country_supported", encBool r.CountrySupported)])

/-- What `Unmarshal` stores in a `MerchantBusiness` from the members of an object; an
error on any member is an error of the whole. -/
def decodeMerchantBusiness (members : List (String × Json)) :
    Option MerchantBusiness :=
  let v0 := decString (member "country_code" members)
  let v1 := decBool (member "country_supported" members)
  if v0.isSome && v1.isSome then
    some { CountryCode := v0.getD "", CountrySupported := v1.getD false }
  else none

/-- The object `Marshal` writes for a `MCCDetails`, member names and `omitempty` as in
its struct tags. -/
def encodeMCCDetails (r : MCCDetails) : Json :=
  Json.obj (emit
    [("mcc_code", encString r.MCCCode), ("mcc_category", encString r.MCCCategory),
     ("mcc_restricted", encBool r.MCCRestricted)])

/-- What `Unmarshal` stores in a `MCCDetails` from the members of an object; an
error on any member is an error of the whole. -/
def decodeMCCDetails (members : List (String × Json)) :
    Option MCCDetails :=
  let v0 := decString (member "mcc_code" members)
  let v1 := decString (member "mcc_category" members)
  let v2 := decBool (member "mcc_restricted" members)
  if v0.isSome && v1.isSome && v2.isSome then
    some { MCCCode := v0.getD "", MCCCategory := v1.getD "", MCCRestricted := v2.getD false }
  else none

/-- The object `Marshal` writes for a `GeopoliticalRisk`, member names and `omitempty` as in
its struct tags. -/
def encodeGeopoliticalRisk (r : GeopoliticalRisk) : Json :=
  Json.obj (emit
    [("is_risky", encBool r.IsRisky)])

/-- What `Unmarshal` stores in a `GeopoliticalRisk` from the members of an object; an
error on any member is an error of the whole. -/
def decodeGeopoliticalRisk (members : List (String × Json)) :
    Option GeopoliticalRisk :=
  let v0 := decBool (member "is_risky" members)
  if v0.isSome then
    some { IsRisky := v0.getD false }
  else none

/-- The object `Marshal` writes for a `RiskAssessment`, member names and `omitempty` as in
its struct tags. -/
def encodeRiskAssessment (layout : TimeLayout) (r : RiskAssessment) : Json :=
  Json.obj (emit
    [("domain_name", encString r.DomainName),
     ("merchant_business", some (encodeMerchantBusiness r.MerchantBusiness)),
     ("mcc_details", some (encodeMCCDetails r.MCCDetails)),
     ("privacy_and_terms", some (encodePrivacyTermsResult r.PrivacyAndTerms)),
     ("https_check", some (encodeHTTPSResult r.HTTPSCheck)),
     ("ssl_sha_256_fingerprint", some (encodeSSLFingerprintResult r.SSLSha256Fingerprint)),
     ("social_presence", some (encodeSocialPresenceResult r.SocialPresence)),
     ("whois", some (encodeWhoisResult layout r.Whois)),
     ("godaddy_whois", some (encodeGoDaddyWhoisResult r.GoDaddyWhois)),
     ("urlvoid", some (encodeURLVoidResult r.URLVoid)),
     ("ipvoid", some (encodeIPVoidResult r.IPVoid)),
     ("google_safe_browsing", some (encodeGoogleSafeBrowsingResult r.GoogleSafeBrowsing)),
     ("tranco_list", some (encodeTrancoListResult r.TrancoList)),
     ("page_size", some (encodePageSizeResult r.PageSize)),
     ("traffic_volume", some (encodeTrafficVolumeResult r.TrafficVolume)),
     ("popup_and_ads", some (encodePopupAdsResult r.PopupAndAds)),
     ("is_risky_geopolitical", some (encodeGeopoliticalRisk r.IsRiskyGeopolitical)),
     ("risk_score", encInt r.RiskScore), ("risk_category", encString r.RiskCategory),
     ("risk_breakdown", encIntMap r.RiskBreakdown), ("created_at", encTime layout r.CreatedAt)])

/-- What `Unmarshal` stores in a `RiskAssessment` from the members of an object; an
error on any member is an error of the whole. -/
def decodeRiskAssessment (layout : TimeLayout) (members : List (String × Json)) :
    Option RiskAssessment :=
  let v0 := decString (member "domain_name" members)
  let v1 := decStruct decodeMerchantBusiness (member "merchant_business" members)
  let v2 := decStruct decodeMCCDetails (member "mcc_details" members)
  let v3 := decStruct decodePrivacyTermsResult (member "privacy_and_terms" members)
  let v4 := decStruct decodeHTTPSResult (member "https_check" members)
  let v5 := decStruct decodeSSLFingerprintResult (member "ssl_sha_256_fingerprint" members)
  let v6 := decStruct decodeSocialPresenceResult (member "social_presence" members)
  let v7 := decStruct (decodeWhoisResult layout) (member "whois" members)
  let v8 := decStruct decodeGoDaddyWhoisResult (member "godaddy_whois" members)
  let v9 := decStruct decodeURLVoidResult (member "urlvoid" members)
  let v10 := decStruct decodeIPVoidResult (member "ipvoid" members)
  let v11 := decStruct decodeGoogleSafeBrowsingResult (member "google_safe_browsing" members)
  let v12 := decStruct decodeTrancoListResult (member "tranco_list" members)
  let v13 := decStruct decodePageSizeResult (member "page_size" members)
  let v14 := decStruct decodeTrafficVolumeResult (member "traffic_volume" members)
  let v15 := decStruct decodePopupAdsResult (member "popup_and_ads" members)
  let v16 := decStruct decodeGeopoliticalRisk (member "is_risky_geopolitical" members)
  let v17 := decInt (member "risk_score" members)
  let v18 := decString (member "risk_category" members)
  let v19 := decIntMap (member "risk_breakdown" members)
  let v20 := decTime layout (member "created_at" members)
  if v0.isSome && v1.isSome && v2.isSome && v3.isSome && v4.isSome && v5.isSome && v6.isSome &&
      v7.isSome && v8.isSome && v9.isSome && v10.isSome && v11.isSome && v12.isSome &&
      v13.isSome && v14.isSome && v15.isSome && v16.isSome && v17.isSome && v18.isSome &&
      v19.isSome && v20.isSome then
    some { DomainName := v0.getD "", MerchantBusiness := v1.getD {}, MCCDetails := v2.getD {},
           PrivacyAndTerms := v3.getD {}, HTTPSCheck := v4.getD {},
           SSLSha256Fingerprint := v5.getD {}, SocialPresence := v6.getD {}, Whois := v7.getD {},
           GoDaddyWhois := v8.getD {}, URLVoid := v9.getD {}, IPVoid := v10.getD {},
           GoogleSafeBrowsing := v11.getD {}, TrancoList := v12.getD {}, PageSize := v13.getD {},
           TrafficVolume := v14.getD {}, PopupAndAds := v15.getD {},
           IsRiskyGeopolitical := v16.getD {}, RiskScore := v17.getD 0,
           RiskCategory := v18.getD "", RiskBreakdown := v19.getD none, CreatedAt := v20.getD {} }
  else none

/-! ### `ToJSON` and `FromJSON` -/

/-- Whether `Marshal` succeeds on the aggregate: every `time.Time` in it must be
accepted by `Time.MarshalJSON`; no other field can fail. -/
def timesMarshal (a : RiskAssessment) : Bool :=
  yearInRange a.Whois.CreationDate && yearInRange a.Whois.ExpirationDate &&
  yearInRange a.Whois.UpdatedDate && yearInRange a.CreatedAt

/-- Translation of `ToJSON`: the document, or the error of `MarshalIndent`. -/
def ToJSON (layout : TimeLayout) (assessment : RiskAssessment) : Except String Json :=
  if timesMarshal assessment then
    .ok (encodeRiskAssessment layout assessment)
  else
    .error ("json: error calling MarshalJSON for type time.Time: "
      ++ "Time.MarshalJSON: year outside of range [0,9999]")

/-- Translation of `FromJSON`: `Unmarshal` into a zero aggregate, or its error. -/
def FromJSON (layout : TimeLayout) (doc : Json) : Except String RiskAssessment :=
  match decStruct (decodeRiskAssessment layout) (some doc) with
  | some assessment => .ok assessment
  | none => .error "json: cannot unmarshal into Go value of type scrapers.RiskAssessment"

/-! ### What a value looks like after serialization and deserialization -/

/-- A time read back from its RFC 3339 string has no monotonic clock reading. -/
def Time.stripMonotonic (t : Time) : Time :=
  { t with mono := none }

/-- A slice or map under `omitempty` comes back nil when its length is 0. -/
def dropEmpty {α : Type} (l : Option (List α)) : Option (List α) :=
  match l with
  | some [] => none
  | other => other

def WhoisResult.afterRoundTrip (r : WhoisResult) : WhoisResult :=
  { r with
    CreationDate := r.CreationDate.stripMonotonic
    ExpirationDate := r.ExpirationDate.stripMonotonic
    UpdatedDate := r.UpdatedDate.stripMonotonic
    NameServers := dropEmpty r.NameServers }

def IPVoidResult.afterRoundTrip (r : IPVoidResult) : IPVoidResult :=
  { r with BlacklistStatus := dropEmpty r.BlacklistStatus }

def RiskAssessment.afterRoundTrip (a : RiskAssessment) : RiskAssessment :=
  { a with
    Whois := a.Whois.afterRoundTrip
    IPVoid := a.IPVoid.afterRoundTrip
    CreatedAt := a.CreatedAt.stripMonotonic }

/-- A well-formed `time.Time` that `Time.MarshalJSON` accepts: fewer than 10^9
nanoseconds, year in [0, 9999]. -/
def Time.valid (t : Time) : Bool :=
  yearInRange t && decide (t.nsec < 1000000000)

/-- All four timestamps of the aggregate are valid. -/
def timesValid (a : RiskAssessment) : Bool :=
  a.Whois.CreationDate.valid && a.Whois.ExpirationDate.valid &&
  a.Whois.UpdatedDate.valid && a.CreatedAt.valid

/-- The values that serialization does not change: no monotonic clock reading
in a timestamp, and no empty non-nil slice or map under `omitempty`. -/
def roundTripStable (a : RiskAssessment) : Bool :=
  a.Whois.CreationDate.mono.isNone && a.Whois.ExpirationDate.mono.isNone &&
  a.Whois.UpdatedDate.mono.isNone && a.CreatedAt.mono.isNone &&
  a.Whois.NameServers != some [] && a.IPVoid.BlacklistStatus != some []

/-- A layout that satisfies the law of `TimeLayout` and can be run: a sign, one
mark per second and one per nanosecond. It stands in for RFC 3339 where a
concrete layout is needed. -/
def TimeLayout.tally : TimeLayout where
  format := fun sec nsec =>
    String.mk ((if sec < 0 then '-' else '+') ::
      (List.replicate sec.natAbs 's' ++ List.replicate nsec 'n'))
  parse := fun s =>
    match s.data with
    | '+' :: rest =>
      some (((rest.takeWhile (fun c => c == 's')).length : Int),
        (rest.dropWhile (fun c => c == 's')).length)
    | '-' :: rest =>
      some (-((rest.takeWhile (fun c => c == 's')).length : Int),
        (rest.dropWhile (fun c => c == 's')).length)
    | _ => none
  parse_format := by
    intro sec nsec _ _ _
    have htake : ∀ k : Nat, (List.replicate k 's' ++ List.replicate nsec 'n').takeWhile
        (fun c => c == 's') = List.replicate k 's' := by
      intro k
      induction k with
      | zero => cases nsec <;> simp [List.replicate, List.takeWhile]
      | succ k ih => simp [List.replicate, List.takeWhile, ih]
    have hdrop : ∀ k : Nat, (List.replicate k 's' ++ List.replicate nsec 'n').dropWhile
        (fun c => c == 's') = List.replicate nsec 'n' := by
      intro k
      induction k with
      | zero => cases nsec <;> simp [List.replicate, List.dropWhile]
      | succ k ih => simp [List.replicate, List.dropWhile, ih]
    by_cases hs : sec < 0
    · simp only [hs, ↓reduceIte, htake, hdrop, List.length_replicate]
      congr 2
      omega
    · simp only [hs, ↓reduceIte, htake, hdrop, List.length_replicate]
      congr 2
      omega

/-- The aggregate of `TestJSONSerialization`; its timestamp is a reading of
`time.Now()`, which carries a monotonic clock reading. -/
def serializationTestAssessment : RiskAssessment :=
  { DomainName := "test.com"
    RiskScore := 50
    RiskCategory := "med_risk"
    CreatedAt := { sec := 63900000000, nsec := 123456789, mono := some 1 } }

/-- An aggregate created in the year 10000. -/
def farFutureAssessment : RiskAssessment :=
  { DomainName := "test.com", CreatedAt := { sec := 315537897600 } }

/-- An aggregate whose IP-reputation scan found no blacklist row: the map is
allocated and empty, as `parseBlacklistStatus` leaves it. -/
def emptyBlacklistAssessment : RiskAssessment :=
  { DomainName := "test.com"
    IPVoid := { IPAddress := "9.9.9.9", BlacklistStatus := some [] }
    CreatedAt := { sec := 63900000000, nsec := 123456789 } }

/-! ## Counting fired rules -/

/-- The number of rows of the rule table whose condition holds on an
aggregate. -/
def triggeredCount (a : RiskAssessment) : Nat :=
  (ruleTable.filter (fun r => r.fires a)).length

/-- An aggregate before scoring on which no rule fires. -/
def cleanCollected : RiskAssessment :=
  { DomainName := "example.com"
    MerchantBusiness := { CountryCode := "US", CountrySupported := true }
    HTTPSCheck := { HasHTTPS := true }
    SSLSha256Fingerprint := { HasSHA256 := true }
    PrivacyAndTerms :=
      { IsAccessible := true, PrivacyPolicyPresent := true, TermsOfServicePresent := true }
    SocialPresence := { SocialPresence := { LinkedIn := { Presence := true } } }
    URLVoid := { RegisteredOn := "1995-08-14" }
    PageSize := { PageSizeKB := 250, PageSizeBytes := 256000 }
    TrafficVolume := { GlobalRank := "1200", MonthlyVisits := "90000" } }

/-- An aggregate on which only the https rule (12 points) fires. -/
def httpsMissing : RiskAssessment :=
  { cleanCollected with HTTPSCheck := { HasHTTPS := false } }

/-- An aggregate on which only the rules traffic_vol_missing (4 points) and
ads (4 points) fire. -/
def adsAndNoTraffic : RiskAssessment :=
  { cleanCollected with
    TrafficVolume := { GlobalRank := "N/A", MonthlyVisits := "N/A" }
    PopupAndAds := { HasAds := true } }

/-! ## Page-size collector (additional_scrapers.go) -/

/-- The part of an HTTP response that `CheckPageSize` reads: the status code,
the error of `goquery.NewDocumentFromReader` if the body does not parse, and
the answer of `doc.Html()`, the serialised document or an error. -/
structure PageResponse where
  StatusCode : Int
  parseError : Option String
  Html : Except String String

/-- What `CheckPageSize` obtains from outside the package: the error of
`http.NewRequest` for a URL if there is one, the answer of `client.Do`, and
the printed form of the elapsed time. -/
structure SizeNet where
  NewRequest : String → Option String
  Do : String → Except String PageResponse
  loadTime : String

/-- Translation of `CheckPageSize`: the HTTPS fetch, the HTTP fallback, the
status check, the parse, and the size of the serialised document in bytes and
in whole kilobytes. `len(html)` counts bytes, and both operands of the
division are non-negative. -/
def CheckPageSize (net : SizeNet) (domain : String) : PageSizeResult :=
  let result : PageSizeResult := {}
  let url := "https://" ++ domain
  match net.NewRequest url with
  | some err => { result with Error := "Failed to create request: " ++ err }
  | none =>
    let fetched : Except String PageResponse :=
      match net.Do url with
      | .ok resp => .ok resp
      | .error _ =>
        let url := "http://" ++ domain
        match net.NewRequest url with
        | some err => .error ("Failed to create HTTP request: " ++ err)
        | none =>
          match net.Do url with
          | .ok resp => .ok resp
          | .error err => .error ("Failed to fetch page: " ++ err)
    match fetched with
    | .error msg => { result with Error := msg }
    | .ok resp =>
      let result := { result with LoadTime := net.loadTime }
      if resp.StatusCode != 200 then
        { result with Error := "HTTP status: " ++ toString resp.StatusCode }
      else
        match resp.parseError with
        | some err => { result with Error := "Failed to parse HTML: " ++ err }
        | none =>
          match resp.Html with
          | .error err => { result with Error := "Failed to get HTML: " ++ err }
          | .ok html =>
            let sizeBytes : Int := html.utf8ByteSize
            { result with PageSizeBytes := sizeBytes, PageSizeKB := sizeBytes / 1024 }

/-- A network on which every fetch succeeds with status 200 and the given
document. -/
def SizeNet.serving (html : String) : SizeNet where
  NewRequest := fun _ => none
  Do := fun _ => .ok { StatusCode := 200, parseError := none, Html := .ok html }
  loadTime := "120ms"

/-- A page of 41 bytes. -/
def tinyPage : String := "<html><head></head><body>ok</body></html>"

/-! ## Values of dynamic type -/

/-- A Go `float64`, kept as its IEEE 754 bit pattern; no arithmetic is done
on it here. -/
structure Float64 where
  bits : Nat := 0
deriving DecidableEq

/-- A struct value of the scrapers package stored in an `interface{}`. -/
inductive Scraped where
  | privacyTerms (r : PrivacyTermsResult)
  | https (r : HTTPSResult)
  | sslFingerprint (r : SSLFingerprintResult)
  | socialPresence (r : SocialPresenceResult)
  | whois (r : WhoisResult)
  | urlVoid (r : URLVoidResult)
  | ipVoid (r : IPVoidResult)
  | googleSafeBrowsing (r : GoogleSafeBrowsingResult)
  | pageSize (r : PageSizeResult)
  | trafficVolume (r : TrafficVolumeResult)
  | popupAds (r : PopupAdsResult)

/-- A Go `interface{}` value together with its dynamic type, for the dynamic
types that the website_risk package stores: the nil interface, `bool`, `int`,
`float64`, `string`, `*bool`, `map[string]int`, `map[string]interface{}` and
the result structs of the scrapers package. -/
inductive Any where
  | nil
  | bool (b : Bool)
  | int (n : Int)
  | float64 (x : Float64)
  | string (s : String)
  | boolPtr (p : Option Bool)
  | intMap (m : Option (List (String × Int)))
  | map (m : List (String × Any))
  | struct (r : Scraped)

/-- The type assertion `v.(bool)` with its `ok` flag. -/
def Any.asBool : Option Any → Option Bool
  | some (Any.bool b) => some b
  | _ => none

/-- The type assertion `v.(string)` with its `ok` flag. -/
def Any.asString : Option Any → Option String
  | some (Any.string s) => some s
  | _ => none

/-- The type assertion `v.(map[string]interface{})` with its `ok` flag. -/
def Any.asMap : Option Any → Option (GoMap Any)
  | some (Any.map m) => some m
  | _ => none

/-! ## Result types of the website_risk packages (website_risk/scrapers,
website_risk/types.go) -/

namespace WebsiteRisk

structure Local.HTTPSResult where
  HasHTTPS : Bool := false
  Protocol : String := ""
  Status : String := ""
  PageTitle : String := ""
  Error : String := ""

structure Local.SSLFingerprintResult where
  Domain : String := ""
  SHA256Fingerprint : String := ""
  HasSHA256 : Bool := false
  Error : String := ""

structure Local.PrivacyTermsResult where
  IsAccessible : Bool := false
  SSLValid : Bool := false
  TermsOfServicePresent : Bool := false
  PrivacyPolicyPresent : Bool := false
  LegalName : String := ""

structure Local.SocialPlatform where
  Presence : Bool := false
  Link : String := ""

structure Local.SocialPresence where
  LinkedIn : Local.SocialPlatform := {}
  Facebook : Local.SocialPlatform := {}
  Instagram : Local.SocialPlatform := {}
  Twitter : Local.SocialPlatform := {}
  YouTube : Local.SocialPlatform := {}

structure Local.SocialPresenceResult where
  SocialPresence : Local.SocialPresence := {}
  Employees : Option (List (GoMap Any)) := none
  LinkedInCompanyDetails : Option (GoMap Any) := none

structure Local.WhoisResult where
  DomainName : String := ""
  Registrar : String := ""
  CreationDate : Time := {}
  ExpirationDate : Time := {}
  UpdatedDate : Time := {}
  NameServers : Option (List String) := none
  Status : Option (List String) := none
  Error : String := ""

structure Local.PageSizeResult where
  PageSizeKB : Any := Any.nil
  PageSizeBytes : Any := Any.nil
  PageURL : String := ""
  LoadTime : String := ""
  Error : String := ""

structure DetectionsCounts where
  Detected : Int := 0
  Checks : Int := 0

structure TestResult where
  Blacklisted : Int := 0
  NotListed : Int := 0
  TotalTests : Int := 0

structure URLVoidResult where
  WebsiteAddress : String := ""
  LastAnalysis : String := ""
  DetectionsCounts : DetectionsCounts := {}
  BlacklistTests : TestResult := {}
  CombinedListTests : TestResult := {}
  WhitelistTests : TestResult := {}
  InformationalTests : TestResult := {}
  RegisteredOn : String := ""
  RegisteredSince : String := ""
  IPAddress : String := ""
  ReverseDNS : String := ""
  ASN : String := ""
  ServerLocation : String := ""
  LatitudeLongitude : String := ""
  City : String := ""
  Region : String := ""
  Error : String := ""

/-! ## Concurrent orchestrator (website_risk/orchestrator.go) -/

/-- Translation of `PopupAdsChecker.Check` of the website_risk package; the
cleaned domain is computed and not used. -/
def PopupAdsChecker.Check (domain : String) : PopupAdsResult :=
  let _domain := cleanDomain domain
  { HasPopups := false, HasAds := false }

/-- The result struct of the concurrent orchestrator. -/
structure AssessmentResult where
  HTTPSCheck : Local.HTTPSResult := {}
  SSLFingerprint : Local.SSLFingerprintResult := {}
  PrivacyAndTerms : Local.PrivacyTermsResult := {}
  SocialPresence : Local.SocialPresenceResult := {}
  Whois : Local.WhoisResult := {}
  URLVoid : URLVoidResult := {}
  PageSize : Local.PageSizeResult := {}
  TrafficVolume : TrafficVolumeResult := {}
  PopupAndAds : PopupAdsResult := {}

/-- The checkers of the `Orchestrator` struct that go to the network, as the
answers they give, and the day printed by `time.Now().Format("2006-01-02")`
in `runURLVoid`. The traffic and popup checkers are the mock functions of the
package. -/
structure Orchestrator where
  httpsChecker : String → Local.HTTPSResult
  sslChecker : String → Local.SSLFingerprintResult
  privacyChecker : String → Local.PrivacyTermsResult
  socialChecker : String → Local.SocialPresenceResult
  whoisChecker : String → Local.WhoisResult
  pageSizeChecker : String → Local.PageSizeResult
  today : String

/-- A value sent on `resultChan`, a channel of `interface{}`: one of the nine
dynamic types that the scraper functions send. -/
inductive Message where
  | https (v : Local.HTTPSResult)
  | sslFingerprint (v : Local.SSLFingerprintResult)
  | privacyTerms (v : Local.PrivacyTermsResult)
  | socialPresence (v : Local.SocialPresenceResult)
  | whois (v : Local.WhoisResult)
  | urlVoid (v : URLVoidResult)
  | pageSize (v : Local.PageSizeResult)
  | trafficVolume (v : TrafficVolumeResult)
  | popupAds (v : PopupAdsResult)

def Orchestrator.runHTTPSCheck (o : Orchestrator) (domain : String) : Message :=
  Message.https (o.httpsChecker domain)

def Orchestrator.runSSLFingerprint (o : Orchestrator) (domain : String) : Message :=
  Message.sslFingerprint (o.sslChecker domain)

def Orchestrator.runPrivacyTerms (o : Orchestrator) (domain : String) : Message :=
  Message.privacyTerms (o.privacyChecker domain)

def Orchestrator.runSocialPresence (o : Orchestrator) (domain : String) : Message :=
  Message.socialPresence (o.socialChecker domain)

def Orchestrator.runWhois (o : Orchestrator) (domain : String) : Message :=
  Message.whois (o.whoisChecker domain)

/-- Translation of `runURLVoid`, which sends mock data. -/
def Orchestrator.runURLVoid (o : Orchestrator) (domain : String) : Message :=
  Message.urlVoid
    { WebsiteAddress := domain
      LastAnalysis := o.today
      DetectionsCounts := { Detected := 0, Checks := 30 }
      BlacklistTests := { Blacklisted := 0, NotListed := 30, TotalTests := 30 } }

def Orchestrator.runPageSize (o : Orchestrator) (domain : String) : Message :=
  Message.pageSize (o.pageSizeChecker domain)

def Orchestrator.runTrafficVolume (_o : Orchestrator) (domain : String) : Message :=
  Message.trafficVolume (TrafficVolumeChecker.Check domain)

def Orchestrator.runPopupAds (_o : Orchestrator) (domain : String) : Message :=
  Message.popupAds (PopupAdsChecker.Check domain)

/-- The slice `scraperFuncs` of `RunAssessment`. -/
def Orchestrator.scraperFuncs (o : Orchestrator) : List (String → Message) :=
  [o.runHTTPSCheck, o.runSSLFingerprint, o.runPrivacyTerms, o.runSocialPresence, o.runWhois,
   o.runURLVoid, o.runPageSize, o.runTrafficVolume, o.runPopupAds]

/-- One admissible order of arrival on the result channel: the goroutines run
concurrently, so the values sent may be received in any rearrangement. -/
structure Arrival where
  order : List Message → List Message
  perm : ∀ l : List Message, List.Perm (order l) l

/-- Arrival in the order of `scraperFuncs`. -/
def Arrival.inOrder : Arrival :=
  ⟨fun l => l, fun l => List.Perm.refl l⟩

/-- Arrival in the reverse order of `scraperFuncs`. -/
def Arrival.reversed : Arrival :=
  ⟨fun l => l.reverse, fun l => List.reverse_perm l⟩

/-- The body of the collection loop: the type switch on one received value. -/
def collect (result : AssessmentResult) (res : Message) : AssessmentResult :=
  match res with
  | Message.https v => { result with HTTPSCheck := v }
  | Message.sslFingerprint v => { result with SSLFingerprint := v }
  | Message.privacyTerms v => { result with PrivacyAndTerms := v }
  | Message.socialPresence v => { result with SocialPresence := v }
  | Message.whois v => { result with Whois := v }
  | Message.urlVoid v => { result with URLVoid := v }
  | Message.pageSize v => { result with PageSize := v }
  | Message.trafficVolume v => { result with TrafficVolume := v }
  | Message.popupAds v => { result with PopupAndAds := v }

/-- Translation of `Orchestrator.RunAssessment`: every scraper function sends
one value, and the loop folds the values over the zero result in the order in
which they arrive. -/
def Orchestrator.RunAssessment (o : Orchestrator) (arrival : Arrival) (domain : String) :
    AssessmentResult :=
  let sent := o.scraperFuncs.map (fun fn => fn domain)
  (arrival.order sent).foldl collect {}

/-- An orchestrator whose checkers all report a failure. -/
def Orchestrator.offline : Orchestrator where
  httpsChecker := fun _ => { Error := "timeout" }
  sslChecker := fun d => { Domain := d, Error := "timeout" }
  privacyChecker := fun _ => {}
  socialChecker := fun _ => {}
  whoisChecker := fun _ => { Error := "timeout" }
  pageSizeChecker := fun _ => { Error := "timeout" }
  today := "2025-01-15"

end WebsiteRisk

/-! ## Assessment records and the API view (website_risk/handlers.go, types.go) -/

namespace WebsiteRisk

def OnboardingSupportedCountries : List String :=
  ["BE", "DE", "ES", "FR", "GB", "NL", "IT", "US"]

def IsCountrySupported (countryCode : String) : Bool :=
  OnboardingSupportedCountries.any (fun country => country == countryCode)

def isCountrySupported (countryCode : String) : Bool :=
  IsCountrySupported countryCode

structure DoRiskAssessmentRequest where
  Website : String := ""
  ID : String := ""
  BillingCountryCode : String := ""
  Description : String := ""
  AnnualRevenue : String := ""
  CBSICCode : String := ""
  CBPayMethod : String := ""

/-- The record of the assessments table; a nil pointer or nil map is `none`. -/
structure Assessment where
  ID : Int := 0
  Website : String := ""
  CountryCode : String := ""
  Status : String := ""
  AssessmentData : Option (GoMap Any) := none
  ProcessingTimeSeconds : Option Float64 := none
  ErrorMessage : Option String := none
  CreatedAt : Time := {}
  UpdatedAt : Time := {}
  CreatedBy : String := ""
  UpdatedBy : String := ""
  UserID : String := ""
  CreditsConsumed : Int := 0
  AssessmentCost : Option Float64 := none
  AssessmentType : String := ""
  RiskScore : Option Int := none
  RiskCategory : Option String := none
  CountrySupported : Option Bool := none
  MCCRestricted : Option Bool := none

structure MerchantBusiness where
  CountryCode : String := ""
  CountrySupported : Bool := false

structure MCCDetails where
  MCCCode : String := ""
  Description : String := ""
  MCCRestricted : Bool := false
  Confidence : Float64 := {}
  ReasonOfConfidenceScore : String := ""

structure GeopoliticalRisk where
  IsRisky : Bool := false

/-- The API record `WebsiteRiskAssessment`. The collector payload fields,
which `convertToWebsiteRiskAssessment` never assigns, are left out. -/
structure WebsiteRiskAssessment where
  ID : String := ""
  Domain : String := ""
  Website : String := ""
  BillingCountryCode : String := ""
  SalesforceID : String := ""
  Status : String := ""
  QualificationStatus : String := ""
  RiskScore : Int := 0
  RiskCategory : String := ""
  RiskBreakdown : Option (GoMap Int) := none
  MCCDetails : MCCDetails := {}
  MerchantBusiness : MerchantBusiness := {}
  IsRiskyGeopolitical : GeopoliticalRisk := {}
  SalesforceRequest : Option (GoMap Any) := none
  Version : String := ""
  CreatedAt : Time := {}
  UpdatedAt : Time := {}

/-- The clock readings of `DoRiskAssessmentHandler`: the printed start time
and the two readings stored in the record. -/
structure CreateClock where
  startedAt : String
  createdAt : Time
  updatedAt : Time

/-- The credit cost computed by `DoRiskAssessmentHandler`; `len` counts
bytes. -/
def creditsRequired (req : DoRiskAssessmentRequest) : Int :=
  if req.Description != "" && req.Description.utf8ByteSize > 50 then 3 else 1

/-- The record that `DoRiskAssessmentHandler` builds and stores once the
credits are consumed; `assessmentCounter` is the counter before its
increment. -/
def createAssessment (clock : CreateClock) (assessmentCounter : Int) (userID : String)
    (req : DoRiskAssessmentRequest) : Assessment :=
  let assessmentCounter := assessmentCounter + 1
  let assessmentData : GoMap Any :=
    [("salesforce_request", Any.map
        [("Id", Any.string req.ID),
         ("Website", Any.string req.Website),
         ("BillingCountryCode", Any.string req.BillingCountryCode),
         ("Description", Any.string req.Description),
         ("Annual_Revenue__c", Any.string req.AnnualRevenue),
         ("CB_SIC_Code__c", Any.string req.CBSICCode),
         ("CB_Pay_Method__c", Any.string req.CBPayMethod)]),
     ("country_supported", Any.bool (isCountrySupported req.BillingCountryCode)),
     ("mcc_restricted", Any.bool false),
     ("timestamps", Any.map [("assessment_started", Any.string clock.startedAt)])]
  { ID := assessmentCounter
    Website := req.Website
    CountryCode := req.BillingCountryCode
    Status := "pending"
    AssessmentData := some assessmentData
    CreatedBy := userID
    UpdatedBy := userID
    UserID := userID
    CreditsConsumed := creditsRequired req
    AssessmentType := "comprehensive"
    CreatedAt := clock.createdAt
    UpdatedAt := clock.updatedAt }

/-- The clock readings of one `runAssessment`: the time stored in `UpdatedAt`,
the printed completion time, and the two elapsed times in seconds. -/
structure RunClock where
  updatedAt : Time
  completedAt : String
  processingDuration : Float64
  processingTime : Float64

/-- The entries that the success path of `runAssessment` writes into
`assessment_data` before it touches the timestamps, in source order. -/
def resultEntries (assessment : Assessment) (result : RiskAssessment) : List (String × Any) :=
  [("risk_score", Any.int result.RiskScore),
   ("risk_category", Any.string result.RiskCategory),
   ("country_supported", Any.boolPtr assessment.CountrySupported),
   ("mcc_restricted", Any.bool result.MCCDetails.MCCRestricted),
   ("compliance_flags", Any.map
      [("https_supported", Any.bool result.HTTPSCheck.HasHTTPS),
       ("ssl_valid", Any.bool result.SSLSha256Fingerprint.HasSHA256),
       ("privacy_compliant", Any.bool result.PrivacyAndTerms.PrivacyPolicyPresent),
       ("terms_compliant", Any.bool result.PrivacyAndTerms.TermsOfServicePresent),
       ("social_presence", Any.bool result.SocialPresence.SocialPresence.LinkedIn.Presence),
       ("geopolitical_risk", Any.bool result.IsRiskyGeopolitical.IsRisky)]),
   ("technical_details", Any.map
      [("page_size_kb", Any.int result.PageSize.PageSizeKB),
       ("has_popups", Any.bool result.PopupAndAds.HasPopups),
       ("has_ads", Any.bool result.PopupAndAds.HasAds),
       ("ip_address", Any.string result.URLVoid.IPAddress),
       ("server_location", Any.string "")]),
   ("security_details", Any.map
      [("urlvoid_detections", Any.int result.URLVoid.DetectionsCounts.Detected),
       ("ipvoid_detections", Any.int result.IPVoid.DetectionsCount.Detected),
       ("ssl_details", Any.map
          [("has_sha256", Any.bool result.SSLSha256Fingerprint.HasSHA256),
           ("valid", Any.bool result.SSLSha256Fingerprint.HasSHA256)])]),
   ("business_details", Any.map
      [("mcc_code", Any.string result.MCCDetails.MCCCode),
       ("mcc_category", Any.string result.MCCDetails.MCCCategory),
       ("domain_age", Any.int 0)]),
   ("risk_breakdown", Any.intMap result.RiskBreakdown),
   ("scraped_data", Any.map
      [("privacy_policy", Any.struct (Scraped.privacyTerms result.PrivacyAndTerms)),
       ("https_check", Any.struct (Scraped.https result.HTTPSCheck)),
       ("ssl_fingerprint", Any.struct (Scraped.sslFingerprint result.SSLSha256Fingerprint)),
       ("social_presence", Any.struct (Scraped.socialPresence result.SocialPresence)),
       ("whois", Any.struct (Scraped.whois result.Whois)),
       ("urlvoid", Any.struct (Scraped.urlVoid result.URLVoid)),
       ("ipvoid", Any.struct (Scraped.ipVoid result.IPVoid)),
       ("google_safe_browsing", Any.struct (Scraped.googleSafeBrowsing result.GoogleSafeBrowsing)),
       ("page_size", Any.struct (Scraped.pageSize result.PageSize)),
       ("traffic_volume", Any.struct (Scraped.trafficVolume result.TrafficVolume)),
       ("popup_ads", Any.struct (Scraped.popupAds result.PopupAndAds))])]

/-- Translation of `runAssessment`, as the record it leaves in the in-memory
store; the database update, the notifications and the Salesforce log line do
not change the record. The unchecked type assertion on the "timestamps" entry
panics when the entry is missing or is not a map, which is the `error` case. -/
def runAssessment (w : World) (clock : RunClock) (assessment : Assessment) :
    Except String Assessment :=
  let countrySupported :=
    match assessment.AssessmentData with
    | some data => (Any.asBool (data.get? "country_supported")).getD false
    | none => false
  if !countrySupported then
    .ok { assessment with
          Status := "completed"
          RiskCategory := some "high_risk"
          RiskScore := some 100
          UpdatedAt := clock.updatedAt
          ProcessingTimeSeconds := some clock.processingTime }
  else
    let run := RunAssessment w assessment.Website assessment.CountryCode
    match run.err with
    | some errorMsg =>
      .ok { assessment with
            Status := "failed"
            ErrorMessage := some errorMsg
            UpdatedAt := clock.updatedAt
            ProcessingTimeSeconds := some clock.processingTime }
    | none =>
      let result := run.assessment
      let data : GoMap Any := assessment.AssessmentData.getD []
      let data := (resultEntries assessment result).foldl (fun m e => m.set e.1 e.2) data
      match Any.asMap (data.get? "timestamps") with
      | none => .error "panic: interface conversion"
      | some timestamps =>
        let data := data.set "timestamps" (Any.map
          [("assessment_started", (timestamps.get? "assessment_started").getD Any.nil),
           ("assessment_completed", Any.string clock.completedAt),
           ("processing_duration", Any.float64 clock.processingDuration)])
        .ok { assessment with
              Status := "completed"
              AssessmentData := some data
              UpdatedAt := clock.updatedAt
              ProcessingTimeSeconds := some clock.processingTime }

/-- Translation of `convertToWebsiteRiskAssessment`; `%d` prints the decimal
form of the identifier. -/
def convertToWebsiteRiskAssessment (assessment : Assessment) : WebsiteRiskAssessment :=
  let data : GoMap Any := assessment.AssessmentData.getD []
  let business := Any.asMap (data.get? "business_details")
  let mccDetails : MCCDetails := { MCCRestricted := false }
  let mccDetails :=
    match Any.asBool (data.get? "mcc_restricted") with
    | some mccRestricted => { mccDetails with MCCRestricted := mccRestricted }
    | none => mccDetails
  let mccDetails :=
    match business.bind (fun businessDetails => Any.asString (businessDetails.get? "mcc_code")) with
    | some mccCode => { mccDetails with MCCCode := mccCode }
    | none => mccDetails
  let mccDetails :=
    match business.bind
      (fun businessDetails => Any.asString (businessDetails.get? "mcc_category")) with
    | some mccCategory => { mccDetails with Description := mccCategory }
    | none => mccDetails
  let flags := Any.asMap (data.get? "compliance_flags")
  { ID := "WRA-" ++ toString assessment.ID
    Domain := assessment.Website
    Website := assessment.Website
    BillingCountryCode := assessment.CountryCode
    Status := assessment.Status
    CreatedAt := assessment.CreatedAt
    UpdatedAt := assessment.UpdatedAt
    MerchantBusiness :=
      { CountryCode := assessment.CountryCode
        CountrySupported := (Any.asBool (data.get? "country_supported")).getD false }
    RiskScore := assessment.RiskScore.getD 0
    RiskCategory := assessment.RiskCategory.getD ""
    MCCDetails := mccDetails
    IsRiskyGeopolitical :=
      { IsRisky :=
          (flags.bind (fun complianceFlags =>
            Any.asBool (complianceFlags.get? "geopolitical_risk"))).getD false }
    SalesforceRequest := Any.asMap (data.get? "salesforce_request") }

/-- The request of the sample run: a shop in the United States. -/
def sampleRequest : DoRiskAssessmentRequest :=
  { Website := "example.com", ID := "006-0001", BillingCountryCode := "US" }

def sampleCreateClock : CreateClock :=
  { startedAt := "2025-01-15T10:00:00Z"
    createdAt := { sec := 63900000000, nsec := 0, mono := some 1 }
    updatedAt := { sec := 63900000000, nsec := 5, mono := some 2 } }

def sampleRunClock : RunClock :=
  { updatedAt := { sec := 63900000040, nsec := 0, mono := some 3 }
    completedAt := "2025-01-15T10:00:40Z"
    processingDuration := { bits := 4630826316843712512 }
    processingTime := { bits := 4630826316843712512 } }

end WebsiteRisk

/-! ## The geopolitical invocation in the call log -/

/-- The arguments of the geopolitical-check invocations recorded in a call
log. -/
def geoArgs (calls : List Call) : List String :=
  calls.filterMap (fun c =>
    match c with
    | Call.CheckGeopoliticalRisk countryCode => some countryCode
    | _ => none)

/-- The compliant world, except that the IP-reputation result carries no
country code and the country name "Russia". -/
def World.hostedInRussia : World :=
  { World.compliant with
    GetIPVoidData := fun ip => { IPAddress := ip, CountryName := "Russia" } }

/-! ## Waiting for the network: blocking calls and their time bounds -/

/-- A place in the source where a collector invoked by `RunAssessment` waits
for the network. -/
inductive BlockingCall where
  /-- `c.httpClient.Do` in `extractTextFromURL` (mcc/classifier.go line 110). -/
  | classifierFetch
  /-- `c.client.CreateChatCompletion` in `classifyWithOpenAI` (line 187). -/
  | classifierChatCompletion
  /-- `client.Do` in `fetchPageTitle` (https_checker.go line 66). -/
  | httpsFetchTitle
  /-- `tls.DialWithDialer` in `GetSSLFingerprint` (ssl_fingerprint.go line 22). -/
  | sslFingerprintDial
  /-- `tls.Dial` in `checkSSLValidity` (privacy_terms.go line 53). -/
  | privacyTLSDial
  /-- `client.Do` in `fetchPageContent` (privacy_terms.go lines 83 and 93). -/
  | privacyFetch
  /-- `client.Do` in social_presence.go (lines 79, 89 and 150). -/
  | socialRequest
  /-- `net.DialTimeout` in `GetWhoisData` (whois.go line 29). -/
  | whoisDial
  /-- The write and the reads on the WHOIS connection (whois.go lines 40 to 50). -/
  | whoisExchange
  /-- `s.client.Do` in `ScrapeURLVoid` (urlvoid_scraper.go line 57). -/
  | urlVoidRequest
  /-- `s.client.Do` in `ScrapeGoDaddyWhois` (godaddy_whois_scraper.go line 74). -/
  | goDaddyRequest
  /-- `s.client.Do` in `ScrapeGoogleSafeBrowsing` (line 71). -/
  | safeBrowsingRequest
  /-- `s.client.Do` in `ScrapeTrancoList` (tranco_list_scraper.go lines 65 and 94). -/
  | trancoRequest
  /-- `client.Do` in `CheckPageSize` (additional_scrapers.go lines 175 and 186). -/
  | pageSizeRequest
  /-- `client.Do` in `CheckPopupAds` (additional_scrapers.go lines 256 and 267). -/
  | popupAdsRequest
  /-- `s.client.Do` in `ScrapeIPVoid` (additional_scrapers.go line 51). -/
  | ipVoidRequest
deriving DecidableEq

/-- The bound in seconds that the source puts on a blocking call: the
`Timeout` of its `http.Client` or `net.Dialer`, the deadline of its context or
connection, the smaller one where two apply; `none` where the source sets
none (`tls.Dial` without a dialer, `context.Background()`). -/
def BlockingCall.timeout : BlockingCall → Option Nat
  | .classifierFetch => some 30
  | .classifierChatCompletion => none
  | .httpsFetchTitle => some 10
  | .sslFingerprintDial => some 5
  | .privacyTLSDial => none
  | .privacyFetch => some 15
  | .socialRequest => some 10
  | .whoisDial => some 10
  | .whoisExchange => some 10
  | .urlVoidRequest => some 25
  | .goDaddyRequest => some 30
  | .safeBrowsingRequest => some 30
  | .trancoRequest => some 45
  | .pageSizeRequest => some 15
  | .popupAdsRequest => some 15
  | .ipVoidRequest => some 25

/-- The blocking calls that a collector invocation can reach. The traffic
placeholder and the geopolitical check do not use the network. -/
def Call.blockingCalls : Call → List BlockingCall
  | .CheckMCC _ => [.classifierFetch, .classifierChatCompletion]
  | .CheckHTTPS _ => [.httpsFetchTitle]
  | .GetSSLFingerprint _ => [.sslFingerprintDial]
  | .CheckPrivacyTerms _ => [.privacyTLSDial, .privacyFetch]
  | .CheckSocialPresence _ => [.socialRequest]
  | .GetWhoisData _ => [.whoisDial, .whoisExchange]
  | .GetURLVoidData _ => [.urlVoidRequest]
  | .GetGoDaddyWhoisData _ => [.goDaddyRequest]
  | .GetGoogleSafeBrowsingData _ => [.safeBrowsingRequest]
  | .GetTrancoListData _ => [.trancoRequest]
  | .CheckPageSize _ => [.pageSizeRequest]
  | .CheckTrafficVolume _ => []
  | .CheckPopupAds _ => [.popupAdsRequest]
  | .GetIPVoidData _ => [.ipVoidRequest]
  | .CheckGeopoliticalRisk _ => []

/-- The argument of a collector invocation. -/
def Call.argument : Call → String
  | .CheckMCC domain => domain
  | .CheckHTTPS domain => domain
  | .GetSSLFingerprint domain => domain
  | .CheckPrivacyTerms domain => domain
  | .CheckSocialPresence domain => domain
  | .GetWhoisData domain => domain
  | .GetURLVoidData domain => domain
  | .GetGoDaddyWhoisData domain => domain
  | .GetGoogleSafeBrowsingData domain => domain
  | .GetTrancoListData domain => domain
  | .CheckPageSize domain => domain
  | .CheckTrafficVolume domain => domain
  | .CheckPopupAds domain => domain
  | .GetIPVoidData ipAddress => ipAddress
  | .CheckGeopoliticalRisk countryCode => countryCode

/-- Whether a blocking call comes back: it does when the source bounds it, and
otherwise only if it does not stall. `stalls b arg` says that during the
collector invocation on `arg` the call `b` is reached and its peer neither
answers nor closes the connection. -/
def BlockingCall.comesBack (stalls : BlockingCall → String → Bool) (b : BlockingCall)
    (arg : String) : Bool :=
  b.timeout.isSome || !stalls b arg

/-- Whether a collector invocation returns: every blocking call it reaches
comes back. -/
def Call.returns (stalls : BlockingCall → String → Bool) (c : Call) : Bool :=
  c.blockingCalls.all (fun b => b.comesBack stalls c.argument)

/-- Whether `RunAssessment` returns. The orchestrator invokes the collectors
one after the other on the calling goroutine, so it returns exactly when every
invocation it makes returns. -/
def RunAssessmentReturns (w : World) (stalls : BlockingCall → String → Bool)
    (domainName countryCode : String) : Bool :=
  (RunAssessment w domainName countryCode).calls.all (fun c => c.returns stalls)

/-- A peer that accepts the connection to port 443 and never answers the TLS
handshake; everything else answers. -/
def silentTLSPeer (b : BlockingCall) (_arg : String) : Bool :=
  b == BlockingCall.privacyTLSDial

/-- A network that serves a page which goquery fails to parse. -/
def PageNet.unparsable : PageNet where
  checkSSLValidity := fun _ => true
  fetchPageContent := fun _ => .ok "<html>"
  documentText := fun _ => .error "unexpected EOF"
  extractLegalName := fun _ => ""

/-- A network that serves a page without any text. -/
def PageNet.blank : PageNet where
  checkSSLValidity := fun _ => true
  fetchPageContent := fun _ => .ok "<html></html>"
  documentText := fun _ => .ok ""
  extractLegalName := fun _ => ""

/-! ## Lemmas on the Go library functions -/

theorem GoMap.set_of_not_mem {V : Type} (m : GoMap V) (k : String) (v : V)
    (h : k ∉ m.keys) : m.set k v = m ++ [(k, v)] := by
  unfold GoMap.set
  have : m.any (fun e => e.1 == k) = false := by
    rw [Bool.eq_false_iff]
    intro hc
    rw [List.any_eq_true] at hc
    obtain ⟨e, he, hk⟩ := hc
    exact h (by
      have : e.1 = k := by simpa using hk
      rw [← this]; exact List.mem_map_of_mem _ he)
  simp [this]

theorem foldl_add_eq_sum (l : GoMap Int) (acc : Int) :
    l.foldl (fun totalScore e => totalScore + e.2) acc = acc + l.values.sum := by
  induction l generalizing acc with
  | nil => simp [GoMap.values]
  | cons e es ih =>
    rw [List.foldl_cons, ih]
    simp [GoMap.values]
    omega

theorem fieldsAux_shape (l : List Char) :
    ∀ cur : List Char, (∀ ch ∈ cur, isSpace ch = false) →
      ∀ f ∈ fieldsAux l cur, f ≠ [] ∧ ∀ ch ∈ f, isSpace ch = false := by
  induction l with
  | nil =>
    intro cur hcur f hf
    cases cur with
    | nil => simp [fieldsAux] at hf
    | cons c cs =>
      simp only [fieldsAux, List.isEmpty_cons, Bool.false_eq_true, ↓reduceIte,
        List.mem_singleton] at hf
      subst hf
      exact ⟨by simp, fun ch hch => hcur ch (List.mem_reverse.mp hch)⟩
  | cons c cs ih =>
    intro cur hcur f hf
    by_cases hc : isSpace c = true
    · cases cur with
      | nil =>
        simp only [fieldsAux, hc, ↓reduceIte, List.isEmpty_nil] at hf
        exact ih [] (by simp) f hf
      | cons d ds =>
        simp only [fieldsAux, hc, ↓reduceIte, List.isEmpty_cons, Bool.false_eq_true,
          List.mem_cons] at hf
        rcases hf with hf | hf
        · subst hf
          exact ⟨by simp, fun ch hch => hcur ch (List.mem_reverse.mp hch)⟩
        · exact ih [] (by simp) f hf
    · simp only [fieldsAux, hc, Bool.false_eq_true, ↓reduceIte] at hf
      refine ih (c :: cur) ?_ f hf
      intro ch hch
      rcases List.mem_cons.mp hch with h | h
      · subst h; simpa using hc
      · exact hcur ch h

theorem fieldsAux_eq_nil_iff (l : List Char) :
    ∀ cur : List Char, fieldsAux l cur = [] ↔ cur = [] ∧ ∀ ch ∈ l, isSpace ch = true := by
  induction l with
  | nil => intro cur; cases cur <;> simp [fieldsAux]
  | cons c cs ih =>
    intro cur
    by_cases hc : isSpace c = true
    · cases cur with
      | nil => simp [fieldsAux, hc, ih]
      | cons d ds => simp [fieldsAux, hc]
    · simp only [fieldsAux, hc, Bool.false_eq_true, ↓reduceIte, ih, List.mem_cons,
        forall_eq_or_imp]
      simp [hc]

theorem Fields_token_shape (s tok : String) (h : tok ∈ Fields s) :
    tok ≠ "" ∧ ∀ ch ∈ tok.data, isSpace ch = false := by
  obtain ⟨f, hf, rfl⟩ := List.mem_map.mp h
  have hs := fieldsAux_shape s.data [] (by simp) f hf
  refine ⟨?_, hs.2⟩
  intro hc
  exact hs.1 (congrArg String.data hc)

theorem Fields_eq_nil_iff (s : String) :
    Fields s = [] ↔ ∀ ch ∈ s.data, isSpace ch = true := by
  unfold Fields
  rw [List.map_eq_nil_iff, fieldsAux_eq_nil_iff]
  simp

theorem ExtractIP_of_nil (r : URLVoidResult) (h : Fields r.IPAddress = []) :
    ExtractIPFromURLVoid r = "" := by
  unfold ExtractIPFromURLVoid
  rw [h]; simp

theorem ExtractIP_of_cons (r : URLVoidResult) (tok : String) (rest : List String)
    (h : Fields r.IPAddress = tok :: rest) :
    ExtractIPFromURLVoid r = tok ∧ tok ≠ "" := by
  have hne : tok ≠ "" := (Fields_token_shape r.IPAddress tok (by rw [h]; simp)).1
  have hip : r.IPAddress ≠ "" := by
    intro hc
    rw [hc, show Fields "" = [] from rfl] at h
    cases h
  unfold ExtractIPFromURLVoid
  rw [h]
  simp [hip, hne]

theorem ToLower_empty (tbl : Char → Char) : ToLower tbl "" = "" := rfl

theorem extractCountryCodeFromName_eq (tbl : Char → Char) (countryName : String) :
    extractCountryCodeFromName tbl countryName
      = (countryMapping.get? (ToLower tbl countryName)).getD "" := by
  unfold extractCountryCodeFromName
  by_cases h : countryName = ""
  · subst h
    rw [ToLower_empty]
    decide
  · have hb : (countryName != "") = true := by simpa using h
    simp only [hb, ↓reduceIte]
    cases countryMapping.get? (ToLower tbl countryName) <;> rfl

theorem CheckGeopoliticalRisk_supported (countryCode : String)
    (h : IsCountrySupported countryCode = true) :
    CheckGeopoliticalRisk countryCode = CheckGeopoliticalRisk "" := by
  simp only [IsCountrySupported, OnboardingSupportedCountries, List.any_cons, List.any_nil,
    Bool.or_false, Bool.or_eq_true, beq_iff_eq] at h
  rcases h with h | h | h | h | h | h | h | h <;> subst h <;> decide

/-! ## Lemmas on the scoring engine -/

theorem breakdown_eq_applyRules (ord : RangeOrder) (a : RiskAssessment) :
    (CalculateRiskScore ord a).2 = applyRules a ruleTable [] := by
  simp only [CalculateRiskScore, applyRules, ruleTable, List.foldl_cons, List.foldl_nil,
    Bool.and_eq_true, decide_eq_true_eq]

theorem firing_keys (a : RiskAssessment) (rules : List ScoreRule) :
    (firing a rules).keys = (rules.filter (fun r => r.fires a)).map ScoreRule.label := by
  induction rules with
  | nil => rfl
  | cons r rs ih =>
    unfold firing GoMap.keys at *
    by_cases h : r.fires a <;> simp [List.filterMap_cons, List.filter_cons, h, ih]

theorem applyRules_eq (a : RiskAssessment) (rules : List ScoreRule) :
    ∀ m : GoMap Int, (rules.map ScoreRule.label).Nodup →
      (∀ r ∈ rules, r.label ∉ m.keys) →
      applyRules a rules m = m ++ firing a rules := by
  induction rules with
  | nil => intro m _ _; simp [applyRules, firing]
  | cons r rs ih =>
    intro m hnd hm
    rw [List.map_cons, List.nodup_cons] at hnd
    have hr : r.label ∉ m.keys := hm r (List.mem_cons_self _ _)
    by_cases h : r.fires a
    · have step : applyRules a (r :: rs) m = applyRules a rs (m.set r.label r.points) := by
        simp [applyRules, h]
      rw [step, GoMap.set_of_not_mem m _ _ hr, ih]
      · simp [firing, List.filterMap_cons, h]
      · exact hnd.2
      · intro r2 hr2 hmem
        simp only [GoMap.keys, List.map_append, List.mem_append, List.map_cons, List.map_nil,
          List.mem_singleton] at hmem
        rcases hmem with hmem | hmem
        · exact hm r2 (List.mem_cons_of_mem _ hr2) hmem
        · exact hnd.1 (hmem ▸ List.mem_map_of_mem _ hr2)
    · have step : applyRules a (r :: rs) m = applyRules a rs m := by
        simp [applyRules, h]
      rw [step, ih m hnd.2 (fun r2 hr2 => hm r2 (List.mem_cons_of_mem _ hr2))]
      simp [firing, List.filterMap_cons, h]

theorem ruleTable_labels_nodup : (ruleTable.map ScoreRule.label).Nodup := by
  decide

theorem breakdown_eq_firing (ord : RangeOrder) (a : RiskAssessment) :
    (CalculateRiskScore ord a).2 = firing a ruleTable := by
  rw [breakdown_eq_applyRules, applyRules_eq a ruleTable [] ruleTable_labels_nodup]
  · simp
  · intro r _ h; simp [GoMap.keys] at h

theorem firing_get (a : RiskAssessment) (rules : List ScoreRule)
    (hnd : (rules.map ScoreRule.label).Nodup) (r : ScoreRule) (hr : r ∈ rules) :
    (firing a rules).get? r.label = if r.fires a then some r.points else none := by
  induction rules with
  | nil => cases hr
  | cons q qs ih =>
    rw [List.map_cons, List.nodup_cons] at hnd
    rcases List.mem_cons.mp hr with rfl | hmem
    · by_cases h : r.fires a
      · simp [firing, GoMap.get?, List.filterMap_cons, h]
      · have hnone : (firing a qs).get? r.label = none := by
          have hk : r.label ∉ (firing a qs).keys := by
            rw [firing_keys]
            intro hc
            obtain ⟨x, hx, hxl⟩ := List.mem_map.mp hc
            exact hnd.1 (hxl ▸ List.mem_map_of_mem _ (List.mem_of_mem_filter hx))
          unfold GoMap.get?
          rw [Option.map_eq_none', List.find?_eq_none]
          intro e he hc
          exact hk (by
            have : e.1 = r.label := by simpa using hc
            rw [← this]; exact List.mem_map_of_mem _ he)
        have hcons : firing a (r :: qs) = firing a qs := by
          simp [firing, List.filterMap_cons, h]
        rw [hcons, hnone]; simp [h]
    · have hne : q.label ≠ r.label := fun hc =>
        hnd.1 (hc ▸ List.mem_map_of_mem _ hmem)
      by_cases h : q.fires a
      · have hcons : firing a (q :: qs) = (q.label, q.points) :: firing a qs := by
          simp [firing, List.filterMap_cons, h]
        rw [hcons, ← ih hnd.2 hmem]
        simp [GoMap.get?, List.find?_cons, hne]
      · have hcons : firing a (q :: qs) = firing a qs := by
          simp [firing, List.filterMap_cons, h]
        rw [hcons, ih hnd.2 hmem]

theorem firing_keys_nodup (a : RiskAssessment) (rules : List ScoreRule)
    (hnd : (rules.map ScoreRule.label).Nodup) : (firing a rules).keys.Nodup := by
  rw [firing_keys]
  exact hnd.sublist ((List.filter_sublist rules).map ScoreRule.label)

theorem firing_key_fires (a : RiskAssessment) (rules : List ScoreRule) (k : String)
    (hk : k ∈ (firing a rules).keys) : ∃ r ∈ rules, r.label = k ∧ r.fires a = true := by
  rw [firing_keys] at hk
  obtain ⟨r, hr, hl⟩ := List.mem_map.mp hk
  exact ⟨r, List.mem_of_mem_filter hr, hl, by simpa using (List.mem_filter.mp hr).2⟩

theorem total_eq_sum (ord : RangeOrder) (a : RiskAssessment) :
    (CalculateRiskScore ord a).1 = (CalculateRiskScore ord a).2.values.sum := by
  have h : (CalculateRiskScore ord a).1
      = (ord.enum (CalculateRiskScore ord a).2).foldl (fun totalScore e => totalScore + e.2) 0 :=
    rfl
  rw [h, foldl_add_eq_sum, zero_add]
  exact ((ord.perm _).map Prod.snd).sum_eq

theorem firing_sum (a : RiskAssessment) (rules : List ScoreRule) :
    (firing a rules).values.sum
      = (rules.map (fun r => if r.fires a then r.points else 0)).sum := by
  induction rules with
  | nil => rfl
  | cons r rs ih =>
    unfold firing GoMap.values at *
    by_cases h : r.fires a <;> simp [List.filterMap_cons, h, ih]

theorem total_eq_rule_sum (ord : RangeOrder) (a : RiskAssessment) :
    (CalculateRiskScore ord a).1
      = (ruleTable.map (fun r => if r.fires a then r.points else 0)).sum := by
  rw [total_eq_sum, breakdown_eq_firing, firing_sum]

theorem rule_sum_bounds (a : RiskAssessment) (rules : List ScoreRule)
    (hpos : ∀ r ∈ rules, 0 ≤ r.points) :
    0 ≤ (rules.map (fun r => if r.fires a then r.points else 0)).sum ∧
    (rules.map (fun r => if r.fires a then r.points else 0)).sum
      ≤ (rules.map ScoreRule.points).sum := by
  induction rules with
  | nil => simp
  | cons r rs ih =>
    have h1 := hpos r (List.mem_cons_self _ _)
    have h2 := ih (fun q hq => hpos q (List.mem_cons_of_mem _ hq))
    simp only [List.map_cons, List.sum_cons]
    by_cases h : r.fires a <;> simp [h] <;> omega

theorem ruleTable_points_nonneg : ∀ r ∈ ruleTable, 0 ≤ r.points := by
  intro r hr
  simp only [ruleTable, List.mem_cons, List.mem_singleton, List.not_mem_nil, or_false] at hr
  rcases hr with h | h | h | h | h | h | h | h | h | h | h | h | h | h <;> subst h <;> decide

theorem ruleTable_points_sum : (ruleTable.map ScoreRule.points).sum = 99 := by
  decide

theorem total_bounds (ord : RangeOrder) (a : RiskAssessment) :
    0 ≤ (CalculateRiskScore ord a).1 ∧ (CalculateRiskScore ord a).1 ≤ 99 := by
  have hb := rule_sum_bounds a ruleTable ruleTable_points_nonneg
  rw [ruleTable_points_sum, ← total_eq_rule_sum ord a] at hb
  exact hb

theorem CategorizeRisk_eq (ord : RangeOrder) (s : Int) :
    CategorizeRisk ord s
      = (if 0 ≤ s ∧ s < 45 then "low_risk"
         else if 45 ≤ s ∧ s < 81 then "med_risk"
         else "high_risk") ∧
    (((ord.enum RiskCategories).find? (fun e => s ≥ e.2.1 && s < e.2.2) = none)
      ↔ (s < 0 ∨ 100 ≤ s)) := by
  unfold CategorizeRisk
  cases hf : (ord.enum RiskCategories).find? (fun e => s ≥ e.2.1 && s < e.2.2) with
  | none =>
    have hall := List.find?_eq_none.mp hf
    have h1 := hall ("low_risk", (0, 45)) ((ord.perm _).mem_iff.mpr (by simp [RiskCategories]))
    have h2 := hall ("med_risk", (45, 81)) ((ord.perm _).mem_iff.mpr (by simp [RiskCategories]))
    have h3 := hall ("high_risk", (81, 100)) ((ord.perm _).mem_iff.mpr (by simp [RiskCategories]))
    simp at h1 h2 h3
    refine ⟨?_, ?_⟩
    · split_ifs <;> first | rfl | omega
    · simp; omega
  | some e =>
    have hp := List.find?_some hf
    have hm := (ord.perm _).mem_iff.mp (List.mem_of_find?_eq_some hf)
    simp at hp
    simp only [RiskCategories, List.mem_cons, List.mem_singleton, List.not_mem_nil,
      or_false] at hm
    refine ⟨?_, ?_⟩
    · rcases hm with h | h | h <;> subst h <;> simp at hp <;> simp <;> split_ifs <;>
        first | rfl | omega
    · rcases hm with h | h | h <;> subst h <;> simp at hp <;> simp <;> omega

theorem CategorizeRisk_mem (ord : RangeOrder) (s : Int) :
    CategorizeRisk ord s ∈ ["low_risk", "med_risk", "high_risk"] := by
  rw [(CategorizeRisk_eq ord s).1]
  split_ifs <;> simp

/-! ## Lemmas on the orchestrator -/

theorem RunAssessment_ipVoid (w : World) (domainName countryCode : String)
    (h : IsCountrySupported countryCode = true) :
    (RunAssessment w domainName countryCode).assessment.IPVoid
      = (if ExtractIPFromURLVoid (w.GetURLVoidData domainName) != "" then
          w.GetIPVoidData (ExtractIPFromURLVoid (w.GetURLVoidData domainName))
        else { Error := "No IP Address found in URLVoid response" }) ∧
    ipVoidArgs (RunAssessment w domainName countryCode).calls
      = (if ExtractIPFromURLVoid (w.GetURLVoidData domainName) != "" then
          [ExtractIPFromURLVoid (w.GetURLVoidData domainName)]
        else []) := by
  simp only [RunAssessment, GetMerchantBusinessDetails, h, Bool.not_true, Bool.false_eq_true,
    ↓reduceIte]
  by_cases hip : (ExtractIPFromURLVoid (w.GetURLVoidData domainName) != "") = true
  · simp only [hip, ↓reduceIte]
    exact ⟨rfl, rfl⟩
  · simp only [hip, ↓reduceIte]
    exact ⟨rfl, rfl⟩

theorem RunAssessment_geo (w : World) (domainName countryCode : String)
    (h : IsCountrySupported countryCode = true) :
    (RunAssessment w domainName countryCode).assessment.IsRiskyGeopolitical
      = CheckGeopoliticalRisk
          (if (RunAssessment w domainName countryCode).assessment.IPVoid.CountryCode == "" then
            extractCountryCodeFromName w.lowerTable
              (RunAssessment w domainName countryCode).assessment.IPVoid.CountryName
          else (RunAssessment w domainName countryCode).assessment.IPVoid.CountryCode) := by
  simp only [RunAssessment, GetMerchantBusinessDetails, h, Bool.not_true, Bool.false_eq_true,
    ↓reduceIte]
  by_cases hip : (ExtractIPFromURLVoid (w.GetURLVoidData domainName) != "") = true
  · simp only [hip, ↓reduceIte]
    rfl
  · simp only [hip, ↓reduceIte]
    rfl

/-! ## Scoring engine: breakdown, range, bands -/

/-- Claim C1. For every aggregate and every iteration order, the breakdown
returned by `CalculateRiskScore` has, for each of the fourteen rows of the rule
table, an entry with that row's points when the row fires and no entry when it
does not; it has no other key and no key twice; the total is the sum of the
breakdown values; and the result is the same under every iteration order. -/
theorem CalculateRiskScore_breakdown_matches_rule_table (ord : RangeOrder)
    (a : RiskAssessment) :
    ruleTable.length = 14 ∧
    (∀ r ∈ ruleTable, (CalculateRiskScore ord a).2.get? r.label
        = if r.fires a then some r.points else none) ∧
    (∀ k ∈ (CalculateRiskScore ord a).2.keys,
        ∃ r ∈ ruleTable, r.label = k ∧ r.fires a = true) ∧
    (CalculateRiskScore ord a).2.keys.Nodup ∧
    (CalculateRiskScore ord a).1 = (CalculateRiskScore ord a).2.values.sum ∧
    (∀ ord2 : RangeOrder, CalculateRiskScore ord2 a = CalculateRiskScore ord a) := by
  refine ⟨rfl, ?_, ?_, ?_, total_eq_sum ord a, ?_⟩
  · intro r hr
    rw [breakdown_eq_firing]
    exact firing_get a ruleTable ruleTable_labels_nodup r hr
  · intro k hk
    rw [breakdown_eq_firing] at hk
    exact firing_key_fires a ruleTable k hk
  · rw [breakdown_eq_firing]
    exact firing_keys_nodup a ruleTable ruleTable_labels_nodup
  · intro ord2
    apply Prod.ext
    · rw [total_eq_rule_sum, total_eq_rule_sum]
    · rfl

/-- Claim C2. The total of `CalculateRiskScore` lies in [0,100] and never
exceeds 99; the aggregate `worstCase` makes all fourteen rules fire and scores
exactly 99. -/
theorem CalculateRiskScore_total_range (ord : RangeOrder) (a : RiskAssessment) :
    0 ≤ (CalculateRiskScore ord a).1 ∧ (CalculateRiskScore ord a).1 ≤ 100 ∧
    (CalculateRiskScore ord a).1 ≤ 99 ∧
    (∀ r ∈ ruleTable, r.fires worstCase = true) ∧
    (CalculateRiskScore ord worstCase).1 = 99 := by
  have hb := total_bounds ord a
  refine ⟨hb.1, by omega, hb.2, ?_, ?_⟩
  · decide
  · rw [total_eq_rule_sum]; decide

/-- Claim C3. Under every iteration order of the band table, `CategorizeRisk`
returns low_risk on [0,45), med_risk on [45,81) and high_risk everywhere else;
the loop finds no band exactly for the scores below 0 or at least 100, which
get the default high_risk; 44, 45, 80, 81 and 100 come out low, medium,
medium, high and high. -/
theorem CategorizeRisk_bands (ord : RangeOrder) (score : Int) :
    CategorizeRisk ord score
      = (if 0 ≤ score ∧ score < 45 then "low_risk"
         else if 45 ≤ score ∧ score < 81 then "med_risk"
         else "high_risk") ∧
    (((ord.enum RiskCategories).find? (fun e => score ≥ e.2.1 && score < e.2.2) = none)
      ↔ (score < 0 ∨ 100 ≤ score)) ∧
    CategorizeRisk ord 44 = "low_risk" ∧ CategorizeRisk ord 45 = "med_risk" ∧
    CategorizeRisk ord 80 = "med_risk" ∧ CategorizeRisk ord 81 = "high_risk" ∧
    CategorizeRisk ord 100 = "high_risk" := by
  refine ⟨(CategorizeRisk_eq ord score).1, (CategorizeRisk_eq ord score).2, ?_, ?_, ?_, ?_, ?_⟩
  · rw [(CategorizeRisk_eq ord 44).1]; decide
  · rw [(CategorizeRisk_eq ord 45).1]; decide
  · rw [(CategorizeRisk_eq ord 80).1]; decide
  · rw [(CategorizeRisk_eq ord 81).1]; decide
  · rw [(CategorizeRisk_eq ord 100).1]; decide

/-! ## Orchestrator: eligibility gate, collection, dependencies -/

/-- Claim C4. For a country code outside the supported list, `RunAssessment`
returns the aggregate that holds only the domain, the merchant-business record
with `CountrySupported = false` and the start time (every collector slot, the
score, the category and the breakdown keep their zero value), with a nil error,
and it invokes no collector. -/
theorem RunAssessment_unsupported_short_circuits (w : World)
    (domainName countryCode : String) (h : IsCountrySupported countryCode = false) :
    RunAssessment w domainName countryCode
      = { assessment :=
            { DomainName := domainName
              MerchantBusiness := { CountryCode := countryCode, CountrySupported := false }
              CreatedAt := w.startTime }
          err := none
          calls := [] } := by
  simp [RunAssessment, GetMerchantBusinessDetails, h]

/-- Witness of claim C4 at the country code "XX". -/
theorem RunAssessment_unsupported_short_circuits_witness :
    IsCountrySupported "XX" = false ∧
    RunAssessment World.failing "example.com" "XX"
      = { assessment :=
            { DomainName := "example.com"
              MerchantBusiness := { CountryCode := "XX", CountrySupported := false }
              CreatedAt := World.failing.startTime }
          err := none
          calls := [] } :=
  ⟨by decide, RunAssessment_unsupported_short_circuits World.failing "example.com" "XX"
    (by decide)⟩

/-- Claim C5. For a supported country code, whatever the collectors return,
`RunAssessment` stores each collector result in its own slot, the score is
`CalculateRiskScore` of the returned aggregate, the category is
`CategorizeRisk` of that score and is one of low_risk, med_risk, high_risk. -/
theorem RunAssessment_supported_populates_and_scores (w : World)
    (domainName countryCode : String) (h : IsCountrySupported countryCode = true) :
    (RunAssessment w domainName countryCode).assessment.MCCDetails = CheckMCC w domainName ∧
    (RunAssessment w domainName countryCode).assessment.HTTPSCheck
      = w.CheckHTTPS domainName ∧
    (RunAssessment w domainName countryCode).assessment.SSLSha256Fingerprint
      = w.GetSSLFingerprint domainName ∧
    (RunAssessment w domainName countryCode).assessment.PrivacyAndTerms
      = w.CheckPrivacyTerms domainName ∧
    (RunAssessment w domainName countryCode).assessment.SocialPresence
      = w.CheckSocialPresence domainName ∧
    (RunAssessment w domainName countryCode).assessment.Whois = w.GetWhoisData domainName ∧
    (RunAssessment w domainName countryCode).assessment.URLVoid
      = w.GetURLVoidData domainName ∧
    (RunAssessment w domainName countryCode).assessment.GoDaddyWhois
      = w.GetGoDaddyWhoisData domainName ∧
    (RunAssessment w domainName countryCode).assessment.GoogleSafeBrowsing
      = w.GetGoogleSafeBrowsingData domainName ∧
    (RunAssessment w domainName countryCode).assessment.TrancoList
      = w.GetTrancoListData domainName ∧
    (RunAssessment w domainName countryCode).assessment.PageSize
      = w.CheckPageSize domainName ∧
    (RunAssessment w domainName countryCode).assessment.TrafficVolume
      = CheckTrafficVolume domainName ∧
    (RunAssessment w domainName countryCode).assessment.PopupAndAds
      = w.CheckPopupAds domainName ∧
    (RunAssessment w domainName countryCode).assessment.IPVoid
      = (if ExtractIPFromURLVoid (w.GetURLVoidData domainName) != "" then
          w.GetIPVoidData (ExtractIPFromURLVoid (w.GetURLVoidData domainName))
        else { Error := "No IP Address found in URLVoid response" }) ∧
    (RunAssessment w domainName countryCode).assessment.IsRiskyGeopolitical
      = CheckGeopoliticalRisk
          (if (RunAssessment w domainName countryCode).assessment.IPVoid.CountryCode == "" then
            extractCountryCodeFromName w.lowerTable
              (RunAssessment w domainName countryCode).assessment.IPVoid.CountryName
          else (RunAssessment w domainName countryCode).assessment.IPVoid.CountryCode) ∧
    (RunAssessment w domainName countryCode).assessment.RiskScore
      = (CalculateRiskScore w.ord (RunAssessment w domainName countryCode).assessment).1 ∧
    (RunAssessment w domainName countryCode).assessment.RiskBreakdown
      = some (CalculateRiskScore w.ord (RunAssessment w domainName countryCode).assessment).2 ∧
    (RunAssessment w domainName countryCode).assessment.RiskCategory
      = CategorizeRisk w.ord (RunAssessment w domainName countryCode).assessment.RiskScore ∧
    (RunAssessment w domainName countryCode).assessment.RiskCategory
      ∈ ["low_risk", "med_risk", "high_risk"] := by
  have hcat : (RunAssessment w domainName countryCode).assessment.RiskCategory
      = CategorizeRisk w.ord (RunAssessment w domainName countryCode).assessment.RiskScore := by
    simp only [RunAssessment, GetMerchantBusinessDetails, h, Bool.not_true, Bool.false_eq_true,
      ↓reduceIte]
    by_cases hip : (ExtractIPFromURLVoid (w.GetURLVoidData domainName) != "") = true
    · simp only [hip, ↓reduceIte]; rfl
    · simp only [hip, ↓reduceIte]; rfl
  refine ⟨?_, ?_, ?_, ?_, ?_, ?_, ?_, ?_, ?_, ?_, ?_, ?_, ?_,
    (RunAssessment_ipVoid w domainName countryCode h).1,
    RunAssessment_geo w domainName countryCode h, ?_, ?_, hcat,
    hcat ▸ CategorizeRisk_mem w.ord _⟩
  all_goals
    simp only [RunAssessment, GetMerchantBusinessDetails, h, Bool.not_true, Bool.false_eq_true,
      ↓reduceIte]
    by_cases hip : (ExtractIPFromURLVoid (w.GetURLVoidData domainName) != "") = true
    · simp only [hip, ↓reduceIte]; rfl
    · simp only [hip, ↓reduceIte]; rfl

/-- Witness of claim C5: a supported country with every collector failing. -/
theorem RunAssessment_supported_populates_and_scores_witness :
    IsCountrySupported "US" = true ∧
    (RunAssessment World.failing "example.com" "US").assessment.HTTPSCheck
      = World.failing.CheckHTTPS "example.com" ∧
    (RunAssessment World.failing "example.com" "US").assessment.RiskCategory
      ∈ ["low_risk", "med_risk", "high_risk"] :=
  have hs : IsCountrySupported "US" = true := by decide
  have hc := RunAssessment_supported_populates_and_scores World.failing "example.com" "US" hs
  ⟨hs, hc.2.1, hc.2.2.2.2.2.2.2.2.2.2.2.2.2.2.2.2.2.2⟩

/-- Claim C6, amended. `RunAssessment` returns a nil error on every input: for
the empty domain as for any other, in the supported and in the unsupported
branch, and whatever the collectors return. An empty domain is not rejected;
it shows only afterwards, as an issue listed by `ValidateAssessmentResult`. -/
theorem RunAssessment_error_always_nil (w : World) (domainName countryCode : String) :
    (RunAssessment w domainName countryCode).err = none ∧
    "Domain name is required"
      ∈ ValidateAssessmentResult (RunAssessment w "" countryCode).assessment := by
  refine ⟨?_, ?_⟩
  · unfold RunAssessment
    simp only
    split <;> rfl
  · have hd : (RunAssessment w "" countryCode).assessment.DomainName = "" := by
      unfold RunAssessment
      simp only
      split
      · rfl
      · split <;> rfl
    simp only [ValidateAssessmentResult, hd, beq_self_eq_true, ↓reduceIte, List.nil_append]
    split_ifs <;> simp

/-- Claim C6 as stated fails: the empty domain with a supported country is not
rejected, the error is nil. -/
theorem RunAssessment_empty_domain_not_rejected :
    (RunAssessment World.compliant "" "US").err = none ∧
    ¬ ((RunAssessment World.compliant "" "US").err ≠ none ↔ ("" : String) = "") := by
  have h : (RunAssessment World.compliant "" "US").err = none := by
    unfold RunAssessment
    simp only
    split <;> rfl
  exact ⟨h, fun hc => (hc.mpr rfl) h⟩

/-- Claim C7. For a supported country, the IP-reputation collector is invoked
exactly with the first whitespace-delimited token of the domain-reputation
result's IP field when that field has a non-space character, and not at all
otherwise; a token is never empty and holds no space; without a token the
IPVoid slot is the synthesized result carrying only the explanatory error; and
the field "9.9.9.9" gives one invocation, with "9.9.9.9". -/
theorem RunAssessment_ip_reputation_dependency (w : World)
    (domainName countryCode : String) (h : IsCountrySupported countryCode = true) :
    ipVoidArgs (RunAssessment w domainName countryCode).calls
      = (Fields (w.GetURLVoidData domainName).IPAddress).take 1 ∧
    (Fields (w.GetURLVoidData domainName).IPAddress ≠ []
      ↔ ∃ ch ∈ (w.GetURLVoidData domainName).IPAddress.data, isSpace ch = false) ∧
    (∀ tok ∈ Fields (w.GetURLVoidData domainName).IPAddress,
      tok ≠ "" ∧ ∀ ch ∈ tok.data, isSpace ch = false) ∧
    (Fields (w.GetURLVoidData domainName).IPAddress = [] →
      (RunAssessment w domainName countryCode).assessment.IPVoid
        = { Error := "No IP Address found in URLVoid response" }) ∧
    (∀ tok rest, Fields (w.GetURLVoidData domainName).IPAddress = tok :: rest →
      (RunAssessment w domainName countryCode).assessment.IPVoid = w.GetIPVoidData tok) ∧
    "" ∉ ipVoidArgs (RunAssessment w domainName countryCode).calls ∧
    ((w.GetURLVoidData domainName).IPAddress = "9.9.9.9" →
      ipVoidArgs (RunAssessment w domainName countryCode).calls = ["9.9.9.9"]) := by
  obtain ⟨hslot, hargs⟩ := RunAssessment_ipVoid w domainName countryCode h
  have hmain : ipVoidArgs (RunAssessment w domainName countryCode).calls
      = (Fields (w.GetURLVoidData domainName).IPAddress).take 1 := by
    rw [hargs]
    cases hf : Fields (w.GetURLVoidData domainName).IPAddress with
    | nil => simp [ExtractIP_of_nil _ hf]
    | cons tok rest =>
      obtain ⟨he, hne⟩ := ExtractIP_of_cons _ tok rest hf
      simp [he, hne]
  refine ⟨hmain, ?_, fun tok htok => Fields_token_shape _ tok htok, ?_, ?_, ?_, ?_⟩
  · rw [Ne, Fields_eq_nil_iff]
    simp
  · intro hf
    rw [hslot, ExtractIP_of_nil _ hf]
    simp
  · intro tok rest hf
    obtain ⟨he, hne⟩ := ExtractIP_of_cons _ tok rest hf
    rw [hslot, he]
    simp [hne]
  · rw [hmain]
    intro hmem
    exact (Fields_token_shape _ "" (List.mem_of_mem_take hmem)).1 rfl
  · intro h9
    rw [hmain, h9]
    decide

/-- Witness of claim C7: the domain-reputation scan reports the address
9.9.9.9 and the IP-reputation collector is invoked once, with it. -/
theorem RunAssessment_ip_reputation_dependency_witness :
    IsCountrySupported "US" = true ∧
    ipVoidArgs (RunAssessment World.compliant "example.com" "US").calls = ["9.9.9.9"] :=
  have hs : IsCountrySupported "US" = true := by decide
  ⟨hs, (RunAssessment_ip_reputation_dependency World.compliant "example.com" "US"
    hs).2.2.2.2.2.2 rfl⟩

theorem RunAssessment_geo_call (w : World) (domainName countryCode : String)
    (h : IsCountrySupported countryCode = true) :
    geoArgs (RunAssessment w domainName countryCode).calls
      = [if (RunAssessment w domainName countryCode).assessment.IPVoid.CountryCode == "" then
          extractCountryCodeFromName w.lowerTable
            (RunAssessment w domainName countryCode).assessment.IPVoid.CountryName
        else (RunAssessment w domainName countryCode).assessment.IPVoid.CountryCode] := by
  simp only [RunAssessment, GetMerchantBusinessDetails, h, Bool.not_true, Bool.false_eq_true,
    ↓reduceIte]
  by_cases hip : (ExtractIPFromURLVoid (w.GetURLVoidData domainName) != "") = true
  · simp only [hip, ↓reduceIte]
    rfl
  · simp only [hip, ↓reduceIte]
    rfl

/-- Counterexample to claim C8 as stated: when the IP-reputation result
resolves neither a country code nor a known country name, the geopolitical
check is run on the empty string and not on the billing country "US". -/
theorem geopolitical_check_not_run_on_billing_country :
    IsCountrySupported "US" = true ∧
    (RunAssessment World.failing "example.com" "US").assessment.IPVoid.CountryCode = "" ∧
    countryMapping.get? (ToLower World.failing.lowerTable
      (RunAssessment World.failing "example.com" "US").assessment.IPVoid.CountryName) = none ∧
    geoArgs (RunAssessment World.failing "example.com" "US").calls = [""] ∧
    Call.CheckGeopoliticalRisk "US" ∉ (RunAssessment World.failing "example.com" "US").calls := by
  decide

/-- Claim C8, amended. For a supported billing country, the IP-reputation slot
is `GetIPVoidData` of the address extracted from the domain-reputation result,
or the placeholder without a country when no address is found; the
geopolitical check is invoked once, on that slot's country code when it is
non-empty, otherwise on the code the name-to-code table gives for its
lower-cased country name, and otherwise on the empty string; the geopolitical
slot is the result of that invocation. The billing country is never passed. -/
theorem RunAssessment_geopolitical_code (w : World) (domainName countryCode : String)
    (ip : String) (ipVoid : IPVoidResult) (code : String)
    (h : IsCountrySupported countryCode = true)
    (hip : ip = ExtractIPFromURLVoid (w.GetURLVoidData domainName))
    (hvoid : ipVoid = if ip != "" then w.GetIPVoidData ip
      else { Error := "No IP Address found in URLVoid response" })
    (hcode : code = if ipVoid.CountryCode ≠ "" then ipVoid.CountryCode
      else (countryMapping.get? (ToLower w.lowerTable ipVoid.CountryName)).getD "") :
    (RunAssessment w domainName countryCode).assessment.IPVoid = ipVoid ∧
    geoArgs (RunAssessment w domainName countryCode).calls = [code] ∧
    (RunAssessment w domainName countryCode).assessment.IsRiskyGeopolitical
      = CheckGeopoliticalRisk code := by
  have hslot := (RunAssessment_ipVoid w domainName countryCode h).1
  rw [← hip, ← hvoid] at hslot
  have hc : (if ipVoid.CountryCode == "" then
        extractCountryCodeFromName w.lowerTable ipVoid.CountryName
      else ipVoid.CountryCode) = code := by
    rw [hcode, extractCountryCodeFromName_eq]
    by_cases hcc : ipVoid.CountryCode = ""
    · simp [hcc]
    · have hb : (ipVoid.CountryCode == "") = false := by simpa using hcc
      simp [hcc, hb]
  refine ⟨hslot, ?_, ?_⟩
  · rw [RunAssessment_geo_call w domainName countryCode h, hslot, hc]
  · rw [RunAssessment_geo w domainName countryCode h, hslot, hc]

/-- Witness of claim C8: the IP-reputation result names Russia without a
country code, the table resolves RU, and the slot reports a risk. -/
theorem RunAssessment_geopolitical_code_witness :
    IsCountrySupported "US" = true ∧
    "9.9.9.9" = ExtractIPFromURLVoid (World.hostedInRussia.GetURLVoidData "example.com") ∧
    (RunAssessment World.hostedInRussia "example.com" "US").assessment.IPVoid
      = { IPAddress := "9.9.9.9", CountryName := "Russia" } ∧
    geoArgs (RunAssessment World.hostedInRussia "example.com" "US").calls = ["RU"] ∧
    (RunAssessment World.hostedInRussia "example.com" "US").assessment.IsRiskyGeopolitical
      = CheckGeopoliticalRisk "RU" ∧
    (CheckGeopoliticalRisk "RU").IsRisky = true :=
  ⟨by decide, by decide,
   (RunAssessment_geopolitical_code World.hostedInRussia "example.com" "US" "9.9.9.9"
      { IPAddress := "9.9.9.9", CountryName := "Russia" } "RU" (by decide) (by decide)
      (by decide) (by decide)).1,
   (RunAssessment_geopolitical_code World.hostedInRussia "example.com" "US" "9.9.9.9"
      { IPAddress := "9.9.9.9", CountryName := "Russia" } "RU" (by decide) (by decide)
      (by decide) (by decide)).2.1,
   (RunAssessment_geopolitical_code World.hostedInRussia "example.com" "US" "9.9.9.9"
      { IPAddress := "9.9.9.9", CountryName := "Russia" } "RU" (by decide) (by decide)
      (by decide) (by decide)).2.2,
   by decide⟩

/-- Claim C9 at the test case ("example.com", "XX"): the early return leaves the
category empty, so `ValidateAssessmentResult` reports an issue, in every
world. -/
theorem RunAssessment_unsupported_country_fails_validation (w : World) :
    (RunAssessment w "example.com" "XX").assessment.RiskCategory = "" ∧
    "Risk category is required"
      ∈ ValidateAssessmentResult (RunAssessment w "example.com" "XX").assessment ∧
    ValidateAssessmentResult (RunAssessment w "example.com" "XX").assessment ≠ [] := by
  have hx : IsCountrySupported "XX" = false := by decide
  have hr : RunAssessment w "example.com" "XX"
      = { assessment :=
            { DomainName := "example.com"
              MerchantBusiness := { CountryCode := "XX", CountrySupported := false }
              CreatedAt := w.startTime }
          err := none
          calls := [] } := by
    simp [RunAssessment, GetMerchantBusinessDetails, hx]
  have hmem : "Risk category is required"
      ∈ ValidateAssessmentResult (RunAssessment w "example.com" "XX").assessment := by
    rw [hr]
    simp only [ValidateAssessmentResult]
    split_ifs <;> simp_all
  exact ⟨by rw [hr], hmem, List.ne_nil_of_mem hmem⟩

/-- Claim C10, amended. The 8-point entry "domain_age" is in the breakdown
exactly when the WHOIS creation date is zero and the registration date of the
domain-reputation (URLVoid) result is empty; a date from either of these two
suppresses it; the GoDaddy lookup result has no influence on the score. -/
theorem domain_age_rule_reads_whois_and_urlvoid (ord : RangeOrder) (a : RiskAssessment) :
    ((CalculateRiskScore ord a).2.get? "domain_age" = some 8
      ↔ (a.Whois.CreationDate.IsZero = true ∧ a.URLVoid.RegisteredOn = "")) ∧
    ((CalculateRiskScore ord a).2.get? "domain_age" = none
      ↔ ¬ (a.Whois.CreationDate.IsZero = true ∧ a.URLVoid.RegisteredOn = "")) ∧
    (∀ g : GoDaddyWhoisResult,
      CalculateRiskScore ord { a with GoDaddyWhois := g } = CalculateRiskScore ord a) := by
  have hget : (CalculateRiskScore ord a).2.get? "domain_age"
      = if (a.Whois.CreationDate.IsZero && a.URLVoid.RegisteredOn == "") = true
        then some 8 else none := by
    rw [breakdown_eq_firing]
    exact firing_get a ruleTable ruleTable_labels_nodup
      ⟨"domain_age", 8, fun a => a.Whois.CreationDate.IsZero && a.URLVoid.RegisteredOn == ""⟩
      (by simp [ruleTable])
  refine ⟨?_, ?_, fun g => rfl⟩
  · rw [hget]
    by_cases hc : (a.Whois.CreationDate.IsZero && a.URLVoid.RegisteredOn == "") = true
    · simp only [hc, ↓reduceIte, true_iff]
      simpa using hc
    · simp only [hc, Bool.false_eq_true, ↓reduceIte, false_iff]
      simpa using hc
  · rw [hget]
    by_cases hc : (a.Whois.CreationDate.IsZero && a.URLVoid.RegisteredOn == "") = true
    · simp only [hc, ↓reduceIte]
      simpa using hc
    · simp only [hc, Bool.false_eq_true, ↓reduceIte, true_iff]
      simpa using hc

/-- Claim C10 as stated fails: on `goDaddyDateOnly` the GoDaddy lookup reports
a registration date, and the 8-point penalty is applied all the same. -/
theorem domain_age_penalty_despite_godaddy_date :
    goDaddyDateOnly.GoDaddyWhois.RegisteredOn = "1995-08-14" ∧
    (CalculateRiskScore RangeOrder.insertion goDaddyDateOnly).2.get? "domain_age" = some 8 ∧
    ¬ ((CalculateRiskScore RangeOrder.insertion goDaddyDateOnly).2.get? "domain_age" = some 8
        ↔ (goDaddyDateOnly.Whois.CreationDate.IsZero = true ∧
            (goDaddyDateOnly.GoDaddyWhois.RegisteredOn = "" ∨
              goDaddyDateOnly.GoDaddyWhois.RegisteredOn = "unknown"))) := by
  decide


/-! ## Lemmas on the reporter -/

theorem appendWhere_eq (table : List (Bool × String)) :
    ∀ init : List String, appendWhere table init = init ++ guarded table := by
  induction table with
  | nil => intro init; simp [appendWhere, guarded]
  | cons e es ih =>
    intro init
    have hstep : appendWhere (e :: es) init
        = appendWhere es (if e.1 then init ++ [e.2] else init) := rfl
    rw [hstep, ih]
    cases h : e.1 <;> simp [guarded, List.filter_cons, h]

theorem mem_guarded (table : List (Bool × String)) (m : String) :
    m ∈ guarded table ↔ ∃ e ∈ table, e.1 = true ∧ e.2 = m := by
  simp [guarded]

theorem guarded_eq_nil (table : List (Bool × String)) :
    guarded table = [] ↔ ∀ e ∈ table, e.1 = false := by
  simp [guarded, List.filter_eq_nil_iff]

theorem GetRecommendations_eq (a : RiskAssessment) :
    GetRecommendations a
      = if guarded (recommendationTable a) = [] then [catchAllRecommendation]
        else guarded (recommendationTable a) := by
  have h : GetRecommendations a
      = if (appendWhere (recommendationTable a) []).length == 0 then
          appendWhere (recommendationTable a) [] ++ [catchAllRecommendation]
        else appendWhere (recommendationTable a) [] := by
    simp only [GetRecommendations, appendWhere, recommendationTable, catchAllRecommendation,
      List.foldl_cons, List.foldl_nil, Bool.and_eq_true, decide_eq_true_eq]
  rw [h, appendWhere_eq, List.nil_append]
  by_cases hg : guarded (recommendationTable a) = []
  · simp [hg]
  · have hl : ((guarded (recommendationTable a)).length == 0) = false := by
      simpa using hg
    simp [hg, hl]

theorem GetFailedComplianceItems_eq (a : RiskAssessment) :
    GetFailedComplianceItems a = guarded (failedTable a) := by
  have h : GetFailedComplianceItems a = appendWhere (failedTable a) [] := by
    simp only [GetFailedComplianceItems, appendWhere, failedTable,
      List.foldl_cons, List.foldl_nil, Bool.and_eq_true, decide_eq_true_eq]
  rw [h, appendWhere_eq, List.nil_append]

theorem tail7_append (x y : String) (h : 7 ≤ y.data.length) :
    tail7 (x ++ y) = tail7 y := by
  unfold tail7
  rw [String.data_append, List.reverse_append]
  exact List.take_append_of_le_length (by simpa using h)

theorem tail7_urlvoid (n : Int) :
    tail7 ("Address " ++ toString n ++ " security detections found by URLVoid")
      = ['d', 'i', 'o', 'V', 'L', 'R', 'U'] := by
  rw [tail7_append _ _ (by decide)]
  decide

theorem tail7_ipvoid (n : Int) :
    tail7 ("Address " ++ toString n ++ " IP reputation issues found by IPVoid")
      = ['d', 'i', 'o', 'V', 'P', 'I', ' '] := by
  rw [tail7_append _ _ (by decide)]
  decide

theorem mem_GetRecommendations (a : RiskAssessment) (m : String)
    (hm : m ≠ catchAllRecommendation) :
    m ∈ GetRecommendations a ↔ ∃ e ∈ recommendationTable a, e.1 = true ∧ e.2 = m := by
  rw [GetRecommendations_eq, ← mem_guarded]
  by_cases hg : guarded (recommendationTable a) = []
  · simp [hg, hm]
  · simp [hg]

theorem recommendation_iff (a : RiskAssessment) (m : String) (c : Bool)
    (hm : m ≠ catchAllRecommendation) (hin : (c, m) ∈ recommendationTable a)
    (huniq : ∀ e ∈ recommendationTable a, e.2 = m → e.1 = c) :
    m ∈ GetRecommendations a ↔ c = true := by
  rw [mem_GetRecommendations a m hm]
  constructor
  · rintro ⟨e, he, h1, h2⟩
    rw [← huniq e he h2]; exact h1
  · intro hc
    exact ⟨(c, m), hin, hc, rfl⟩

theorem breakdown_get (ord : RangeOrder) (a : RiskAssessment) (r : ScoreRule)
    (hr : r ∈ ruleTable) :
    (CalculateRiskScore ord a).2.get? r.label = if r.fires a then some r.points else none := by
  rw [breakdown_eq_firing]
  exact firing_get a ruleTable ruleTable_labels_nodup r hr

theorem breakdown_get_some (ord : RangeOrder) (a : RiskAssessment) (r : ScoreRule)
    (hr : r ∈ ruleTable) :
    (CalculateRiskScore ord a).2.get? r.label = some r.points ↔ r.fires a = true := by
  rw [breakdown_get ord a r hr]
  cases r.fires a <;> simp

theorem catchAll_not_in_table (a : RiskAssessment) :
    ∀ e ∈ recommendationTable a, e.2 ≠ catchAllRecommendation := by
  intro e he h2
  simp only [recommendationTable, List.mem_cons, List.mem_singleton, List.not_mem_nil,
    or_false] at he
  rcases he with rfl | rfl | rfl | rfl | rfl | rfl | rfl | rfl | rfl | rfl | rfl | rfl | rfl <;>
    first
    | (dsimp only at h2
       exact absurd h2 (by decide))
    | (have h3 := congrArg tail7 h2
       simp only [tail7_urlvoid, tail7_ipvoid] at h3
       exact absurd h3 (by decide))

/-! ## Reporter against scoring engine -/

theorem recommendationTable_unique (a : RiskAssessment) (c : Bool) (m : String)
    (hin : (c, m) ∈ recommendationTable a) :
    ∀ e ∈ recommendationTable a, e.2 = m → e.1 = c := by
  intro e he h2
  simp only [recommendationTable, List.mem_cons, List.mem_singleton, List.not_mem_nil,
    or_false, Prod.mk.injEq] at hin he
  rcases hin with ⟨rfl, rfl⟩ | ⟨rfl, rfl⟩ | ⟨rfl, rfl⟩ | ⟨rfl, rfl⟩ | ⟨rfl, rfl⟩ | ⟨rfl, rfl⟩ |
    ⟨rfl, rfl⟩ | ⟨rfl, rfl⟩ | ⟨rfl, rfl⟩ | ⟨rfl, rfl⟩ | ⟨rfl, rfl⟩ | ⟨rfl, rfl⟩ | ⟨rfl, rfl⟩ <;>
  rcases he with rfl | rfl | rfl | rfl | rfl | rfl | rfl | rfl | rfl | rfl | rfl | rfl | rfl <;>
    first
    | rfl
    | (dsimp only at h2
       exact absurd h2 (by decide))
    | (have h3 := congrArg tail7 h2
       simp only [tail7_urlvoid, tail7_ipvoid] at h3
       exact absurd h3 (by decide))

theorem recommendation_matches_rule (ord : RangeOrder) (a : RiskAssessment) (m : String)
    (r : ScoreRule) (hm : m ≠ catchAllRecommendation)
    (hin : (r.fires a, m) ∈ recommendationTable a) (hr : r ∈ ruleTable) :
    m ∈ GetRecommendations a ↔ (CalculateRiskScore ord a).2.get? r.label = some r.points := by
  rw [breakdown_get_some ord a r hr]
  exact recommendation_iff a m (r.fires a) hm hin
    (recommendationTable_unique a (r.fires a) m hin)

/-- Claim C12, amended. For HTTPS, TLS fingerprint, privacy policy, terms of
service, social presence, geopolitical risk, URLVoid detections, IPVoid
detections, page size, popups and ads, `GetRecommendations` emits the
recommendation exactly when the scoring rule contributes its points. The
registration recommendation is emitted exactly when the WHOIS creation date is
zero, which is the case whenever the domain-age rule contributes. -/
theorem GetRecommendations_matches_scoring (ord : RangeOrder) (a : RiskAssessment) :
    ("Implement HTTPS encryption for security" ∈ GetRecommendations a
      ↔ (CalculateRiskScore ord a).2.get? "https" = some 12) ∧
    ("Obtain a valid SSL certificate" ∈ GetRecommendations a
      ↔ (CalculateRiskScore ord a).2.get? "ssl_fingerprint" = some 12) ∧
    ("Add a privacy policy to your website" ∈ GetRecommendations a
      ↔ (CalculateRiskScore ord a).2.get? "privacy_policy" = some 5) ∧
    ("Add terms of service to your website" ∈ GetRecommendations a
      ↔ (CalculateRiskScore ord a).2.get? "terms_of_service" = some 5) ∧
    ("Establish a LinkedIn company presence" ∈ GetRecommendations a
      ↔ (CalculateRiskScore ord a).2.get? "linkedin_presence" = some 6) ∧
    ("Address geopolitical risk factors" ∈ GetRecommendations a
      ↔ (CalculateRiskScore ord a).2.get? "risky_geography" = some 10) ∧
    ("Address " ++ toString a.URLVoid.DetectionsCounts.Detected
        ++ " security detections found by URLVoid" ∈ GetRecommendations a
      ↔ (CalculateRiskScore ord a).2.get? "urlvoid_detections" = some 6) ∧
    ("Address " ++ toString a.IPVoid.DetectionsCount.Detected
        ++ " IP reputation issues found by IPVoid" ∈ GetRecommendations a
      ↔ (CalculateRiskScore ord a).2.get? "ipvoid_detections" = some 6) ∧
    ("Consider adding more content to your website - current page size is very small"
        ∈ GetRecommendations a
      ↔ (CalculateRiskScore ord a).2.get? "page_size" = some 9) ∧
    ("Consider reducing popup usage for better user experience" ∈ GetRecommendations a
      ↔ (CalculateRiskScore ord a).2.get? "popups" = some 7) ∧
    ("Ensure advertising compliance with relevant regulations" ∈ GetRecommendations a
      ↔ (CalculateRiskScore ord a).2.get? "ads" = some 4) ∧
    ("Verify domain registration information is publicly available" ∈ GetRecommendations a
      ↔ a.Whois.CreationDate.IsZero = true) ∧
    ((CalculateRiskScore ord a).2.get? "domain_age" = some 8 →
      "Verify domain registration information is publicly available"
        ∈ GetRecommendations a) := by
  have hreg : "Verify domain registration information is publicly available"
      ∈ GetRecommendations a ↔ a.Whois.CreationDate.IsZero = true :=
    recommendation_iff a _ _ (by decide) (by simp [recommendationTable])
      (recommendationTable_unique a _ _ (by simp [recommendationTable]))
  refine ⟨?_, ?_, ?_, ?_, ?_, ?_, ?_, ?_, ?_, ?_, ?_, hreg, ?_⟩
  · exact recommendation_matches_rule ord a _
      ⟨"https", 12, fun a => !a.HTTPSCheck.HasHTTPS⟩ (by decide)
      (by simp [recommendationTable]) (by simp [ruleTable])
  · exact recommendation_matches_rule ord a _
      ⟨"ssl_fingerprint", 12, fun a => !a.SSLSha256Fingerprint.HasSHA256⟩ (by decide)
      (by simp [recommendationTable]) (by simp [ruleTable])
  · exact recommendation_matches_rule ord a _
      ⟨"privacy_policy", 5, fun a => !a.PrivacyAndTerms.PrivacyPolicyPresent⟩ (by decide)
      (by simp [recommendationTable]) (by simp [ruleTable])
  · exact recommendation_matches_rule ord a _
      ⟨"terms_of_service", 5, fun a => !a.PrivacyAndTerms.TermsOfServicePresent⟩ (by decide)
      (by simp [recommendationTable]) (by simp [ruleTable])
  · exact recommendation_matches_rule ord a _
      ⟨"linkedin_presence", 6, fun a => !a.SocialPresence.SocialPresence.LinkedIn.Presence⟩
      (by decide) (by simp [recommendationTable]) (by simp [ruleTable])
  · exact recommendation_matches_rule ord a _
      ⟨"risky_geography", 10, fun a => a.IsRiskyGeopolitical.IsRisky⟩ (by decide)
      (by simp [recommendationTable]) (by simp [ruleTable])
  · exact recommendation_matches_rule ord a _
      ⟨"urlvoid_detections", 6, fun a => a.URLVoid.DetectionsCounts.Detected > 0⟩
      (fun h => absurd (congrArg tail7 h) (by rw [tail7_urlvoid]; decide))
      (by simp [recommendationTable]) (by simp [ruleTable])
  · exact recommendation_matches_rule ord a _
      ⟨"ipvoid_detections", 6, fun a => a.IPVoid.DetectionsCount.Detected > 0⟩
      (fun h => absurd (congrArg tail7 h) (by rw [tail7_ipvoid]; decide))
      (by simp [recommendationTable]) (by simp [ruleTable])
  · exact recommendation_matches_rule ord a _
      ⟨"page_size", 9, fun a => a.PageSize.PageSizeKB > 0 && a.PageSize.PageSizeKB < 100⟩
      (by decide) (by simp [recommendationTable]) (by simp [ruleTable])
  · exact recommendation_matches_rule ord a _
      ⟨"popups", 7, fun a => a.PopupAndAds.HasPopups⟩ (by decide)
      (by simp [recommendationTable]) (by simp [ruleTable])
  · exact recommendation_matches_rule ord a _
      ⟨"ads", 4, fun a => a.PopupAndAds.HasAds⟩ (by decide)
      (by simp [recommendationTable]) (by simp [ruleTable])
  · intro hage
    have hf := (breakdown_get_some ord a
      ⟨"domain_age", 8, fun a => a.Whois.CreationDate.IsZero && a.URLVoid.RegisteredOn == ""⟩
      (by simp [ruleTable])).mp hage
    simp only [Bool.and_eq_true] at hf
    exact hreg.mpr hf.1

/-- Claim C12 as stated fails for the registration date: on `urlVoidDateOnly`
the recommendation is emitted although the domain-age rule contributes
nothing. -/
theorem registration_recommendation_without_penalty :
    "Verify domain registration information is publicly available"
      ∈ GetRecommendations urlVoidDateOnly ∧
    (CalculateRiskScore RangeOrder.insertion urlVoidDateOnly).2.get? "domain_age" = none ∧
    ¬ ("Verify domain registration information is publicly available"
          ∈ GetRecommendations urlVoidDateOnly
        ↔ (CalculateRiskScore RangeOrder.insertion urlVoidDateOnly).2.get? "domain_age"
            = some 8) := by
  decide

/-- Claim C13 on the code. `overall_compliant` is `RiskScore < 45` and the
overall-improvement recommendation is emitted exactly when `RiskScore > 45`.
On the aggregate that `AssessRisk` scores at 45 points the two disagree: the
flag is false, the category is med_risk, and no overall recommendation is
emitted. -/
theorem overall_recommendation_skips_score_45 :
    (∀ a : RiskAssessment,
      (GetComplianceStatus a).get? "overall_compliant" = some (decide (a.RiskScore < 45))) ∧
    (∀ a : RiskAssessment,
      "Consider improving overall website security and compliance" ∈ GetRecommendations a
        ↔ a.RiskScore > 45) ∧
    (AssessRisk RangeOrder.insertion World.compliant.scoreTime borderlineCollected).RiskScore
      = 45 ∧
    (AssessRisk RangeOrder.insertion World.compliant.scoreTime
      borderlineCollected).RiskCategory = "med_risk" ∧
    (GetComplianceStatus (AssessRisk RangeOrder.insertion World.compliant.scoreTime
      borderlineCollected)).get? "overall_compliant" = some false ∧
    "Consider improving overall website security and compliance"
      ∉ GetRecommendations (AssessRisk RangeOrder.insertion World.compliant.scoreTime
          borderlineCollected) := by
  refine ⟨fun a => rfl, fun a => ?_, by decide, by decide, by decide, by decide⟩
  have h := recommendation_iff a "Consider improving overall website security and compliance"
    (decide (a.RiskScore > 45)) (by decide) (by simp [recommendationTable])
    (recommendationTable_unique a _ _ (by simp [recommendationTable]))
  rw [h]
  simp

/-- Claim C14. `GetRecommendations` never returns the empty list; its result is
the messages of the conditions that hold, in the order of the thirteen checks,
or the catch-all message alone when none holds; the catch-all message is in the
list exactly when no condition holds, and then it is the only element. -/
theorem GetRecommendations_nonempty_fixed_order (a : RiskAssessment) :
    GetRecommendations a ≠ [] ∧
    GetRecommendations a
      = (if guarded (recommendationTable a) = [] then [catchAllRecommendation]
         else guarded (recommendationTable a)) ∧
    List.Sublist (GetRecommendations a)
      ((recommendationTable a).map Prod.snd ++ [catchAllRecommendation]) ∧
    (catchAllRecommendation ∈ GetRecommendations a
      ↔ (a.HTTPSCheck.HasHTTPS = true ∧ a.SSLSha256Fingerprint.HasSHA256 = true ∧
          a.PrivacyAndTerms.PrivacyPolicyPresent = true ∧
          a.PrivacyAndTerms.TermsOfServicePresent = true ∧
          a.SocialPresence.SocialPresence.LinkedIn.Presence = true ∧
          a.IsRiskyGeopolitical.IsRisky = false ∧
          ¬ a.URLVoid.DetectionsCounts.Detected > 0 ∧
          ¬ a.IPVoid.DetectionsCount.Detected > 0 ∧
          ¬ (a.PageSize.PageSizeKB > 0 ∧ a.PageSize.PageSizeKB < 100) ∧
          a.PopupAndAds.HasPopups = false ∧ a.PopupAndAds.HasAds = false ∧
          a.Whois.CreationDate.IsZero = false ∧ ¬ a.RiskScore > 45)) ∧
    (catchAllRecommendation ∈ GetRecommendations a
      → GetRecommendations a = [catchAllRecommendation]) := by
  have hnot : catchAllRecommendation ∉ guarded (recommendationTable a) := by
    intro hc
    obtain ⟨e, he, _, h2⟩ := (mem_guarded _ _).mp hc
    exact catchAll_not_in_table a e he h2
  have hiff : catchAllRecommendation ∈ GetRecommendations a
      ↔ guarded (recommendationTable a) = [] := by
    rw [GetRecommendations_eq]
    by_cases hg : guarded (recommendationTable a) = []
    · simp [hg]
    · simp [hg, hnot]
  refine ⟨?_, GetRecommendations_eq a, ?_, ?_, ?_⟩
  · rw [GetRecommendations_eq]
    split
    · simp
    · assumption
  · rw [GetRecommendations_eq]
    split
    · exact List.sublist_append_right _ _
    · exact ((List.filter_sublist _).map _).trans (List.sublist_append_left _ _)
  · rw [hiff, guarded_eq_nil]
    simp [recommendationTable]
  · intro h
    rw [GetRecommendations_eq, if_pos (hiff.mp h)]

/-- Claim C15. When the two detection counts are not negative,
`GetFailedComplianceItems` returns the empty list exactly when the eight flags
of `GetComplianceStatus` other than `overall_compliant` are all true. -/
theorem GetFailedComplianceItems_empty_iff (a : RiskAssessment)
    (hu : 0 ≤ a.URLVoid.DetectionsCounts.Detected)
    (hi : 0 ≤ a.IPVoid.DetectionsCount.Detected) :
    GetFailedComplianceItems a = []
      ↔ ((GetComplianceStatus a).get? "https_compliant" = some true ∧
         (GetComplianceStatus a).get? "ssl_compliant" = some true ∧
         (GetComplianceStatus a).get? "privacy_compliant" = some true ∧
         (GetComplianceStatus a).get? "terms_compliant" = some true ∧
         (GetComplianceStatus a).get? "accessibility_compliant" = some true ∧
         (GetComplianceStatus a).get? "security_compliant" = some true ∧
         (GetComplianceStatus a).get? "geopolitical_compliant" = some true ∧
         (GetComplianceStatus a).get? "mcc_compliant" = some true) := by
  have h1 : (GetComplianceStatus a).get? "https_compliant"
      = some a.HTTPSCheck.HasHTTPS := rfl
  have h2 : (GetComplianceStatus a).get? "ssl_compliant"
      = some a.SSLSha256Fingerprint.HasSHA256 := rfl
  have h3 : (GetComplianceStatus a).get? "privacy_compliant"
      = some a.PrivacyAndTerms.PrivacyPolicyPresent := rfl
  have h4 : (GetComplianceStatus a).get? "terms_compliant"
      = some a.PrivacyAndTerms.TermsOfServicePresent := rfl
  have h5 : (GetComplianceStatus a).get? "accessibility_compliant"
      = some a.PrivacyAndTerms.IsAccessible := rfl
  have h6 : (GetComplianceStatus a).get? "security_compliant"
      = some (a.URLVoid.DetectionsCounts.Detected == 0 &&
          a.IPVoid.DetectionsCount.Detected == 0) := rfl
  have h7 : (GetComplianceStatus a).get? "geopolitical_compliant"
      = some (!a.IsRiskyGeopolitical.IsRisky) := rfl
  have h8 : (GetComplianceStatus a).get? "mcc_compliant"
      = some (!a.MCCDetails.MCCRestricted) := rfl
  rw [h1, h2, h3, h4, h5, h6, h7, h8, GetFailedComplianceItems_eq, guarded_eq_nil]
  simp only [failedTable, List.mem_cons, List.mem_singleton, List.not_mem_nil, or_false,
    forall_eq_or_imp, forall_eq, Option.some.injEq, Bool.not_eq_false', Bool.not_eq_true',
    decide_eq_false_iff_not, Bool.and_eq_true, beq_iff_eq, not_lt]
  constructor
  · rintro ⟨a1, a2, a3, a4, a5, a6, a7, a8, a9⟩
    exact ⟨a1, a2, a3, a4, a5, ⟨by omega, by omega⟩, a8, a9⟩
  · rintro ⟨a1, a2, a3, a4, a5, ⟨a6, a7⟩, a8, a9⟩
    exact ⟨a1, a2, a3, a4, a5, by omega, by omega, a8, a9⟩

/-- Witness of claim C15: the aggregate of `TestMetrics` has no failed item. -/
theorem GetFailedComplianceItems_empty_iff_witness :
    0 ≤ testMetricsAssessment.URLVoid.DetectionsCounts.Detected ∧
    0 ≤ testMetricsAssessment.IPVoid.DetectionsCount.Detected ∧
    GetFailedComplianceItems testMetricsAssessment = [] :=
  ⟨by decide, by decide,
    (GetFailedComplianceItems_empty_iff testMetricsAssessment (by decide) (by decide)).mpr
      (by decide)⟩

/-- Claim C16, amended. `AssessRisk` writes the score, the category, the
breakdown and the creation timestamp, which it sets to the current time; the
domain name, the merchant-business record and every collector slot are
unchanged. -/
theorem AssessRisk_frame (ord : RangeOrder) (now : Time) (a : RiskAssessment) :
    (AssessRisk ord now a).DomainName = a.DomainName ∧
    (AssessRisk ord now a).MerchantBusiness = a.MerchantBusiness ∧
    (AssessRisk ord now a).MCCDetails = a.MCCDetails ∧
    (AssessRisk ord now a).PrivacyAndTerms = a.PrivacyAndTerms ∧
    (AssessRisk ord now a).HTTPSCheck = a.HTTPSCheck ∧
    (AssessRisk ord now a).SSLSha256Fingerprint = a.SSLSha256Fingerprint ∧
    (AssessRisk ord now a).SocialPresence = a.SocialPresence ∧
    (AssessRisk ord now a).Whois = a.Whois ∧
    (AssessRisk ord now a).GoDaddyWhois = a.GoDaddyWhois ∧
    (AssessRisk ord now a).URLVoid = a.URLVoid ∧
    (AssessRisk ord now a).IPVoid = a.IPVoid ∧
    (AssessRisk ord now a).GoogleSafeBrowsing = a.GoogleSafeBrowsing ∧
    (AssessRisk ord now a).TrancoList = a.TrancoList ∧
    (AssessRisk ord now a).PageSize = a.PageSize ∧
    (AssessRisk ord now a).TrafficVolume = a.TrafficVolume ∧
    (AssessRisk ord now a).PopupAndAds = a.PopupAndAds ∧
    (AssessRisk ord now a).IsRiskyGeopolitical = a.IsRiskyGeopolitical ∧
    (AssessRisk ord now a).RiskScore = (CalculateRiskScore ord a).1 ∧
    (AssessRisk ord now a).RiskCategory = CategorizeRisk ord (CalculateRiskScore ord a).1 ∧
    (AssessRisk ord now a).RiskBreakdown = some (CalculateRiskScore ord a).2 ∧
    (AssessRisk ord now a).CreatedAt = now :=
  ⟨rfl, rfl, rfl, rfl, rfl, rfl, rfl, rfl, rfl, rfl, rfl, rfl, rfl, rfl, rfl, rfl, rfl, rfl,
    rfl, rfl, rfl⟩

/-- Claim C16 as stated fails: the creation timestamp that the orchestrator set
at the start of the run is replaced by the time of scoring. -/
theorem AssessRisk_overwrites_CreatedAt :
    borderlineCollected.CreatedAt = World.compliant.startTime ∧
    (AssessRisk RangeOrder.insertion World.compliant.scoreTime borderlineCollected).CreatedAt
      = World.compliant.scoreTime ∧
    (AssessRisk RangeOrder.insertion World.compliant.scoreTime borderlineCollected).CreatedAt
      ≠ borderlineCollected.CreatedAt ∧
    (RunAssessment World.compliant "example.com" "US").assessment.CreatedAt
      ≠ World.compliant.startTime := by
  decide

/-- Claim C11 on the code. `CheckTrafficVolume` of the scrapers package answers
"N/A" without error and the 4-point traffic rule fires on its result;
`TrafficVolumeChecker.Check` of the website_risk package answers "NA" without
error, which is not the sentinel, and the traffic rule does not fire on its
result. -/
theorem traffic_sentinel_differs_between_variants (ord : RangeOrder) (domain : String)
    (a : RiskAssessment) :
    (CheckTrafficVolume domain).GlobalRank = "N/A" ∧
    (CheckTrafficVolume domain).MonthlyVisits = "N/A" ∧
    (CheckTrafficVolume domain).Error = "" ∧
    (CalculateRiskScore ord { a with TrafficVolume := CheckTrafficVolume domain }).2.get?
      "traffic_vol_missing" = some 4 ∧
    (WebsiteRisk.TrafficVolumeChecker.Check domain).GlobalRank = "NA" ∧
    (WebsiteRisk.TrafficVolumeChecker.Check domain).MonthlyVisits = "NA" ∧
    (WebsiteRisk.TrafficVolumeChecker.Check domain).Error = "" ∧
    (CalculateRiskScore ord
      { a with TrafficVolume := WebsiteRisk.TrafficVolumeChecker.Check domain }).2.get?
      "traffic_vol_missing" = none := by
  have hrule : (⟨"traffic_vol_missing", 4, fun a =>
      a.TrafficVolume.GlobalRank == "N/A" && a.TrafficVolume.MonthlyVisits == "N/A"⟩
        : ScoreRule) ∈ ruleTable := by simp [ruleTable]
  refine ⟨rfl, rfl, rfl, ?_, rfl, rfl, rfl, ?_⟩
  · rw [breakdown_get ord _ _ hrule]
    rfl
  · rw [breakdown_get ord _ _ hrule]
    rfl

/-- Claim C18. No supported country is a risky country; US is supported
and not risky, RU is risky and not supported. -/
theorem supported_countries_not_risky (countryCode : String)
    (h : IsCountrySupported countryCode = true) :
    IsRiskyCountry countryCode = false ∧
    (∀ c ∈ OnboardingSupportedCountries, c ∉ RiskyCountries) ∧
    IsCountrySupported "US" = true ∧ IsRiskyCountry "US" = false ∧
    IsRiskyCountry "RU" = true ∧ IsCountrySupported "RU" = false := by
  refine ⟨?_, by decide, by decide, by decide, by decide, by decide⟩
  simp only [IsCountrySupported, OnboardingSupportedCountries, List.any_cons, List.any_nil,
    Bool.or_false, Bool.or_eq_true, beq_iff_eq] at h
  rcases h with h | h | h | h | h | h | h | h <;> subst h <;> decide

/-- Witness of claim C18 at the country code "GB". -/
theorem supported_countries_not_risky_witness :
    IsCountrySupported "GB" = true ∧ IsRiskyCountry "GB" = false :=
  ⟨by decide, (supported_countries_not_risky "GB" (by decide)).1⟩

/-! ## Geopolitical check -/

theorem containsAux_singleton (c : Char) (l : List Char) :
    containsAux [c] l = true ↔ c ∈ l := by
  induction l with
  | nil => simp [containsAux]
  | cons d ds ih =>
    simp only [containsAux, Bool.or_eq_true, ih, List.mem_cons]
    have hp : List.isPrefixOf [c] (d :: ds) = (c == d) := by
      simp [List.isPrefixOf]
    rw [hp]
    simp

theorem splitAux_first (sep : Char) (l rest : List Char) (h : sep ∉ l) :
    ∀ cur : List Char,
      splitAux sep (l ++ sep :: rest) cur = (cur.reverse ++ l) :: splitAux sep rest [] := by
  induction l with
  | nil => intro cur; simp [splitAux]
  | cons d ds ih =>
    intro cur
    have hd : (d == sep) = false := by
      rw [beq_eq_false_iff_ne]
      intro hc
      exact h (by rw [hc]; simp)
    have hds : sep ∉ ds := fun hc => h (List.mem_cons_of_mem _ hc)
    have hstep : splitAux sep ((d :: ds) ++ sep :: rest) cur
        = splitAux sep (ds ++ sep :: rest) (d :: cur) := by
      show splitAux sep (d :: (ds ++ sep :: rest)) cur = _
      simp only [splitAux, hd, Bool.false_eq_true, ↓reduceIte]
    rw [hstep, ih hds]
    simp

theorem dropWhile_none (p : Char → Bool) (l : List Char) (h : ∀ ch ∈ l, p ch = false) :
    l.dropWhile p = l := by
  cases l with
  | nil => rfl
  | cons d ds => simp [List.dropWhile, h d (List.mem_cons_self _ _)]

theorem Trim_parens_id (s : String)
    (h : ∀ ch ∈ s.data, ch ≠ '(' ∧ ch ≠ ')') : Trim s "()" = s := by
  have hp : ∀ ch ∈ s.data, ("()".data.contains ch) = false := by
    intro ch hch
    have := h ch hch
    simp [this.1, this.2]
  unfold Trim
  simp only
  rw [dropWhile_none _ _ hp,
    dropWhile_none _ _ (fun ch hch => hp ch (List.mem_reverse.mp hch)), List.reverse_reverse]

theorem IsRiskyCountry_iff (c : String) : IsRiskyCountry c = true ↔ c ∈ RiskyCountries := by
  unfold IsRiskyCountry
  rw [List.any_eq_true]
  constructor
  · rintro ⟨x, hx, hxc⟩
    have : x = c := by simpa using hxc
    exact this ▸ hx
  · intro h
    exact ⟨c, h, by simp⟩

/-- Claim C19. `CheckGeopoliticalRisk` reports a risk exactly when the resolved
code is in the risky list: a string without "(" is looked up as it is, and a
string of the form "CC (Country Name)", where CC holds no space and no
parenthesis, is looked up by its leading CC. -/
theorem CheckGeopoliticalRisk_resolves_code (cc name : String)
    (hcc : ∀ ch ∈ cc.data, ch ≠ ' ' ∧ ch ≠ '(' ∧ ch ≠ ')') :
    (CheckGeopoliticalRisk (cc ++ " (" ++ name ++ ")")).IsRisky = IsRiskyCountry cc ∧
    (∀ c : String, Contains c "(" = false →
      (CheckGeopoliticalRisk c).IsRisky = IsRiskyCountry c) ∧
    (∀ c : String, IsRiskyCountry c = true ↔ c ∈ RiskyCountries) ∧
    (CheckGeopoliticalRisk "US (United States)").IsRisky = false ∧
    (CheckGeopoliticalRisk "RU (Russia)").IsRisky = true := by
  refine ⟨?_, ?_, IsRiskyCountry_iff, by decide, by decide⟩
  · have hdata : (cc ++ " (" ++ name ++ ")").data
        = cc.data ++ ' ' :: ('(' :: (name.data ++ [')'])) := by
      simp [String.data_append]
    have hcont : Contains (cc ++ " (" ++ name ++ ")") "(" = true := by
      unfold Contains
      rw [hdata]
      exact (containsAux_singleton '(' _).mpr (by simp)
    have hsplit : Split (cc ++ " (" ++ name ++ ")") ' '
        = cc :: (splitAux ' ' ('(' :: (name.data ++ [')'])) []).map String.mk := by
      unfold Split
      rw [hdata, splitAux_first ' ' cc.data _ (fun hc => (hcc _ hc).1 rfl)]
      simp
    have htrim : Trim cc "()" = cc :=
      Trim_parens_id cc (fun ch hch => ⟨(hcc ch hch).2.1, (hcc ch hch).2.2⟩)
    unfold CheckGeopoliticalRisk
    simp only [hcont, ↓reduceIte, hsplit, htrim]
  · intro c hc
    unfold CheckGeopoliticalRisk
    simp [hc]

/-- Witness of claim C19 at "US (United States)". -/
theorem CheckGeopoliticalRisk_resolves_code_witness :
    (∀ ch ∈ "US".data, ch ≠ ' ' ∧ ch ≠ '(' ∧ ch ≠ ')') ∧
    (CheckGeopoliticalRisk ("US" ++ " (" ++ "United States" ++ ")")).IsRisky
      = IsRiskyCountry "US" :=
  ⟨by decide, (CheckGeopoliticalRisk_resolves_code "US" "United States" (by decide)).1⟩

/-! ## Legal-content collector failure -/

theorem rule_sum_lower (a : RiskAssessment) (rules sub : List ScoreRule)
    (hpos : ∀ r ∈ rules, 0 ≤ r.points) (hsub : List.Sublist sub rules)
    (hfire : ∀ r ∈ sub, r.fires a = true) :
    (sub.map ScoreRule.points).sum
      ≤ (rules.map (fun r => if r.fires a then r.points else 0)).sum := by
  induction hsub with
  | slnil => simp
  | cons r _ ih =>
    have h1 := hpos r (List.mem_cons_self _ _)
    have h2 := ih (fun q hq => hpos q (List.mem_cons_of_mem _ hq)) hfire
    simp only [List.map_cons, List.sum_cons]
    by_cases h : r.fires a <;> simp [h] <;> omega
  | cons₂ r _ ih =>
    have h2 := ih (fun q hq => hpos q (List.mem_cons_of_mem _ hq))
      (fun q hq => hfire q (List.mem_cons_of_mem _ hq))
    have hr := hfire r (List.mem_cons_self _ _)
    simp only [List.map_cons, List.sum_cons, hr, ↓reduceIte]
    omega

theorem RunAssessment_scored (w : World) (domainName countryCode : String)
    (h : IsCountrySupported countryCode = true) :
    (RunAssessment w domainName countryCode).assessment.PrivacyAndTerms
      = w.CheckPrivacyTerms domainName ∧
    (RunAssessment w domainName countryCode).assessment.TrafficVolume
      = CheckTrafficVolume domainName ∧
    (RunAssessment w domainName countryCode).assessment.RiskScore
      = (CalculateRiskScore w.ord (RunAssessment w domainName countryCode).assessment).1 ∧
    (RunAssessment w domainName countryCode).assessment.RiskBreakdown
      = some (CalculateRiskScore w.ord (RunAssessment w domainName countryCode).assessment).2 ∧
    (RunAssessment w domainName countryCode).assessment.RiskCategory
      = CategorizeRisk w.ord (RunAssessment w domainName countryCode).assessment.RiskScore := by
  simp only [RunAssessment, GetMerchantBusinessDetails, h, Bool.not_true, Bool.false_eq_true,
    ↓reduceIte]
  by_cases hip : (ExtractIPFromURLVoid (w.GetURLVoidData domainName) != "") = true
  · simp only [hip, ↓reduceIte]
    exact ⟨rfl, rfl, rfl, rfl, rfl⟩
  · simp only [hip, ↓reduceIte]
    exact ⟨rfl, rfl, rfl, rfl, rfl⟩

theorem RunAssessment_err (w : World) (domainName countryCode : String) :
    (RunAssessment w domainName countryCode).err = none := by
  unfold RunAssessment
  simp only
  split <;> rfl

theorem legal_rules_fire (ord : RangeOrder) (b : RiskAssessment)
    (hp : b.PrivacyAndTerms.PrivacyPolicyPresent = false)
    (ht : b.PrivacyAndTerms.TermsOfServicePresent = false) :
    (CalculateRiskScore ord b).2.get? "privacy_policy" = some 5 ∧
    (CalculateRiskScore ord b).2.get? "terms_of_service" = some 5 ∧
    10 ≤ (CalculateRiskScore ord b).1 := by
  refine ⟨?_, ?_, ?_⟩
  · exact (breakdown_get_some ord b
      ⟨"privacy_policy", 5, fun a => !a.PrivacyAndTerms.PrivacyPolicyPresent⟩
      (by simp [ruleTable])).mpr (by simp [hp])
  · exact (breakdown_get_some ord b
      ⟨"terms_of_service", 5, fun a => !a.PrivacyAndTerms.TermsOfServicePresent⟩
      (by simp [ruleTable])).mpr (by simp [ht])
  · rw [total_eq_rule_sum]
    have hl := rule_sum_lower b ruleTable (ruleTable.take 2) ruleTable_points_nonneg
      (List.take_sublist 2 ruleTable) (by
        intro r hr
        simp only [ruleTable, List.take, List.mem_cons, List.mem_singleton, List.not_mem_nil,
          or_false] at hr
        rcases hr with rfl | rfl
        · simp [hp]
        · simp [ht])
    have h10 : ((ruleTable.take 2).map ScoreRule.points).sum = 10 := by decide
    omega

/-- Claim C20. When the page fetch of the legal-content collector fails,
`CheckPrivacyTerms` returns `IsAccessible`, `PrivacyPolicyPresent` and
`TermsOfServicePresent` all false; a run for a supported country that uses this
collector still returns, with a nil error and a category, and its breakdown
holds the 5-point entries `privacy_policy` and `terms_of_service`, as it does
for every aggregate in which the two flags are false. -/
theorem CheckPrivacyTerms_failure_is_scored (net : PageNet) (w : World)
    (domainName countryCode msg : String)
    (hfetch : net.fetchPageContent domainName = .error msg)
    (hw : w.CheckPrivacyTerms domainName = CheckPrivacyTerms net w.lowerTable domainName)
    (hs : IsCountrySupported countryCode = true) :
    (CheckPrivacyTerms net w.lowerTable domainName).IsAccessible = false ∧
    (CheckPrivacyTerms net w.lowerTable domainName).PrivacyPolicyPresent = false ∧
    (CheckPrivacyTerms net w.lowerTable domainName).TermsOfServicePresent = false ∧
    (RunAssessment w domainName countryCode).err = none ∧
    (RunAssessment w domainName countryCode).assessment.RiskBreakdown
      = some (CalculateRiskScore w.ord (RunAssessment w domainName countryCode).assessment).2 ∧
    (CalculateRiskScore w.ord (RunAssessment w domainName countryCode).assessment).2.get?
      "privacy_policy" = some 5 ∧
    (CalculateRiskScore w.ord (RunAssessment w domainName countryCode).assessment).2.get?
      "terms_of_service" = some 5 ∧
    10 ≤ (RunAssessment w domainName countryCode).assessment.RiskScore ∧
    (RunAssessment w domainName countryCode).assessment.RiskCategory
      ∈ ["low_risk", "med_risk", "high_risk"] ∧
    (∀ (ord : RangeOrder) (b : RiskAssessment),
      b.PrivacyAndTerms.PrivacyPolicyPresent = false →
      b.PrivacyAndTerms.TermsOfServicePresent = false →
      (CalculateRiskScore ord b).2.get? "privacy_policy" = some 5 ∧
      (CalculateRiskScore ord b).2.get? "terms_of_service" = some 5) := by
  have hres : CheckPrivacyTerms net w.lowerTable domainName
      = { SSLValid := net.checkSSLValidity domainName } := by
    simp only [CheckPrivacyTerms, hfetch]
  obtain ⟨hslot, _, hscore, hbd, hcat⟩ := RunAssessment_scored w domainName countryCode hs
  have hp : (RunAssessment w domainName countryCode).assessment.PrivacyAndTerms.PrivacyPolicyPresent
      = false := by rw [hslot, hw, hres]
  have ht : (RunAssessment w domainName countryCode).assessment.PrivacyAndTerms.TermsOfServicePresent
      = false := by rw [hslot, hw, hres]
  obtain ⟨h1, h2, h3⟩ := legal_rules_fire w.ord _ hp ht
  refine ⟨by rw [hres], by rw [hres], by rw [hres],
    RunAssessment_err w domainName countryCode, hbd, h1, h2, by rw [hscore]; exact h3,
    hcat ▸ CategorizeRisk_mem w.ord _, ?_⟩
  intro ord b hbp hbt
  exact ⟨(legal_rules_fire ord b hbp hbt).1, (legal_rules_fire ord b hbp hbt).2.1⟩

/-- Witness of claim C20: every page fetch fails, the country is "US". -/
theorem CheckPrivacyTerms_failure_is_scored_witness :
    PageNet.unreachable.fetchPageContent "example.com" = .error "context deadline exceeded" ∧
    World.legalContentDown.CheckPrivacyTerms "example.com"
      = CheckPrivacyTerms PageNet.unreachable World.legalContentDown.lowerTable "example.com" ∧
    IsCountrySupported "US" = true ∧
    (CalculateRiskScore World.legalContentDown.ord
      (RunAssessment World.legalContentDown "example.com" "US").assessment).2.get?
      "privacy_policy" = some 5 ∧
    10 ≤ (RunAssessment World.legalContentDown "example.com" "US").assessment.RiskScore :=
  have hc := CheckPrivacyTerms_failure_is_scored PageNet.unreachable World.legalContentDown
    "example.com" "US" "context deadline exceeded" rfl rfl (by decide)
  ⟨rfl, rfl, by decide, hc.2.2.2.2.2.1, hc.2.2.2.2.2.2.2.1⟩

/-! ## Lemmas on the JSON model -/

theorem decStruct_obj {α : Type} (dec : List (String × Json) → Option α)
    (members : List (String × Json)) :
    decStruct dec (some (Json.obj members)) = dec members := rfl

theorem member_emit_nil (k : String) : member k (emit []) = none := rfl

theorem member_emit_cons (k k2 : String) (o : Option Json)
    (fs : List (String × Option Json)) :
    member k (emit ((k2, o) :: fs))
      = if k2 = k then (o <|> member k (emit fs)) else member k (emit fs) := by
  cases o with
  | none =>
    have : emit ((k2, none) :: fs) = emit fs := by simp [emit]
    rw [this]; simp
  | some v =>
    have : emit ((k2, some v) :: fs) = (k2, v) :: emit fs := by simp [emit]
    rw [this]
    by_cases h : k2 = k
    · simp [member, h]
    · simp [member, h]

theorem orElse_none_right (o : Option Json) : (o <|> none) = o := by
  cases o <;> rfl

theorem some_orElse (v : Json) (o : Option Json) : (some v <|> o) = some v := rfl

theorem toNat_valid_range (c : Char) :
    c.toNat < 0xD800 ∨ (0xDFFF < c.toNat ∧ c.toNat < 0x110000) := by
  have h := c.valid
  simpa [UInt32.isValidChar, Nat.isValidChar, Char.toNat] using h

theorem coerceUTF8_ascii (b0 : Nat) (rest : List Nat) (h : b0 < 0x80) :
    coerceUTF8 0 (b0 :: rest) = Char.ofNat b0 :: coerceUTF8 0 rest := by
  rw [coerceUTF8, if_pos h]

theorem coerceUTF8_multi (b0 n k : Nat) (rest : List Nat) (h : ¬ b0 < 0x80)
    (hd : decodeMultiByte b0 rest = some (n, k)) :
    coerceUTF8 0 (b0 :: rest) = Char.ofNat n :: coerceUTF8 k rest := by
  rw [coerceUTF8, if_neg h, hd]

theorem coerceUTF8_skip (k b : Nat) (rest : List Nat) :
    coerceUTF8 (k + 1) (b :: rest) = coerceUTF8 k rest := by
  rw [coerceUTF8]

theorem isContinuation_low (m : Nat) (h : m < 64) : isContinuation (0x80 + m) = true := by
  simp only [isContinuation, Bool.and_eq_true, decide_eq_true_eq]
  omega

theorem decodeMultiByte_two (n : Nat) (t : List Nat) (h1 : 0x80 ≤ n) (h2 : n < 0x800) :
    decodeMultiByte (0xC0 + n / 64) ((0x80 + n % 64) :: t) = some (n, 1) := by
  have hr : 0xC2 ≤ 0xC0 + n / 64 ∧ 0xC0 + n / 64 < 0xE0 := by omega
  have hk := isContinuation_low (n % 64) (by omega)
  have hn : (0xC0 + n / 64 - 0xC0) * 64 + (0x80 + n % 64 - 0x80) = n := by omega
  simp only [decodeMultiByte, if_pos hr, hk, ↓reduceIte, hn]

theorem decodeMultiByte_three (n : Nat) (t : List Nat) (h1 : 0x800 ≤ n) (h2 : n < 0x10000)
    (hs : ¬ (0xD800 ≤ n ∧ n < 0xE000)) :
    decodeMultiByte (0xE0 + n / 4096) ((0x80 + n / 64 % 64) :: (0x80 + n % 64) :: t)
      = some (n, 2) := by
  have hr2 : ¬ (0xC2 ≤ 0xE0 + n / 4096 ∧ 0xE0 + n / 4096 < 0xE0) := by omega
  have hr : 0xE0 ≤ 0xE0 + n / 4096 ∧ 0xE0 + n / 4096 < 0xF0 := by omega
  have hk1 := isContinuation_low (n / 64 % 64) (by omega)
  have hk2 := isContinuation_low (n % 64) (by omega)
  have hn : (0xE0 + n / 4096 - 0xE0) * 4096 + (0x80 + n / 64 % 64 - 0x80) * 64
      + (0x80 + n % 64 - 0x80) = n := by omega
  simp only [decodeMultiByte, if_neg hr2, if_pos hr, hk1, hk2, hn, h1, hs, true_and,
    not_false_eq_true, and_self, ↓reduceIte]

theorem decodeMultiByte_four (n : Nat) (t : List Nat) (h1 : 0x10000 ≤ n) (h2 : n < 0x110000) :
    decodeMultiByte (0xF0 + n / 262144)
        ((0x80 + n / 4096 % 64) :: (0x80 + n / 64 % 64) :: (0x80 + n % 64) :: t)
      = some (n, 3) := by
  have hr2 : ¬ (0xC2 ≤ 0xF0 + n / 262144 ∧ 0xF0 + n / 262144 < 0xE0) := by omega
  have hr3 : ¬ (0xE0 ≤ 0xF0 + n / 262144 ∧ 0xF0 + n / 262144 < 0xF0) := by omega
  have hr : 0xF0 ≤ 0xF0 + n / 262144 ∧ 0xF0 + n / 262144 < 0xF5 := by omega
  have hk1 := isContinuation_low (n / 4096 % 64) (by omega)
  have hk2 := isContinuation_low (n / 64 % 64) (by omega)
  have hk3 := isContinuation_low (n % 64) (by omega)
  have hn : (0xF0 + n / 262144 - 0xF0) * 262144 + (0x80 + n / 4096 % 64 - 0x80) * 4096
      + (0x80 + n / 64 % 64 - 0x80) * 64 + (0x80 + n % 64 - 0x80) = n := by omega
  simp only [decodeMultiByte, if_neg hr2, if_neg hr3, if_pos hr, hk1, hk2, hk3, hn, h1, h2,
    true_and, and_self, ↓reduceIte]

theorem coerceUTF8_encode (c : Char) (t : List Nat) :
    coerceUTF8 0 (utf8EncodeRune c ++ t) = c :: coerceUTF8 0 t := by
  have hv := toNat_valid_range c
  have hc : Char.ofNat c.toNat = c := Char.ofNat_toNat c
  unfold utf8EncodeRune
  dsimp only
  generalize c.toNat = n at hv hc
  by_cases h1 : n < 0x80
  · rw [if_pos h1]
    show coerceUTF8 0 (n :: t) = c :: coerceUTF8 0 t
    rw [coerceUTF8_ascii n t h1, hc]
  · rw [if_neg h1]
    by_cases h2 : n < 0x800
    · rw [if_pos h2]
      show coerceUTF8 0 ((0xC0 + n / 64) :: (0x80 + n % 64) :: t) = c :: coerceUTF8 0 t
      rw [coerceUTF8_multi _ n 1 _ (by omega) (decodeMultiByte_two n t (by omega) h2),
        coerceUTF8_skip, hc]
    · rw [if_neg h2]
      by_cases h3 : n < 0x10000
      · rw [if_pos h3]
        show coerceUTF8 0 ((0xE0 + n / 4096) :: (0x80 + n / 64 % 64) :: (0x80 + n % 64) :: t)
          = c :: coerceUTF8 0 t
        rw [coerceUTF8_multi _ n 2 _ (by omega)
            (decodeMultiByte_three n t (by omega) h3 (by omega)),
          coerceUTF8_skip, coerceUTF8_skip, hc]
      · rw [if_neg h3]
        show coerceUTF8 0 ((0xF0 + n / 262144) :: (0x80 + n / 4096 % 64)
            :: (0x80 + n / 64 % 64) :: (0x80 + n % 64) :: t) = c :: coerceUTF8 0 t
        rw [coerceUTF8_multi _ n 3 _ (by omega)
            (decodeMultiByte_four n t (by omega) (by omega)),
          coerceUTF8_skip, coerceUTF8_skip, coerceUTF8_skip, hc]

theorem coerceUTF8_flatMap (l : List Char) :
    coerceUTF8 0 (l.flatMap utf8EncodeRune) = l := by
  induction l with
  | nil => rfl
  | cons c cs ih => rw [List.flatMap_cons, coerceUTF8_encode, ih]

theorem marshalBytes_utf8Bytes (s : String) : marshalBytes (utf8Bytes s) = s := by
  unfold marshalBytes utf8Bytes
  rw [coerceUTF8_flatMap]

theorem marshalString_eq (s : String) : marshalString s = s :=
  marshalBytes_utf8Bytes s

theorem jsonString_eq (s : String) : jsonString s = Json.str s := by
  rw [jsonString, marshalString_eq]

theorem jsonString_fun : jsonString = Json.str :=
  funext jsonString_eq

theorem stringMember_fun :
    (fun p : String × String => (marshalString p.1, jsonString p.2))
      = (fun p => (p.1, Json.str p.2)) :=
  funext (fun p => by rw [marshalString_eq, jsonString_eq])

theorem intMember_fun :
    (fun p : String × Int => (marshalString p.1, Json.num p.2))
      = (fun p => (p.1, Json.num p.2)) :=
  funext (fun p => by rw [marshalString_eq])

theorem decString_encString (s : String) : decString (encString s) = some s := by
  rw [encString, jsonString_eq]
  rfl

theorem decString_encStringOmit (s : String) : decString (encStringOmit s) = some s := by
  unfold encStringOmit
  split
  · next h => rw [h]; rfl
  · rw [jsonString_eq]
    rfl

theorem decBool_encBool (b : Bool) : decBool (encBool b) = some b := rfl

theorem decInt_encInt (n : Int) : decInt (encInt n) = some n := rfl

theorem decodeAll_decString (xs : List String) :
    decodeAll (fun e => decString (some e)) (xs.map Json.str) = some xs := by
  induction xs with
  | nil => rfl
  | cons x xs ih =>
    simp only [List.map_cons, decodeAll, ih]
    rfl

theorem decStrings_encStrings (l : Option (List String)) :
    decStrings (encStrings l) = some l := by
  cases l with
  | none => rfl
  | some xs => simp [encStrings, decStrings, jsonString_fun, decodeAll_decString]

theorem decStrings_encStringsOmit (l : Option (List String)) :
    decStrings (encStringsOmit l) = some (dropEmpty l) := by
  cases l with
  | none => rfl
  | some xs =>
    cases xs with
    | nil => rfl
    | cons x xs =>
      simp only [encStringsOmit, jsonString_fun, decStrings, decodeAll_decString]
      rfl

theorem decodeAll_decStringMap (es : GoMap String) :
    decodeAll (fun m => (decString (some m.2)).map (fun v => (m.1, v)))
        (es.map (fun p => (p.1, Json.str p.2))) = some es := by
  induction es with
  | nil => rfl
  | cons e es ih =>
    simp only [List.map_cons, decodeAll, ih]
    rfl

theorem decStringMap_encStringMapOmit (m : Option (GoMap String)) :
    decStringMap (encStringMapOmit m) = some (dropEmpty m) := by
  cases m with
  | none => rfl
  | some es =>
    cases es with
    | nil => rfl
    | cons e es =>
      simp only [encStringMapOmit, stringMember_fun, decStringMap, decodeAll_decStringMap]
      rfl

theorem decodeAll_decIntMap (es : GoMap Int) :
    decodeAll (fun m => (decInt (some m.2)).map (fun v => (m.1, v)))
        (es.map (fun p => (p.1, Json.num p.2))) = some es := by
  induction es with
  | nil => rfl
  | cons e es ih =>
    simp only [List.map_cons, decodeAll, ih]
    rfl

theorem decIntMap_encIntMap (m : Option (GoMap Int)) :
    decIntMap (encIntMap m) = some m := by
  cases m with
  | none => rfl
  | some es => simp [encIntMap, decIntMap, intMember_fun, decodeAll_decIntMap]

theorem decTime_encTime (layout : TimeLayout) (t : Time) (h : t.valid = true) :
    decTime layout (encTime layout t) = some t.stripMonotonic := by
  simp only [Time.valid, yearInRange, Bool.and_eq_true, decide_eq_true_eq] at h
  simp only [encTime, decTime, layout.parse_format t.sec t.nsec h.1.1 h.1.2 h.2,
    Option.map_some', Time.stripMonotonic]

theorem decodeDetectionsCounts_encode (r : DetectionsCounts) :
    decStruct decodeDetectionsCounts (some (encodeDetectionsCounts r)) = some r := by
  rw [encodeDetectionsCounts, decStruct_obj]
  simp [decodeDetectionsCounts, member_emit_cons, member_emit_nil, orElse_none_right,
        some_orElse, decInt_encInt]

theorem decodeHTTPSResult_encode (r : HTTPSResult) :
    decStruct decodeHTTPSResult (some (encodeHTTPSResult r)) = some r := by
  rw [encodeHTTPSResult, decStruct_obj]
  simp [decodeHTTPSResult, member_emit_cons, member_emit_nil, orElse_none_right, some_orElse,
        decBool_encBool, decString_encString, decString_encStringOmit]

theorem decodeSSLFingerprintResult_encode (r : SSLFingerprintResult) :
    decStruct decodeSSLFingerprintResult (some (encodeSSLFingerprintResult r)) = some r := by
  rw [encodeSSLFingerprintResult, decStruct_obj]
  simp [decodeSSLFingerprintResult, member_emit_cons, member_emit_nil, orElse_none_right,
        some_orElse, decBool_encBool, decString_encString, decString_encStringOmit]

theorem decodePrivacyTermsResult_encode (r : PrivacyTermsResult) :
    decStruct decodePrivacyTermsResult (some (encodePrivacyTermsResult r)) = some r := by
  rw [encodePrivacyTermsResult, decStruct_obj]
  simp [decodePrivacyTermsResult, member_emit_cons, member_emit_nil, orElse_none_right,
        some_orElse, decBool_encBool, decString_encStringOmit]

theorem decodeURLVoidResult_encode (r : URLVoidResult) :
    decStruct decodeURLVoidResult (some (encodeURLVoidResult r)) = some r := by
  have hDetectionsCounts := decodeDetectionsCounts_encode
  rw [encodeURLVoidResult, decStruct_obj]
  simp [decodeURLVoidResult, member_emit_cons, member_emit_nil, orElse_none_right, some_orElse,
        decString_encStringOmit, hDetectionsCounts]

theorem decodePageSizeResult_encode (r : PageSizeResult) :
    decStruct decodePageSizeResult (some (encodePageSizeResult r)) = some r := by
  rw [encodePageSizeResult, decStruct_obj]
  simp [decodePageSizeResult, member_emit_cons, member_emit_nil, orElse_none_right, some_orElse,
        decInt_encInt, decString_encStringOmit]

theorem decodeTrafficVolumeResult_encode (r : TrafficVolumeResult) :
    decStruct decodeTrafficVolumeResult (some (encodeTrafficVolumeResult r)) = some r := by
  rw [encodeTrafficVolumeResult, decStruct_obj]
  simp [decodeTrafficVolumeResult, member_emit_cons, member_emit_nil, orElse_none_right,
        some_orElse, decString_encString, decString_encStringOmit]

theorem decodePopupAdsResult_encode (r : PopupAdsResult) :
    decStruct decodePopupAdsResult (some (encodePopupAdsResult r)) = some r := by
  rw [encodePopupAdsResult, decStruct_obj]
  simp [decodePopupAdsResult, member_emit_cons, member_emit_nil, orElse_none_right, some_orElse,
        decBool_encBool, decString_encStringOmit]

theorem decodeLinkedInPresence_encode (r : LinkedInPresence) :
    decStruct decodeLinkedInPresence (some (encodeLinkedInPresence r)) = some r := by
  rw [encodeLinkedInPresence, decStruct_obj]
  simp [decodeLinkedInPresence, member_emit_cons, member_emit_nil, orElse_none_right,
        some_orElse, decBool_encBool, decString_encStringOmit]

theorem decodeSocialPresence_encode (r : SocialPresence) :
    decStruct decodeSocialPresence (some (encodeSocialPresence r)) = some r := by
  have hLinkedInPresence := decodeLinkedInPresence_encode
  rw [encodeSocialPresence, decStruct_obj]
  simp [decodeSocialPresence, member_emit_cons, member_emit_nil, orElse_none_right, some_orElse, hLinkedInPresence]

theorem decodeSocialPresenceResult_encode (r : SocialPresenceResult) :
    decStruct decodeSocialPresenceResult (some (encodeSocialPresenceResult r)) = some r := by
  have hSocialPresence := decodeSocialPresence_encode
  rw [encodeSocialPresenceResult, decStruct_obj]
  simp [decodeSocialPresenceResult, member_emit_cons, member_emit_nil, orElse_none_right,
        some_orElse, hSocialPresence]

theorem decodeGoDaddyWhoisResult_encode (r : GoDaddyWhoisResult) :
    decStruct decodeGoDaddyWhoisResult (some (encodeGoDaddyWhoisResult r)) = some r := by
  rw [encodeGoDaddyWhoisResult, decStruct_obj]
  simp [decodeGoDaddyWhoisResult, member_emit_cons, member_emit_nil, orElse_none_right,
        some_orElse, decString_encString, decString_encStringOmit, decStrings_encStrings]

theorem decodeGoogleSafeBrowsingResult_encode (r : GoogleSafeBrowsingResult) :
    decStruct decodeGoogleSafeBrowsingResult (some (encodeGoogleSafeBrowsingResult r)) = some r := by
  rw [encodeGoogleSafeBrowsingResult, decStruct_obj]
  simp [decodeGoogleSafeBrowsingResult, member_emit_cons, member_emit_nil, orElse_none_right,
        some_orElse, decString_encString, decString_encStringOmit]

theorem decodeTrancoListResult_encode (r : TrancoListResult) :
    decStruct decodeTrancoListResult (some (encodeTrancoListResult r)) = some r := by
  rw [encodeTrancoListResult, decStruct_obj]
  simp [decodeTrancoListResult, member_emit_cons, member_emit_nil, orElse_none_right,
        some_orElse, decString_encString, decString_encStringOmit]

theorem decodeMerchantBusiness_encode (r : MerchantBusiness) :
    decStruct decodeMerchantBusiness (some (encodeMerchantBusiness r)) = some r := by
  rw [encodeMerchantBusiness, decStruct_obj]
  simp [decodeMerchantBusiness, member_emit_cons, member_emit_nil, orElse_none_right,
        some_orElse, decBool_encBool, decString_encString]

theorem decodeMCCDetails_encode (r : MCCDetails) :
    decStruct decodeMCCDetails (some (encodeMCCDetails r)) = some r := by
  rw [encodeMCCDetails, decStruct_obj]
  simp [decodeMCCDetails, member_emit_cons, member_emit_nil, orElse_none_right, some_orElse,
        decBool_encBool, decString_encString]

theorem decodeGeopoliticalRisk_encode (r : GeopoliticalRisk) :
    decStruct decodeGeopoliticalRisk (some (encodeGeopoliticalRisk r)) = some r := by
  rw [encodeGeopoliticalRisk, decStruct_obj]
  simp [decodeGeopoliticalRisk, member_emit_cons, member_emit_nil, orElse_none_right,
        some_orElse, decBool_encBool]

theorem decodeIPVoidResult_encode (r : IPVoidResult) :
    decStruct decodeIPVoidResult (some (encodeIPVoidResult r)) = some r.afterRoundTrip := by
  have hDetectionsCounts := decodeDetectionsCounts_encode
  rw [encodeIPVoidResult, decStruct_obj]
  simp [decodeIPVoidResult, member_emit_cons, member_emit_nil, orElse_none_right, some_orElse,
        decString_encString, decString_encStringOmit, decStringMap_encStringMapOmit,
        hDetectionsCounts, IPVoidResult.afterRoundTrip]

theorem decodeWhoisResult_encode (layout : TimeLayout) (r : WhoisResult)
    (hc : r.CreationDate.valid = true) (he : r.ExpirationDate.valid = true)
    (hu : r.UpdatedDate.valid = true) :
    decStruct (decodeWhoisResult layout) (some (encodeWhoisResult layout r))
      = some r.afterRoundTrip := by
  rw [encodeWhoisResult, decStruct_obj]
  simp [decodeWhoisResult, member_emit_cons, member_emit_nil, orElse_none_right, some_orElse,
        decString_encStringOmit, decStrings_encStringsOmit, decTime_encTime layout _ hc,
        decTime_encTime layout _ he, decTime_encTime layout _ hu, WhoisResult.afterRoundTrip]

theorem decodeRiskAssessment_encode (layout : TimeLayout) (a : RiskAssessment)
    (h : timesValid a = true) :
    decStruct (decodeRiskAssessment layout) (some (encodeRiskAssessment layout a))
      = some a.afterRoundTrip := by
  simp only [timesValid, Bool.and_eq_true] at h
  obtain ⟨⟨⟨hc, he⟩, hu⟩, ht⟩ := h
  have h1 := decodeMerchantBusiness_encode
  have h2 := decodeMCCDetails_encode
  have h3 := decodePrivacyTermsResult_encode
  have h4 := decodeHTTPSResult_encode
  have h5 := decodeSSLFingerprintResult_encode
  have h6 := decodeSocialPresenceResult_encode
  have h7 := decodeWhoisResult_encode layout a.Whois hc he hu
  have h8 := decodeGoDaddyWhoisResult_encode
  have h9 := decodeURLVoidResult_encode
  have h10 := decodeIPVoidResult_encode
  have h11 := decodeGoogleSafeBrowsingResult_encode
  have h12 := decodeTrancoListResult_encode
  have h13 := decodePageSizeResult_encode
  have h14 := decodeTrafficVolumeResult_encode
  have h15 := decodePopupAdsResult_encode
  have h16 := decodeGeopoliticalRisk_encode
  rw [encodeRiskAssessment, decStruct_obj]
  simp [decodeRiskAssessment, member_emit_cons, member_emit_nil, orElse_none_right, some_orElse,
        decString_encString, decInt_encInt, decIntMap_encIntMap, decTime_encTime layout _ ht,
        h1, h2, h3, h4, h5, h6, h7, h8, h9, h10, h11, h12, h13, h14, h15, h16,
        RiskAssessment.afterRoundTrip]

theorem afterRoundTrip_stable (a : RiskAssessment) (h : roundTripStable a = true) :
    a.afterRoundTrip = a := by
  simp only [roundTripStable, Bool.and_eq_true, Option.isNone_iff_eq_none, bne_iff_ne,
    ne_eq] at h
  obtain ⟨⟨⟨⟨⟨h1, h2⟩, h3⟩, h4⟩, h5⟩, h6⟩ := h
  have hd1 : dropEmpty a.Whois.NameServers = a.Whois.NameServers := by
    unfold dropEmpty
    split
    · next hh => exact absurd hh h5
    · rfl
  have hd2 : dropEmpty a.IPVoid.BlacklistStatus = a.IPVoid.BlacklistStatus := by
    unfold dropEmpty
    split
    · next hh => exact absurd hh h6
    · rfl
  have ht : ∀ t : Time, t.mono = none → t.stripMonotonic = t := by
    intro t hm
    cases t
    simp_all [Time.stripMonotonic]
  have hw : a.Whois.afterRoundTrip = a.Whois := by
    simp only [WhoisResult.afterRoundTrip, ht _ h1, ht _ h2, ht _ h3, hd1]
  have hi : a.IPVoid.afterRoundTrip = a.IPVoid := by
    simp only [IPVoidResult.afterRoundTrip, hd2]
  simp only [RiskAssessment.afterRoundTrip, hw, hi, ht _ h4]

theorem round_trip (layout : TimeLayout) (a : RiskAssessment) (h : timesValid a = true) :
    ToJSON layout a = .ok (encodeRiskAssessment layout a) ∧
    FromJSON layout (encodeRiskAssessment layout a) = .ok a.afterRoundTrip := by
  have hm : timesMarshal a = true := by
    simp only [timesValid, Time.valid, Bool.and_eq_true] at h
    simp only [timesMarshal, Bool.and_eq_true]
    exact ⟨⟨⟨h.1.1.1.1, h.1.1.2.1⟩, h.1.2.1⟩, h.2.1⟩
  refine ⟨by simp [ToJSON, hm], ?_⟩
  simp only [FromJSON, decodeRiskAssessment_encode layout a h]

theorem ToJSON_error (layout : TimeLayout) (b : RiskAssessment)
    (hb : timesMarshal b = false) :
    ToJSON layout b = .error ("json: error calling MarshalJSON for type time.Time: "
      ++ "Time.MarshalJSON: year outside of range [0,9999]") := by
  simp [ToJSON, hb]

/-! ## Serialization round trip -/

/-- Claim C17, amended. For every aggregate whose strings are valid UTF-8 (the
aggregates of the data model) and whose four timestamps are well-formed and
lie in the years 0 to 9999, `ToJSON` succeeds and `FromJSON` of its output
succeeds and yields the aggregate with the monotonic clock readings of the
timestamps dropped and with an empty non-nil `Whois.NameServers` or
`IPVoid.BlacklistStatus` replaced by nil; every other field is equal, and an
aggregate without such values comes back unchanged. `ToJSON` fails when a
timestamp lies outside the years 0 to 9999. The string encoder keeps exactly
the byte strings that are valid UTF-8: a string of the data model is written
unchanged, and the bytes of any Go string that encodes some sequence of code
points are read back as they were. -/
theorem FromJSON_ToJSON_round_trip (layout : TimeLayout) (a : RiskAssessment)
    (h : timesValid a = true) :
    (∀ s : String, marshalString s = s) ∧
    (∀ b : List Nat, (∃ s : String, utf8Bytes s = b) → utf8Bytes (marshalBytes b) = b) ∧
    ToJSON layout a = .ok (encodeRiskAssessment layout a) ∧
    FromJSON layout (encodeRiskAssessment layout a) = .ok a.afterRoundTrip ∧
    (roundTripStable a = true →
      FromJSON layout (encodeRiskAssessment layout a) = .ok a) ∧
    a.afterRoundTrip
      = { a with
          Whois :=
            { a.Whois with
              CreationDate := { a.Whois.CreationDate with mono := none }
              ExpirationDate := { a.Whois.ExpirationDate with mono := none }
              UpdatedDate := { a.Whois.UpdatedDate with mono := none }
              NameServers := if a.Whois.NameServers = some [] then none
                else a.Whois.NameServers }
          IPVoid :=
            { a.IPVoid with
              BlacklistStatus := if a.IPVoid.BlacklistStatus = some [] then none
                else a.IPVoid.BlacklistStatus }
          CreatedAt := { a.CreatedAt with mono := none } } ∧
    (∀ b : RiskAssessment, timesMarshal b = false → ∃ e, ToJSON layout b = .error e) := by
  obtain ⟨h1, h2⟩ := round_trip layout a h
  have hdrop : ∀ {α : Type} [DecidableEq α] (l : Option (List α)),
      dropEmpty l = if l = some [] then none else l := by
    intro α _ l
    unfold dropEmpty
    split
    · simp
    · next hne =>
      have : ¬ l = some [] := fun hc => hne hc
      simp [this]
  refine ⟨marshalString_eq, ?_, h1, h2, ?_, ?_, ?_⟩
  · rintro b ⟨s, rfl⟩
    rw [marshalBytes_utf8Bytes]
  · intro hs
    rw [h2, afterRoundTrip_stable a hs]
  · simp only [RiskAssessment.afterRoundTrip, WhoisResult.afterRoundTrip,
      IPVoidResult.afterRoundTrip, Time.stripMonotonic, hdrop]
  · intro b hb
    exact ⟨_, ToJSON_error layout b hb⟩

/-- Witness of claim C17: the aggregate of `TestJSONSerialization`, with the
tally layout. -/
theorem FromJSON_ToJSON_round_trip_witness :
    timesValid serializationTestAssessment = true ∧
    FromJSON TimeLayout.tally (encodeRiskAssessment TimeLayout.tally serializationTestAssessment)
      = .ok serializationTestAssessment.afterRoundTrip :=
  ⟨by decide,
    (FromJSON_ToJSON_round_trip TimeLayout.tally serializationTestAssessment
      (by decide)).2.2.2.1⟩

/-- Claim C17 as stated fails. `ToJSON` returns an error on an aggregate created
in the year 10000. The aggregate of `TestJSONSerialization` comes back without
the monotonic clock reading of its timestamp, and an aggregate with an empty
blacklist map comes back with a nil map; neither equals the original. A Go
string that is not valid UTF-8, such as the single byte 0xFF in a registrar
name cut from a raw WHOIS reply, is written as U+FFFD and read back as the
three bytes EF BF BD. -/
theorem json_round_trip_not_identity :
    (marshalBytes [0xFF] = String.mk [Char.ofNat 0xFFFD] ∧
      utf8Bytes (marshalBytes [0xFF]) = [0xEF, 0xBF, 0xBD] ∧
      utf8Bytes (marshalBytes [0xFF]) ≠ [0xFF]) ∧
    (∀ layout : TimeLayout, ∃ e, ToJSON layout farFutureAssessment = .error e) ∧
    (∀ layout : TimeLayout, ∃ doc b,
      ToJSON layout serializationTestAssessment = .ok doc ∧
      FromJSON layout doc = .ok b ∧ b ≠ serializationTestAssessment ∧
      b.CreatedAt.mono = none ∧ serializationTestAssessment.CreatedAt.mono = some 1) ∧
    (∀ layout : TimeLayout, ∃ doc b,
      ToJSON layout emptyBlacklistAssessment = .ok doc ∧
      FromJSON layout doc = .ok b ∧ b ≠ emptyBlacklistAssessment ∧
      b.IPVoid.BlacklistStatus = none ∧
      emptyBlacklistAssessment.IPVoid.BlacklistStatus = some []) := by
  refine ⟨by decide, fun layout => ⟨_, ToJSON_error layout farFutureAssessment (by decide)⟩,
    fun layout => ?_, fun layout => ?_⟩
  · obtain ⟨h1, h2⟩ := round_trip layout serializationTestAssessment (by decide)
    exact ⟨_, _, h1, h2, by decide, rfl, rfl⟩
  · obtain ⟨h1, h2⟩ := round_trip layout emptyBlacklistAssessment (by decide)
    exact ⟨_, _, h1, h2, by decide, rfl, rfl⟩

/-! ## Keyword fallback of the merchant-category step -/

/-- Claim C24. When the classifier reports an error, `CheckMCC` returns the
keyword fallback; on the eight domains of `TestMCCClassification` the fallback
gives the expected code for six of them and the default 7399 for
mcdonalds.com (expected 5812) and webmd.com (expected 8011), whatever the case
table. -/
theorem fallback_codes_on_test_domains (w : World) (domain : String)
    (herr : (w.ClassifyMCC domain).Error ≠ "") :
    CheckMCC w domain = fallbackMCCClassification w.lowerTable domain ∧
    (["bankofamerica.com", "casino.com", "bitcoin.com", "shopify.com", "mcdonalds.com",
        "hotels.com", "webmd.com", "example.com"].map
      (fun d => (fallbackMCCClassification w.lowerTable d).MCCCode))
      = ["6012", "7995", "6051", "5999", "7399", "7011", "7399", "7399"] ∧
    (fallbackMCCClassification w.lowerTable "mcdonalds.com").MCCCode ≠ "5812" ∧
    (fallbackMCCClassification w.lowerTable "webmd.com").MCCCode ≠ "8011" := by
  refine ⟨?_, rfl, ?_, ?_⟩
  · unfold CheckMCC
    have hb : ((w.ClassifyMCC domain).Error != "") = true := by simpa using herr
    simp only [hb, ↓reduceIte]
  · have h : (fallbackMCCClassification w.lowerTable "mcdonalds.com").MCCCode = "7399" := rfl
    rw [h]
    decide
  · have h : (fallbackMCCClassification w.lowerTable "webmd.com").MCCCode = "7399" := rfl
    rw [h]
    decide

theorem fallback_codes_on_test_domains_witness :
    (World.failing.ClassifyMCC "mcdonalds.com").Error ≠ "" ∧
    CheckMCC World.failing "mcdonalds.com"
      = fallbackMCCClassification World.failing.lowerTable "mcdonalds.com" ∧
    (["bankofamerica.com", "casino.com", "bitcoin.com", "shopify.com", "mcdonalds.com",
        "hotels.com", "webmd.com", "example.com"].map
      (fun d => (fallbackMCCClassification World.failing.lowerTable d).MCCCode))
      = ["6012", "7995", "6051", "5999", "7399", "7011", "7399", "7399"] ∧
    (fallbackMCCClassification World.failing.lowerTable "mcdonalds.com").MCCCode ≠ "5812" ∧
    (fallbackMCCClassification World.failing.lowerTable "webmd.com").MCCCode ≠ "8011" :=
  ⟨by decide, fallback_codes_on_test_domains World.failing "mcdonalds.com" (by decide)⟩

/-- Claim C29. The restricted flag of the keyword fallback agrees with the
restricted-MCC table on every domain except those classified 5999: for
"shopify.com" the fallback reports code 5999 as not restricted although 5999
is in `RestrictedMCCCodes`. -/
theorem fallback_restricted_flag_vs_table (tbl : Char → Char) (d : String) :
    ((fallbackMCCClassification tbl d).MCCRestricted
        = IsRestrictedMCC (fallbackMCCClassification tbl d).MCCCode
      ↔ (fallbackMCCClassification tbl d).MCCCode ≠ "5999") ∧
    (fallbackMCCClassification tbl "shopify.com").MCCCode = "5999" ∧
    (fallbackMCCClassification tbl "shopify.com").MCCRestricted = false ∧
    IsRestrictedMCC (fallbackMCCClassification tbl "shopify.com").MCCCode = true := by
  refine ⟨?_, rfl, rfl, rfl⟩
  unfold fallbackMCCClassification
  dsimp only
  split_ifs <;> decide

/-! ## Name-to-code fallback of the geopolitical step -/

theorem GoMap.get?_cases {V : Type} (m : GoMap V) (k : String) :
    m.get? k = none ∨ ∃ e ∈ m, e.1 = k ∧ m.get? k = some e.2 := by
  unfold GoMap.get?
  cases h : m.find? (fun e => e.1 == k) with
  | none => exact Or.inl rfl
  | some e =>
    refine Or.inr ⟨e, List.mem_of_find?_eq_some h, ?_, rfl⟩
    simpa using List.find?_some h

set_option maxRecDepth 8000 in
theorem countryMapping_risky :
    ∀ e ∈ countryMapping,
      ((CheckGeopoliticalRisk e.2).IsRisky = true ↔ (e.1 = "russia" ∨ e.1 = "venezuela")) := by
  decide

/-- Claim C30. The name-to-code fallback followed by the geopolitical check
flags a risk exactly for the names whose lower-case form is "russia" or
"venezuela"; the names of the other countries of the risky list, such as
"Iran" or "North Korea", are not in the mapping and resolve to the empty
string, which is not risky. -/
theorem name_fallback_risky_iff (tbl : Char → Char) (n : String) :
    ((CheckGeopoliticalRisk (extractCountryCodeFromName tbl n)).IsRisky = true
      ↔ (ToLower tbl n = "russia" ∨ ToLower tbl n = "venezuela")) ∧
    extractCountryCodeFromName tbl "Iran" = "" ∧
    extractCountryCodeFromName tbl "North Korea" = "" ∧
    (CheckGeopoliticalRisk "").IsRisky = false := by
  refine ⟨?_, rfl, rfl, by decide⟩
  rw [extractCountryCodeFromName_eq]
  generalize ToLower tbl n = s
  rcases GoMap.get?_cases countryMapping s with h | ⟨e, he, hk, h⟩
  · rw [h]
    have h0 : (CheckGeopoliticalRisk ((none : Option String).getD "")).IsRisky = false := by
      decide
    rw [h0]
    constructor
    · intro hf
      exact absurd hf (by decide)
    · rintro (rfl | rfl) <;> exact absurd h (by decide)
  · rw [h, ← hk]
    exact countryMapping_risky e he

/-! ## The traffic placeholder and the score -/

theorem traffic_rule_mem :
    (⟨"traffic_vol_missing", 4,
      fun a => a.TrafficVolume.GlobalRank == "N/A" && a.TrafficVolume.MonthlyVisits == "N/A"⟩
      : ScoreRule) ∈ ruleTable := by
  simp [ruleTable]

theorem traffic_rule_sublist :
    List.Sublist
      [(⟨"traffic_vol_missing", 4,
        fun a => a.TrafficVolume.GlobalRank == "N/A" && a.TrafficVolume.MonthlyVisits == "N/A"⟩
        : ScoreRule)] ruleTable := by
  rw [List.singleton_sublist]
  exact traffic_rule_mem

theorem traffic_placeholder_scores (ord : RangeOrder) (a : RiskAssessment) (domain : String)
    (h : a.TrafficVolume = CheckTrafficVolume domain) :
    (CalculateRiskScore ord a).2.get? "traffic_vol_missing" = some 4 ∧
    4 ≤ (CalculateRiskScore ord a).1 := by
  have hf : (a.TrafficVolume.GlobalRank == "N/A" && a.TrafficVolume.MonthlyVisits == "N/A")
      = true := by
    rw [h]
    rfl
  constructor
  · exact (breakdown_get_some ord a _ traffic_rule_mem).2 hf
  · have hl := rule_sum_lower a ruleTable _ ruleTable_points_nonneg traffic_rule_sublist
      (by
        intro r hr
        rw [List.mem_singleton] at hr
        subst hr
        exact hf)
    rw [← total_eq_rule_sum ord a] at hl
    simpa using hl

/-- Claim C27. For every domain and every supported country code, whatever the
other collectors return, the breakdown of the aggregate returned by
`RunAssessment` holds traffic_vol_missing = 4, and the score is at least 4 and
at most 99, hence never 0. -/
theorem RunAssessment_traffic_floor (w : World) (domainName countryCode : String)
    (h : IsCountrySupported countryCode = true) :
    ((RunAssessment w domainName countryCode).assessment.RiskBreakdown.bind
        (fun m => m.get? "traffic_vol_missing")) = some 4 ∧
    4 ≤ (RunAssessment w domainName countryCode).assessment.RiskScore ∧
    (RunAssessment w domainName countryCode).assessment.RiskScore ≤ 99 ∧
    (RunAssessment w domainName countryCode).assessment.RiskScore ≠ 0 := by
  obtain ⟨-, ht, hs, hb, -⟩ := RunAssessment_scored w domainName countryCode h
  have hp := traffic_placeholder_scores w.ord _ domainName ht
  have hu := (total_bounds w.ord (RunAssessment w domainName countryCode).assessment).2
  rw [hb, hs]
  refine ⟨hp.1, hp.2, hu, ?_⟩
  omega

theorem RunAssessment_traffic_floor_witness :
    IsCountrySupported "US" = true ∧
    ((RunAssessment World.failing "example.com" "US").assessment.RiskBreakdown.bind
        (fun m => m.get? "traffic_vol_missing")) = some 4 ∧
    4 ≤ (RunAssessment World.failing "example.com" "US").assessment.RiskScore ∧
    (RunAssessment World.failing "example.com" "US").assessment.RiskScore ≤ 99 ∧
    (RunAssessment World.failing "example.com" "US").assessment.RiskScore ≠ 0 :=
  ⟨by decide, RunAssessment_traffic_floor World.failing "example.com" "US" (by decide)⟩

/-! ## Monotonicity of the score -/

theorem rule_sum_mono (a b : RiskAssessment) (rules : List ScoreRule)
    (hpos : ∀ r ∈ rules, 0 ≤ r.points)
    (hinc : ∀ r ∈ rules, r.fires a = true → r.fires b = true) :
    (rules.map (fun r => if r.fires a then r.points else 0)).sum
      ≤ (rules.map (fun r => if r.fires b then r.points else 0)).sum ∧
    (rules.filter (fun r => r.fires a)).length ≤ (rules.filter (fun r => r.fires b)).length := by
  induction rules with
  | nil => simp
  | cons r rs ih =>
    have h1 := hpos r (List.mem_cons_self _ _)
    have h2 := ih (fun q hq => hpos q (List.mem_cons_of_mem _ hq))
      (fun q hq => hinc q (List.mem_cons_of_mem _ hq))
    have h3 := hinc r (List.mem_cons_self _ _)
    simp only [List.map_cons, List.sum_cons, List.filter_cons]
    by_cases ha : r.fires a = true
    · have hb := h3 ha
      simp only [ha, hb, ↓reduceIte, List.length_cons]
      omega
    · by_cases hb : r.fires b = true
      · simp only [ha, hb, ↓reduceIte, List.length_cons, Bool.false_eq_true]
        omega
      · simp only [ha, hb, ↓reduceIte, Bool.false_eq_true]
        omega

/-- Counterexample to claim C21 as stated: `httpsMissing` triggers one rule
and `adsAndNoTraffic` triggers two, yet the first scores 12 and the second
8. -/
theorem fewer_rules_higher_score :
    triggeredCount httpsMissing = 1 ∧ triggeredCount adsAndNoTraffic = 2 ∧
    (CalculateRiskScore RangeOrder.insertion httpsMissing).1 = 12 ∧
    (CalculateRiskScore RangeOrder.insertion adsAndNoTraffic).1 = 8 ∧
    triggeredCount httpsMissing ≤ triggeredCount adsAndNoTraffic ∧
    ¬ (CalculateRiskScore RangeOrder.insertion httpsMissing).1
        ≤ (CalculateRiskScore RangeOrder.insertion adsAndNoTraffic).1 := by
  decide

/-- Claim C21, amended. The score is monotonic in the set of triggered rules:
if every rule that fires on `a` also fires on `b`, then `b` triggers at least
as many rules and scores at least as much as `a`; every score lies between 0
and 99. -/
theorem CalculateRiskScore_monotone_in_fired_set (ord : RangeOrder) (a b : RiskAssessment)
    (hinc : ∀ r ∈ ruleTable, r.fires a = true → r.fires b = true) :
    triggeredCount a ≤ triggeredCount b ∧
    (CalculateRiskScore ord a).1 ≤ (CalculateRiskScore ord b).1 ∧
    0 ≤ (CalculateRiskScore ord a).1 ∧ (CalculateRiskScore ord b).1 ≤ 99 := by
  have hm := rule_sum_mono a b ruleTable ruleTable_points_nonneg hinc
  rw [← total_eq_rule_sum ord a, ← total_eq_rule_sum ord b] at hm
  exact ⟨hm.2, hm.1, (total_bounds ord a).1, (total_bounds ord b).2⟩

theorem CalculateRiskScore_monotone_in_fired_set_witness :
    (∀ r ∈ ruleTable, r.fires httpsMissing = true → r.fires worstCase = true) ∧
    triggeredCount httpsMissing ≤ triggeredCount worstCase ∧
    (CalculateRiskScore RangeOrder.reversed httpsMissing).1
      ≤ (CalculateRiskScore RangeOrder.reversed worstCase).1 ∧
    0 ≤ (CalculateRiskScore RangeOrder.reversed httpsMissing).1 ∧
    (CalculateRiskScore RangeOrder.reversed worstCase).1 ≤ 99 :=
  ⟨by decide,
   CalculateRiskScore_monotone_in_fired_set RangeOrder.reversed httpsMissing worstCase
    (by decide)⟩

/-! ## Domain cleaning of the website_risk collectors -/

theorem takeWhile_append_stop (P : Char → Bool) (h p : List Char)
    (hh : ∀ c ∈ h, P c = true) (hp : p.head?.all (fun c => !P c) = true) :
    (h ++ p).takeWhile P = h := by
  induction h with
  | nil =>
    cases p with
    | nil => rfl
    | cons c q =>
      have hc : P c = false := by simpa using hp
      simp [List.takeWhile, hc]
  | cons c cs ih =>
    have h1 := hh c (List.mem_cons_self _ _)
    have h2 := ih (fun d hd => hh d (List.mem_cons_of_mem _ hd))
    simp [List.takeWhile, h1, h2]

theorem takeWhile_drop_trailing (P : Char → Bool) (c : Char) (hc : P c = false)
    (t : List Char) : (t ++ [c]).takeWhile P = t.takeWhile P := by
  induction t with
  | nil => simp [List.takeWhile, hc]
  | cons d ds ih =>
    by_cases hd : P d = true
    · simp [List.takeWhile, hd, ih]
    · have hd2 : P d = false := by simpa using hd
      simp [List.takeWhile, hd2]

theorem TrimSuffix_slash_takeWhile (s : String) :
    (TrimSuffix s "/").data.takeWhile (fun c => c != '/')
      = s.data.takeWhile (fun c => c != '/') := by
  unfold TrimSuffix
  by_cases hs : List.isSuffixOf "/".data s.data = true
  · rw [if_pos hs]
    obtain ⟨t, ht⟩ := List.isSuffixOf_iff_suffix.1 hs
    have hd : "/".data = ['/'] := rfl
    rw [hd] at ht
    rw [← ht]
    have hl : (t ++ ['/']).length - "/".data.length = t.length := by
      simp [hd]
    rw [hl, List.take_left]
    exact (takeWhile_drop_trailing _ '/' (by decide) t).symm
  · rw [if_neg hs]

theorem cleanDomain_eq (domain : String) :
    cleanDomain domain
      = String.mk ((TrimPrefix (TrimPrefix domain "http://") "https://").data.takeWhile
          (fun c => c != '/')) := by
  unfold cleanDomain
  dsimp only
  have key := TrimSuffix_slash_takeWhile (TrimPrefix (TrimPrefix domain "http://") "https://")
  generalize TrimPrefix (TrimPrefix domain "http://") "https://" = q at key ⊢
  generalize TrimSuffix q "/" = r at key ⊢
  rw [← key]
  by_cases hc : Contains r "/" = true
  · rw [if_pos hc]
  · rw [if_neg hc]
    have hm : '/' ∉ r.data := by
      intro hm
      exact hc ((containsAux_singleton '/' r.data).2 hm)
    have ht : r.data.takeWhile (fun c => c != '/') = r.data := by
      rw [List.takeWhile_eq_self_iff]
      intro c hcm
      have : c ≠ '/' := fun e => hm (e ▸ hcm)
      simpa using this
    rw [ht]

theorem scheme_not_leading (pre stem rest : List Char) (h p : List Char)
    (hpre : pre = stem ++ ':' :: rest)
    (hstem : ∀ c ∈ stem, (c != '/' && c != ':') = true)
    (hh : ∀ c ∈ h, (c != '/' && c != ':') = true)
    (hp : p.head?.all (fun c => c == '/') = true) :
    pre.isPrefixOf (h ++ p) = false := by
  cases hb : pre.isPrefixOf (h ++ p) with
  | false => rfl
  | true =>
    exfalso
    obtain ⟨t, ht⟩ := List.isPrefixOf_iff_prefix.1 hb
    have hp2 : p.head?.all (fun c => !(c != '/' && c != ':')) = true := by
      cases p with
      | nil => rfl
      | cons c q =>
        have hc : c = '/' := by simpa using hp
        subst hc
        rfl
    have e1 := takeWhile_append_stop (fun c => c != '/' && c != ':') h p hh hp2
    have e2 := takeWhile_append_stop (fun c => c != '/' && c != ':') stem (':' :: rest ++ t)
      hstem (by rfl)
    rw [← ht, hpre] at e1
    rw [List.append_assoc] at e1
    rw [e2] at e1
    subst e1
    rw [hpre, List.append_assoc, List.append_cancel_left_eq] at ht
    cases p with
    | nil => simp at ht
    | cons c q =>
      have hc : c = '/' := by simpa using hp
      subst hc
      simp at ht

theorem TrimPrefix_append (pre x : List Char) :
    TrimPrefix (String.mk (pre ++ x)) (String.mk pre) = String.mk x := by
  unfold TrimPrefix
  have h : List.isPrefixOf pre (pre ++ x) = true :=
    List.isPrefixOf_iff_prefix.2 (List.prefix_append _ _)
  simp [h]

theorem TrimPrefix_none (pre s : String) (h : pre.data.isPrefixOf s.data = false) :
    TrimPrefix s pre = s := by
  unfold TrimPrefix
  simp [h]

/-- Counterexample to claim C22 as stated: the leading "www." survives, so
"https://www.example.com/shop/" is cleaned to "www.example.com" and not to
"example.com". -/
theorem cleanDomain_keeps_www :
    cleanDomain "https://www.example.com/shop/" = "www.example.com" ∧
    cleanDomain "https://www.example.com/shop/" ≠ "example.com" ∧
    cleanDomain "www.example.com" ≠ cleanDomain "example.com" := by
  decide

/-- Claim C22, amended. For every input string `cleanDomain` returns the input
with a leading "http://" removed, then a leading "https://" removed, cut
before the first remaining "/"; nothing else is removed. In particular, for a
scheme that is empty, "http://" or "https://", a host without "/" and ":" and
a path that is empty or starts with "/", the result is the host as written,
a leading "www." included. -/
theorem cleanDomain_strips_scheme_and_path :
    (∀ domain : String,
      cleanDomain domain
        = String.mk ((TrimPrefix (TrimPrefix domain "http://") "https://").data.takeWhile
            (fun c => c != '/'))) ∧
    (∀ scheme host path : String,
      (scheme = "" ∨ scheme = "http://" ∨ scheme = "https://") →
      (∀ c ∈ host.data, c ≠ '/' ∧ c ≠ ':') →
      (path = "" ∨ path.data.head? = some '/') →
      cleanDomain (scheme ++ host ++ path) = host) := by
  refine ⟨cleanDomain_eq, ?_⟩
  intro scheme host path hs hh hp
  have hh2 : ∀ c ∈ host.data, (c != '/' && c != ':') = true := by
    intro c hc
    have := hh c hc
    simp [this.1, this.2]
  have hp2 : path.data.head?.all (fun c => c == '/') = true := by
    rcases hp with rfl | hp
    · rfl
    · rw [hp]
      rfl
  have hp3 : path.data.head?.all (fun c => !(c != '/')) = true := by
    cases hd : path.data with
    | nil => rfl
    | cons c q =>
      rw [hd] at hp2
      have hc : c = '/' := by simpa using hp2
      subst hc
      rfl
  have n1 : "http://".data.isPrefixOf (host.data ++ path.data) = false :=
    scheme_not_leading _ ['h', 't', 't', 'p'] ['/', '/'] _ _ rfl (by decide) hh2 hp2
  have n2 : "https://".data.isPrefixOf (host.data ++ path.data) = false :=
    scheme_not_leading _ ['h', 't', 't', 'p', 's'] ['/', '/'] _ _ rfl (by decide) hh2 hp2
  have hstrip : TrimPrefix (TrimPrefix (scheme ++ host ++ path) "http://") "https://"
      = String.mk (host.data ++ path.data) := by
    rcases hs with rfl | rfl | rfl
    · have e : ("" ++ host ++ path) = String.mk (host.data ++ path.data) := by
        apply String.ext
        simp
      rw [e, TrimPrefix_none _ _ n1, TrimPrefix_none _ _ n2]
    · have e : ("http://" ++ host ++ path)
          = String.mk ("http://".data ++ (host.data ++ path.data)) := by
        apply String.ext
        simp
      rw [e]
      have := TrimPrefix_append "http://".data (host.data ++ path.data)
      rw [this, TrimPrefix_none _ _ n2]
    · have e : ("https://" ++ host ++ path)
          = String.mk ("https://".data ++ (host.data ++ path.data)) := by
        apply String.ext
        simp
      rw [e]
      have n3 : "http://".data.isPrefixOf ("https://".data ++ (host.data ++ path.data))
          = false := by
        simp [List.isPrefixOf]
      rw [TrimPrefix_none _ _ n3]
      exact TrimPrefix_append "https://".data (host.data ++ path.data)
  rw [cleanDomain_eq, hstrip]
  apply String.ext
  show (host.data ++ path.data).takeWhile (fun c => c != '/') = host.data
  exact takeWhile_append_stop _ _ _ (fun c hc => by simpa using (hh c hc).1) hp3

theorem cleanDomain_strips_scheme_and_path_witness :
    ("https://" = "" ∨ "https://" = "http://" ∨ "https://" = "https://") ∧
    (∀ c ∈ "www.example.com".data, c ≠ '/' ∧ c ≠ ':') ∧
    ("/shop/" = "" ∨ "/shop/".data.head? = some '/') ∧
    cleanDomain ("https://" ++ "www.example.com" ++ "/shop/") = "www.example.com" :=
  ⟨by decide, by decide, by decide,
   cleanDomain_strips_scheme_and_path.2 "https://" "www.example.com" "/shop/"
    (by decide) (by decide) (by decide)⟩

/-! ## Page size in whole kilobytes -/

theorem page_size_rule_mem :
    (⟨"page_size", 9, fun a => a.PageSize.PageSizeKB > 0 && a.PageSize.PageSizeKB < 100⟩
      : ScoreRule) ∈ ruleTable := by
  simp [ruleTable]

theorem CheckPageSize_serving (html domain : String) :
    CheckPageSize (SizeNet.serving html) domain
      = { PageSizeKB := (html.utf8ByteSize : Int) / 1024
          PageSizeBytes := (html.utf8ByteSize : Int)
          LoadTime := "120ms"
          Error := "" } := by
  simp [CheckPageSize, SizeNet.serving]

/-- Claim C25. For a successfully fetched page of `n` bytes, `CheckPageSize`
reports `n / 1024` whole kilobytes without an error, and the 9-point
small-page rule fires on that result exactly when 1024 ≤ n < 102400: a page
of 1 to 1023 bytes, such as the 41 bytes of `tinyPage`, is reported as 0 KB and
is not penalised. -/
theorem small_page_rule_misses_sub_kilobyte_pages (ord : RangeOrder) (html domain : String) :
    (CheckPageSize (SizeNet.serving html) domain).Error = "" ∧
    (CheckPageSize (SizeNet.serving html) domain).PageSizeBytes = (html.utf8ByteSize : Int) ∧
    (CheckPageSize (SizeNet.serving html) domain).PageSizeKB
      = (html.utf8ByteSize : Int) / 1024 ∧
    ((CalculateRiskScore ord
        { PageSize := CheckPageSize (SizeNet.serving html) domain }).2.get? "page_size" = some 9
      ↔ (1024 ≤ html.utf8ByteSize ∧ html.utf8ByteSize < 102400)) ∧
    (0 < tinyPage.utf8ByteSize ∧ tinyPage.utf8ByteSize < 100 * 1024) ∧
    (CheckPageSize (SizeNet.serving tinyPage) "example.com").PageSizeKB = 0 ∧
    (CalculateRiskScore RangeOrder.insertion
        { PageSize := CheckPageSize (SizeNet.serving tinyPage) "example.com" }).2.get?
      "page_size" = none := by
  refine ⟨?_, ?_, ?_, ?_, by decide, by decide, by decide⟩
  · rw [CheckPageSize_serving]
  · rw [CheckPageSize_serving]
  · rw [CheckPageSize_serving]
  · rw [breakdown_get_some ord _ _ page_size_rule_mem, CheckPageSize_serving]
    simp only [gt_iff_lt, Bool.and_eq_true, decide_eq_true_eq]
    omega

/-! ## Collection loop of the concurrent orchestrator -/

theorem WebsiteRisk.collect_comm (h : WebsiteRisk.Local.HTTPSResult)
    (s : WebsiteRisk.Local.SSLFingerprintResult) (p : WebsiteRisk.Local.PrivacyTermsResult)
    (so : WebsiteRisk.Local.SocialPresenceResult) (w : WebsiteRisk.Local.WhoisResult)
    (u : WebsiteRisk.URLVoidResult) (pg : WebsiteRisk.Local.PageSizeResult)
    (t : TrafficVolumeResult) (pa : PopupAdsResult) :
    ∀ x ∈ [WebsiteRisk.Message.https h, .sslFingerprint s, .privacyTerms p, .socialPresence so,
        .whois w, .urlVoid u, .pageSize pg, .trafficVolume t, .popupAds pa],
    ∀ y ∈ [WebsiteRisk.Message.https h, .sslFingerprint s, .privacyTerms p, .socialPresence so,
        .whois w, .urlVoid u, .pageSize pg, .trafficVolume t, .popupAds pa],
    ∀ z : WebsiteRisk.AssessmentResult,
      WebsiteRisk.collect (WebsiteRisk.collect z x) y
        = WebsiteRisk.collect (WebsiteRisk.collect z y) x := by
  intro x hx y hy z
  simp only [List.mem_cons, List.mem_singleton, List.not_mem_nil, or_false] at hx hy
  rcases hx with rfl | rfl | rfl | rfl | rfl | rfl | rfl | rfl | rfl <;>
    rcases hy with rfl | rfl | rfl | rfl | rfl | rfl | rfl | rfl | rfl <;> rfl

theorem WebsiteRisk.collect_perm (h : WebsiteRisk.Local.HTTPSResult)
    (s : WebsiteRisk.Local.SSLFingerprintResult) (p : WebsiteRisk.Local.PrivacyTermsResult)
    (so : WebsiteRisk.Local.SocialPresenceResult) (w : WebsiteRisk.Local.WhoisResult)
    (u : WebsiteRisk.URLVoidResult) (pg : WebsiteRisk.Local.PageSizeResult)
    (t : TrafficVolumeResult) (pa : PopupAdsResult) (received : List WebsiteRisk.Message)
    (hperm : List.Perm received
      [WebsiteRisk.Message.https h, .sslFingerprint s, .privacyTerms p, .socialPresence so,
        .whois w, .urlVoid u, .pageSize pg, .trafficVolume t, .popupAds pa]) :
    received.foldl WebsiteRisk.collect {}
      = { HTTPSCheck := h, SSLFingerprint := s, PrivacyAndTerms := p, SocialPresence := so,
          Whois := w, URLVoid := u, PageSize := pg, TrafficVolume := t, PopupAndAds := pa } := by
  rw [← List.Perm.foldl_eq' hperm.symm
    (WebsiteRisk.collect_comm h s p so w u pg t pa) {}]
  rfl

/-- Claim C23. The aggregate assembled by the collection loop does not depend
on the order of arrival: for nine results, one of each type, received in any
permutation, the loop ends with each result in its own field; hence
`Orchestrator.RunAssessment` gives the same `AssessmentResult` under every
arrival order. -/
theorem collection_loop_order_insensitive :
    (∀ (h : WebsiteRisk.Local.HTTPSResult) (s : WebsiteRisk.Local.SSLFingerprintResult)
      (p : WebsiteRisk.Local.PrivacyTermsResult) (so : WebsiteRisk.Local.SocialPresenceResult)
      (w : WebsiteRisk.Local.WhoisResult) (u : WebsiteRisk.URLVoidResult)
      (pg : WebsiteRisk.Local.PageSizeResult) (t : TrafficVolumeResult) (pa : PopupAdsResult)
      (received : List WebsiteRisk.Message),
      List.Perm received
        [WebsiteRisk.Message.https h, .sslFingerprint s, .privacyTerms p, .socialPresence so,
          .whois w, .urlVoid u, .pageSize pg, .trafficVolume t, .popupAds pa] →
      received.foldl WebsiteRisk.collect {}
        = { HTTPSCheck := h, SSLFingerprint := s, PrivacyAndTerms := p, SocialPresence := so,
            Whois := w, URLVoid := u, PageSize := pg, TrafficVolume := t,
            PopupAndAds := pa }) ∧
    (∀ (o : WebsiteRisk.Orchestrator) (a₁ a₂ : WebsiteRisk.Arrival) (domain : String),
      o.RunAssessment a₁ domain = o.RunAssessment a₂ domain ∧
      o.RunAssessment a₁ domain
        = { HTTPSCheck := o.httpsChecker domain
            SSLFingerprint := o.sslChecker domain
            PrivacyAndTerms := o.privacyChecker domain
            SocialPresence := o.socialChecker domain
            Whois := o.whoisChecker domain
            URLVoid :=
              { WebsiteAddress := domain
                LastAnalysis := o.today
                DetectionsCounts := { Detected := 0, Checks := 30 }
                BlacklistTests := { Blacklisted := 0, NotListed := 30, TotalTests := 30 } }
            PageSize := o.pageSizeChecker domain
            TrafficVolume := WebsiteRisk.TrafficVolumeChecker.Check domain
            PopupAndAds := WebsiteRisk.PopupAdsChecker.Check domain }) := by
  refine ⟨WebsiteRisk.collect_perm, ?_⟩
  intro o a₁ a₂ domain
  have key : ∀ a : WebsiteRisk.Arrival, o.RunAssessment a domain
      = { HTTPSCheck := o.httpsChecker domain
          SSLFingerprint := o.sslChecker domain
          PrivacyAndTerms := o.privacyChecker domain
          SocialPresence := o.socialChecker domain
          Whois := o.whoisChecker domain
          URLVoid :=
            { WebsiteAddress := domain
              LastAnalysis := o.today
              DetectionsCounts := { Detected := 0, Checks := 30 }
              BlacklistTests := { Blacklisted := 0, NotListed := 30, TotalTests := 30 } }
          PageSize := o.pageSizeChecker domain
          TrafficVolume := WebsiteRisk.TrafficVolumeChecker.Check domain
          PopupAndAds := WebsiteRisk.PopupAdsChecker.Check domain } := by
    intro a
    exact WebsiteRisk.collect_perm _ _ _ _ _ _ _ _ _ _ (a.perm _)
  exact ⟨(key a₁).trans (key a₂).symm, key a₁⟩

theorem collection_loop_order_insensitive_witness :
    List.Perm
      ((WebsiteRisk.Orchestrator.offline.scraperFuncs.map (fun fn => fn "example.com")).reverse)
      [WebsiteRisk.Message.https (WebsiteRisk.Orchestrator.offline.httpsChecker "example.com"),
        .sslFingerprint (WebsiteRisk.Orchestrator.offline.sslChecker "example.com"),
        .privacyTerms (WebsiteRisk.Orchestrator.offline.privacyChecker "example.com"),
        .socialPresence (WebsiteRisk.Orchestrator.offline.socialChecker "example.com"),
        .whois (WebsiteRisk.Orchestrator.offline.whoisChecker "example.com"),
        .urlVoid
          { WebsiteAddress := "example.com"
            LastAnalysis := "2025-01-15"
            DetectionsCounts := { Detected := 0, Checks := 30 }
            BlacklistTests := { Blacklisted := 0, NotListed := 30, TotalTests := 30 } },
        .pageSize (WebsiteRisk.Orchestrator.offline.pageSizeChecker "example.com"),
        .trafficVolume (WebsiteRisk.TrafficVolumeChecker.Check "example.com"),
        .popupAds (WebsiteRisk.PopupAdsChecker.Check "example.com")] ∧
    ((WebsiteRisk.Orchestrator.offline.scraperFuncs.map
        (fun fn => fn "example.com")).reverse.foldl WebsiteRisk.collect {}).PopupAndAds
      = WebsiteRisk.PopupAdsChecker.Check "example.com" :=
  ⟨List.reverse_perm _,
   congrArg WebsiteRisk.AssessmentResult.PopupAndAds
    (collection_loop_order_insensitive.1 _ _ _ _ _ _ _ _ _ _ (List.reverse_perm _))⟩

/-! ## The API view of a stored assessment -/

theorem CategorizeRisk_ne_empty (ord : RangeOrder) (s : Int) : CategorizeRisk ord s ≠ "" := by
  have h := CategorizeRisk_mem ord s
  intro he
  rw [he] at h
  exact absurd h (by decide)

/-- Claim C28. For a record created by `DoRiskAssessmentHandler` with a
supported country, `runAssessment` completes and writes the orchestrator's
score and category into `assessment_data` only: the pointer fields `RiskScore`
and `RiskCategory` of the stored record stay nil and the "country_supported"
entry is overwritten with the nil pointer `CountrySupported`. The API record
built from the stored record therefore reports score 0, an empty category and
an unsupported country, while the orchestrator computed a score of at least 4
and a non-empty category. -/
theorem api_record_drops_orchestrator_result (w : World) (clock : WebsiteRisk.RunClock)
    (cclock : WebsiteRisk.CreateClock) (assessmentCounter : Int) (userID : String)
    (req : WebsiteRisk.DoRiskAssessmentRequest)
    (h : WebsiteRisk.IsCountrySupported req.BillingCountryCode = true) :
    ∃ stored : WebsiteRisk.Assessment,
      WebsiteRisk.runAssessment w clock
          (WebsiteRisk.createAssessment cclock assessmentCounter userID req) = .ok stored ∧
      stored.Status = "completed" ∧
      stored.RiskScore = none ∧ stored.RiskCategory = none ∧
      (stored.AssessmentData.getD []).get? "risk_score"
        = some (Any.int (RunAssessment w req.Website req.BillingCountryCode).assessment.RiskScore) ∧
      (stored.AssessmentData.getD []).get? "risk_category"
        = some (Any.string
            (RunAssessment w req.Website req.BillingCountryCode).assessment.RiskCategory) ∧
      (stored.AssessmentData.getD []).get? "country_supported" = some (Any.boolPtr none) ∧
      (WebsiteRisk.convertToWebsiteRiskAssessment stored).RiskScore = 0 ∧
      (WebsiteRisk.convertToWebsiteRiskAssessment stored).RiskCategory = "" ∧
      (WebsiteRisk.convertToWebsiteRiskAssessment stored).MerchantBusiness.CountrySupported
        = false ∧
      4 ≤ (RunAssessment w req.Website req.BillingCountryCode).assessment.RiskScore ∧
      (RunAssessment w req.Website req.BillingCountryCode).assessment.RiskCategory ≠ "" := by
  have herr := RunAssessment_err w req.Website req.BillingCountryCode
  have hcs : WebsiteRisk.isCountrySupported req.BillingCountryCode = true := h
  have hsup : IsCountrySupported req.BillingCountryCode = true := h
  obtain ⟨-, ht, hs, -, hc⟩ := RunAssessment_scored w req.Website req.BillingCountryCode hsup
  have hfloor := (traffic_placeholder_scores w.ord _ req.Website ht).2
  rw [← hs] at hfloor
  have hcat : (RunAssessment w req.Website req.BillingCountryCode).assessment.RiskCategory ≠ "" := by
    rw [hc]
    exact CategorizeRisk_ne_empty _ _
  cases hr : WebsiteRisk.runAssessment w clock
      (WebsiteRisk.createAssessment cclock assessmentCounter userID req) with
  | error e =>
    simp [WebsiteRisk.runAssessment, WebsiteRisk.createAssessment, hcs, herr,
      WebsiteRisk.resultEntries, GoMap.set, GoMap.get?, Any.asBool, Any.asMap] at hr
  | ok stored =>
    simp [WebsiteRisk.runAssessment, WebsiteRisk.createAssessment, hcs, herr,
      WebsiteRisk.resultEntries, GoMap.set, GoMap.get?, Any.asBool, Any.asMap] at hr
    subst hr
    refine ⟨_, rfl, rfl, rfl, rfl, ?_, ?_, ?_, rfl, rfl, ?_, hfloor, hcat⟩
    · simp [GoMap.get?]
    · simp [GoMap.get?]
    · simp [GoMap.get?]
    · simp [WebsiteRisk.convertToWebsiteRiskAssessment, GoMap.get?, Any.asBool]

theorem api_record_drops_orchestrator_result_witness :
    WebsiteRisk.IsCountrySupported WebsiteRisk.sampleRequest.BillingCountryCode = true ∧
    ∃ stored : WebsiteRisk.Assessment,
      WebsiteRisk.runAssessment World.compliant WebsiteRisk.sampleRunClock
          (WebsiteRisk.createAssessment WebsiteRisk.sampleCreateClock 0 "user-1"
            WebsiteRisk.sampleRequest) = .ok stored ∧
      stored.Status = "completed" ∧
      stored.RiskScore = none ∧ stored.RiskCategory = none ∧
      (stored.AssessmentData.getD []).get? "risk_score"
        = some (Any.int (RunAssessment World.compliant WebsiteRisk.sampleRequest.Website
            WebsiteRisk.sampleRequest.BillingCountryCode).assessment.RiskScore) ∧
      (stored.AssessmentData.getD []).get? "risk_category"
        = some (Any.string (RunAssessment World.compliant WebsiteRisk.sampleRequest.Website
            WebsiteRisk.sampleRequest.BillingCountryCode).assessment.RiskCategory) ∧
      (stored.AssessmentData.getD []).get? "country_supported" = some (Any.boolPtr none) ∧
      (WebsiteRisk.convertToWebsiteRiskAssessment stored).RiskScore = 0 ∧
      (WebsiteRisk.convertToWebsiteRiskAssessment stored).RiskCategory = "" ∧
      (WebsiteRisk.convertToWebsiteRiskAssessment stored).MerchantBusiness.CountrySupported
        = false ∧
      4 ≤ (RunAssessment World.compliant WebsiteRisk.sampleRequest.Website
            WebsiteRisk.sampleRequest.BillingCountryCode).assessment.RiskScore ∧
      (RunAssessment World.compliant WebsiteRisk.sampleRequest.Website
            WebsiteRisk.sampleRequest.BillingCountryCode).assessment.RiskCategory ≠ "" :=
  ⟨by decide,
   api_record_drops_orchestrator_result World.compliant WebsiteRisk.sampleRunClock
    WebsiteRisk.sampleCreateClock 0 "user-1" WebsiteRisk.sampleRequest (by decide)⟩

/-! ## Time bounds of the collectors -/

theorem Call.returns_of_bounded (stalls : BlockingCall → String → Bool) (c : Call)
    (h : ∀ b ∈ c.blockingCalls, b.timeout.isSome = true) : c.returns stalls = true := by
  unfold Call.returns
  rw [List.all_eq_true]
  intro b hb
  simp [BlockingCall.comesBack, h b hb]

theorem RunAssessmentReturns_iff (w : World) (stalls : BlockingCall → String → Bool)
    (domainName countryCode : String) (h : IsCountrySupported countryCode = true) :
    RunAssessmentReturns w stalls domainName countryCode = true
      ↔ (stalls BlockingCall.privacyTLSDial domainName = false ∧
         stalls BlockingCall.classifierChatCompletion domainName = false) := by
  unfold RunAssessmentReturns
  simp only [RunAssessment, GetMerchantBusinessDetails, h, Bool.not_true, Bool.false_eq_true,
    ↓reduceIte]
  by_cases hip : (ExtractIPFromURLVoid (w.GetURLVoidData domainName) != "") = true
  · simp only [hip, ↓reduceIte]
    simp [Call.returns, Call.blockingCalls, Call.argument, BlockingCall.comesBack,
      BlockingCall.timeout]
    tauto
  · simp only [hip, ↓reduceIte]
    simp [Call.returns, Call.blockingCalls, Call.argument, BlockingCall.comesBack,
      BlockingCall.timeout]
    tauto

/-- Claim C26. Every blocking call of the collectors carries a bound between 5
and 45 seconds, except two that carry none: the TLS dial of `checkSSLValidity`
and the chat completion of `classifyWithOpenAI`. For a supported country
`RunAssessment` therefore returns exactly when neither of these two calls
stalls, and it does not return for a domain whose port 443 accepts the
connection and never answers the handshake. A failure of the legal-content
collector is not reported either: its result has no error field, and a page
that fails to parse gives the same result as a page without text. -/
theorem collectors_not_all_bounded (w : World) (stalls : BlockingCall → String → Bool)
    (domainName countryCode : String) (h : IsCountrySupported countryCode = true) :
    (∀ b : BlockingCall, b.timeout = none
      ↔ (b = BlockingCall.privacyTLSDial ∨ b = BlockingCall.classifierChatCompletion)) ∧
    (∀ (b : BlockingCall) (t : Nat), b.timeout = some t → 5 ≤ t ∧ t ≤ 45) ∧
    (RunAssessmentReturns w stalls domainName countryCode = true
      ↔ (stalls BlockingCall.privacyTLSDial domainName = false ∧
         stalls BlockingCall.classifierChatCompletion domainName = false)) ∧
    RunAssessmentReturns w silentTLSPeer domainName countryCode = false ∧
    CheckPrivacyTerms PageNet.unparsable w.lowerTable domainName
      = CheckPrivacyTerms PageNet.blank w.lowerTable domainName := by
  refine ⟨?_, ?_, RunAssessmentReturns_iff w stalls domainName countryCode h, ?_, rfl⟩
  · intro b
    cases b <;> simp [BlockingCall.timeout]
  · intro b t ht
    cases b <;> simp [BlockingCall.timeout] at ht <;> omega
  · have hr := RunAssessmentReturns_iff w silentTLSPeer domainName countryCode h
    cases hb : RunAssessmentReturns w silentTLSPeer domainName countryCode with
    | false => rfl
    | true =>
      have hs := (hr.1 hb).1
      have ht : silentTLSPeer BlockingCall.privacyTLSDial domainName = true := rfl
      rw [ht] at hs
      exact absurd hs (by decide)

/-- Witness of claim C26: the compliant world, with a silent TLS peer. -/
theorem collectors_not_all_bounded_witness :
    IsCountrySupported "US" = true ∧
    RunAssessmentReturns World.compliant silentTLSPeer "example.com" "US" = false ∧
    RunAssessmentReturns World.compliant (fun _ _ => false) "example.com" "US" = true :=
  ⟨by decide,
   (collectors_not_all_bounded World.compliant silentTLSPeer "example.com" "US"
      (by decide)).2.2.2.1,
   (collectors_not_all_bounded World.compliant (fun _ _ => false) "example.com" "US"
      (by decide)).2.2.1.2 ⟨rfl, rfl⟩⟩

end Scrapers
